import Mathlib

/-!
ICU `DecimalFormat` (`decimfmt.cpp`): shallow embedding and verified properties.

The embedding follows
`src/modules/web/src/main/native/Source/ThirdParty/icu/source/i18n/decimfmt.cpp`.

* 32-bit integers of the source are `Int`; no modelled setter does arithmetic on
  them, so no wrap-around is involved there. Where the source narrows or negates
  (`int8_t` counters, `-input`, `static_cast<char16_t>`), the wrap is explicit.
* `UnicodeString` is `Option (List Char16)`, `none` being the bogus string.
* Nullable property fields (`NullableValue<T>`) are `Option`.
* Code that `decimfmt.cpp` calls but that lives in other translation units
  (`NumberPropertyMapper::create`, the `NumberFormat` base-class setters,
  `DecimalFormatProperties::equalsDefaultExceptFastFormat`, the pattern parser, the
  parser builder, the parser itself, the comparisons of two bags and of two symbol
  records, the `NumberFormat` getters) is a field of `Collaborators`; theorems
  quantify over every such record.
* A `double` is its bit pattern; only the comparison `==` is modelled.
* A parser object is a number; a parser slot is `Option Nat`, `none` being null.
* Where two objects are involved (copy construction, assignment), they live in a
  `Store` indexed by address.
-/

namespace Decimfmt

/-! ## Basic types -/

/-- UTF-16 code unit (`char16_t`). -/
abbrev Char16 := Nat

/-- The `UnicodeString` of the property bag and of the symbols: `none` is the bogus
(unset) string, `some us` a string with code units `us`. -/
abbrev UnicodeString := Option (List Char16)

/-- Text being appended to (the `UnicodeString& output` / `appendTo` arguments). -/
abbrev TextBuffer := List Char16

/-- `UErrorCode`: zero is success, below zero a warning, above zero a failure. -/
abbrev UErrorCode := Int

/-- Modelled from the spec: the `U_ZERO_ERROR` constant of `unicode/utypes.h`. -/
def U_ZERO_ERROR : UErrorCode := 0

/-- Modelled from the spec: the `U_MEMORY_ALLOCATION_ERROR` constant of `unicode/utypes.h`. -/
def U_MEMORY_ALLOCATION_ERROR : UErrorCode := 7

/-- Modelled from the spec: the `U_UNSUPPORTED_ERROR` constant of `unicode/utypes.h`. -/
def U_UNSUPPORTED_ERROR : UErrorCode := 16

/-- Modelled from the spec: the `U_FAILURE` macro of `unicode/utypes.h`. -/
def U_FAILURE (status : UErrorCode) : Bool := decide (status > U_ZERO_ERROR)

/-- Modelled from the spec: the `U_SUCCESS` macro of `unicode/utypes.h`. -/
def U_SUCCESS (status : UErrorCode) : Bool := decide (status ≤ U_ZERO_ERROR)

/-- Conversion of an `int` to `int8_t` (two's complement wrap). -/
def wrapInt8 (x : Int) : Int := (x + 128) % 256 - 128

/-- Conversion of an `int` to `int32_t` (two's complement wrap). -/
def wrapInt32 (x : Int) : Int := (x + 2147483648) % 4294967296 - 2147483648

/-- Conversion of an `int` to `char16_t`. -/
def toChar16 (x : Int) : Char16 := (x % 65536).toNat

/-- `INT32_MIN`. -/
def INT32_MIN : Int := -2147483648

/-- `INT32_MAX`. -/
def INT32_MAX : Int := 2147483647

/-- `UBool` is `int8_t`; this is the cast `(UBool) newValue` from `int32_t`. -/
def toUBool (x : Int) : Int := wrapInt8 x

/-- Integer value of a C++ `bool` in a comparison with a `UBool`. -/
def boolToInt (b : Bool) : Int := if b then 1 else 0

namespace UnicodeString

/-- `UnicodeString::isBogus`. -/
def isBogus (s : UnicodeString) : Bool := s.isNone

/-- `UnicodeString::length`; a bogus string has length zero. -/
def length (s : UnicodeString) : Int :=
  match s with
  | none => 0
  | some us => us.length

/-- `UnicodeString::isEmpty`: length zero (true of the bogus string as well). -/
def isEmpty (s : UnicodeString) : Bool := decide (length s = 0)

/-- `UnicodeString::charAt`: the code unit at `offset`, `0xFFFF` when out of range. -/
def charAt (s : UnicodeString) (offset : Nat) : Char16 :=
  match s with
  | none => 0xFFFF
  | some us => us.getD offset 0xFFFF

end UnicodeString

/-- `ParseMode` of the property bag. -/
inductive ParseMode where
  | PARSE_MODE_LENIENT
  | PARSE_MODE_STRICT
deriving DecidableEq

/-! ## The property bag -/

/-- A `double`, given by its IEEE 754 binary64 bit pattern (below `2^64`). Only the
comparison `==` of the source is modelled, no arithmetic. -/
structure Double where
  bits : Nat
deriving DecidableEq

/-- The bit pattern is a NaN: exponent field all ones and a non-zero fraction. -/
def Double.isNaN (x : Double) : Bool :=
  decide (x.bits / 2 ^ 52 % 2 ^ 11 = 2047) && decide (x.bits % 2 ^ 52 ≠ 0)

/-- The comparison `a == b` of two `double`s: false when one of them is a NaN, true for
the two zeros, otherwise equality of the bit patterns. -/
def Double.eq (a b : Double) : Bool :=
  !a.isNaN && !b.isNaN &&
    (decide (a.bits = b.bits) || (decide (a.bits % 2 ^ 63 = 0) && decide (b.bits % 2 ^ 63 = 0)))

/-- `DecimalFormatProperties`: the fields of the property bag that `decimfmt.cpp`
reads or writes. -/
structure DecimalFormatProperties where
  currency : Option (List Char16)
  currencyPluralInfo : Option Nat
  currencyUsage : Option Int
  decimalPatternMatchRequired : Bool
  decimalSeparatorAlwaysShown : Bool
  exponentSignAlwaysShown : Bool
  formatFailIfMoreThanMaxDigits : Bool
  formatWidth : Int
  groupingSize : Int
  groupingUsed : Bool
  magnitudeMultiplier : Int
  maximumFractionDigits : Int
  maximumIntegerDigits : Int
  maximumSignificantDigits : Int
  minimumExponentDigits : Int
  minimumFractionDigits : Int
  minimumGroupingDigits : Int
  minimumIntegerDigits : Int
  minimumSignificantDigits : Int
  multiplier : Int
  multiplierScale : Int
  negativePrefix : UnicodeString
  negativePrefixPattern : UnicodeString
  negativeSuffix : UnicodeString
  negativeSuffixPattern : UnicodeString
  padPosition : Option Int
  padString : UnicodeString
  parseAllInput : Int
  parseCaseSensitive : Bool
  parseIntegerOnly : Bool
  parseMode : Option ParseMode
  parseNoExponent : Bool
  positivePrefix : UnicodeString
  positivePrefixPattern : UnicodeString
  positiveSuffix : UnicodeString
  positiveSuffixPattern : UnicodeString
  roundingIncrement : Double
  roundingMode : Option Int
  secondaryGroupingSize : Int
  signAlwaysShown : Bool
deriving DecidableEq

/-- `DecimalFormatSymbols`, as far as `decimfmt.cpp` reads it: the grouping separator
and minus sign strings and `getCodePointZero()` (a `UChar32`, `-1` when the ten
digits are not consecutive code points). -/
structure DecimalFormatSymbols where
  kGroupingSeparatorSymbol : UnicodeString
  kMinusSignSymbol : UnicodeString
  codePointZero : Int
deriving DecidableEq

/-- Modelled from the spec: the `U16_LENGTH` macro of `unicode/utf16.h`: one code unit
for a code point up to `0xFFFF` (compared as `uint32_t`), two otherwise. -/
def U16_LENGTH (c : Int) : Int := if c % 4294967296 ≤ 0xFFFF then 1 else 2

/-- `DecimalFormatFields::fastData`. -/
structure FastFormatData where
  cpZero : Char16
  cpGroupingSeparator : Char16
  cpMinusSign : Char16
  minInt : Int
  maxInt : Int
deriving DecidableEq

/-- The compiled general formatter (`LocalizedNumberFormatter`), as the text
`formatInt(number).appendTo` produces. -/
structure LocalizedNumberFormatter where
  formatInt : Int → List Char16

/-- `DecimalFormatFields`: what `fields->` points at. The parser slots hold an
identifier of the cached parser, `none` being `nullptr`. -/
structure DecimalFormatFields where
  properties : DecimalFormatProperties
  symbols : DecimalFormatSymbols
  exportedProperties : Option DecimalFormatProperties
  formatter : Option LocalizedNumberFormatter
  canUseFastFormat : Bool
  fastData : FastFormatData
  atomicParser : Option Nat
  atomicCurrencyParser : Option Nat

/-- The `NumberFormat` base-class fields that `DecimalFormat` keeps populated
"for compatibility" and "in order for the getters to work". -/
structure NumberFormat where
  fGroupingUsed : Bool
  fMaxIntegerDigits : Int
  fMinIntegerDigits : Int
  fMaxFractionDigits : Int
  fMinFractionDigits : Int
  fParseIntegerOnly : Bool
  fLenient : Bool
  fCurrency : List Char16
deriving DecidableEq

/-- A `DecimalFormat` object: the base-class part and `fields`. -/
structure DecimalFormat where
  base : NumberFormat
  fields : DecimalFormatFields

/-- A `Formattable` value, by an identifying number. -/
structure Formattable where
  id : Nat
deriving DecidableEq

/-- `ParsePosition`: the index and the error index. -/
structure ParsePosition where
  index : Int
  errorIndex : Int
deriving DecidableEq

/-- `ParsedNumber` as far as `parse` and `parseCurrency` read it: what `success()`
returns, the fields `charEnd` and `currencyCode`, and an identifying number for the
quantity parsed. -/
structure ParsedNumber where
  success : Bool
  charEnd : Int
  currencyCode : List Char16
  quantity : Nat
deriving DecidableEq

/-- `CurrencyAmount`, by the arguments of its constructor
`CurrencyAmount(formattable, isoCode, status)`. -/
structure CurrencyAmount where
  amount : Formattable
  isoCode : List Char16
  status : UErrorCode
deriving DecidableEq

/-- Functions called by `decimfmt.cpp` whose bodies live in other translation units. -/
structure Collaborators where
  /-- `NumberPropertyMapper::create(properties, symbols, warehouse, exportedProperties, status)`
  wrapped into a `LocalizedNumberFormatter`: returns the formatter, the exported
  properties it filled in and the status. -/
  create : DecimalFormatProperties → DecimalFormatSymbols → DecimalFormatProperties →
    UErrorCode → LocalizedNumberFormatter × DecimalFormatProperties × UErrorCode
  /-- `DecimalFormatProperties::equalsDefaultExceptFastFormat`. -/
  equalsDefaultExceptFastFormat : DecimalFormatProperties → Bool
  /-- `NumberFormat::setCurrency(exportedProperties->currency.get(status).getISOCurrency(), status)`. -/
  setCurrency : NumberFormat → Option (List Char16) → UErrorCode → NumberFormat × UErrorCode
  /-- `NumberFormat::setMaximumIntegerDigits`. -/
  setMaximumIntegerDigits : NumberFormat → Int → NumberFormat
  /-- `NumberFormat::setMinimumIntegerDigits`. -/
  setMinimumIntegerDigits : NumberFormat → Int → NumberFormat
  /-- `NumberFormat::setMaximumFractionDigits`. -/
  setMaximumFractionDigits : NumberFormat → Int → NumberFormat
  /-- `NumberFormat::setMinimumFractionDigits`. -/
  setMinimumFractionDigits : NumberFormat → Int → NumberFormat
  /-- `NumberFormat::setGroupingUsed`. -/
  setGroupingUsed : NumberFormat → Bool → NumberFormat
  /-- `NumberFormat::setParseIntegerOnly`. -/
  setParseIntegerOnly : NumberFormat → Bool → NumberFormat
  /-- `NumberFormat::setLenient`. -/
  setLenient : NumberFormat → Bool → NumberFormat
  /-- The build-time switch `UCONFIG_HAVE_PARSEALLINPUT`. -/
  UCONFIG_HAVE_PARSEALLINPUT : Bool
  /-- The constructor `CurrencyUnit(theCurrency, ec)`: the currency it denotes and the
  status. -/
  currencyUnit : Option (List Char16) → UErrorCode → List Char16 × UErrorCode
  /-- `PatternParser::parseToExistingProperties(pattern, properties, ignoreRounding, status)`:
  the bag and the status it leaves. -/
  parseToExistingProperties : UnicodeString → DecimalFormatProperties → Int → UErrorCode →
    DecimalFormatProperties × UErrorCode
  /-- `PatternStringUtils::convertLocalized(input, symbols, toLocalized, status)`. -/
  convertLocalized : UnicodeString → DecimalFormatSymbols → Bool → UErrorCode →
    UnicodeString × UErrorCode
  /-- `NumberParserImpl::createParserFromProperties(properties, symbols, parseCurrency, status)`:
  the parser built (`none` is `nullptr`) and the status. -/
  createParserFromProperties : DecimalFormatProperties → DecimalFormatSymbols → Bool →
    UErrorCode → Option Nat × UErrorCode
  /-- `DecimalFormatProperties::operator==`. -/
  propertiesEquals : DecimalFormatProperties → DecimalFormatProperties → Bool
  /-- `DecimalFormatSymbols::operator==`. -/
  symbolsEquals : DecimalFormatSymbols → DecimalFormatSymbols → Bool
  /-- `NumberFormat::isLenient`. -/
  isLenient : NumberFormat → Int
  /-- `NumberFormat::isParseIntegerOnly`. -/
  isParseIntegerOnly : NumberFormat → Int
  /-- `NumberFormat::isGroupingUsed`. -/
  isGroupingUsed : NumberFormat → Int
  /-- `NumberFormat::getMaximumIntegerDigits`. -/
  getMaximumIntegerDigits : NumberFormat → Int
  /-- `NumberFormat::getMinimumIntegerDigits`. -/
  getMinimumIntegerDigits : NumberFormat → Int
  /-- `NumberFormat::getMaximumFractionDigits`. -/
  getMaximumFractionDigits : NumberFormat → Int
  /-- `NumberFormat::getMinimumFractionDigits`. -/
  getMinimumFractionDigits : NumberFormat → Int
  /-- What `NullableValue<UNumberFormatRoundingMode>::getNoError()` returns on a null
  value. -/
  roundingModeOfNull : Int
  /-- `NumberParserImpl::parse(text, start, greedy, result, status)` of the parser with
  the given number: the `ParsedNumber` it fills in and the status. -/
  parserParse : Nat → UnicodeString → Int → Bool → UErrorCode → ParsedNumber × UErrorCode
  /-- `NumberParserImpl::getParseFlags` of the parser with the given number. -/
  getParseFlags : Nat → Int
  /-- `ParsedNumber::populateFormattable(output, parseFlags)`: the `Formattable` it
  leaves in `output`. -/
  populateFormattable : ParsedNumber → Formattable → Int → Formattable
  /-- A default-constructed `Formattable`. -/
  newFormattable : Formattable

/-- Modelled from the spec: the property bag of `new DecimalFormatProperties()`, every
field unset: `-1` for the digit, width and grouping fields ("-1 means unset"), `1` and
`0` for the multiplier and the magnitude shift and scale, grouping used, the flags
off, `UNUM_MAYBE` (2) for `parseAllInput`, `0.0` for the rounding increment, bogus
strings, null nullable values. -/
def DecimalFormatProperties.unset : DecimalFormatProperties :=
  { currency := none
    currencyPluralInfo := none
    currencyUsage := none
    decimalPatternMatchRequired := false
    decimalSeparatorAlwaysShown := false
    exponentSignAlwaysShown := false
    formatFailIfMoreThanMaxDigits := false
    formatWidth := -1
    groupingSize := -1
    groupingUsed := true
    magnitudeMultiplier := 0
    maximumFractionDigits := -1
    maximumIntegerDigits := -1
    maximumSignificantDigits := -1
    minimumExponentDigits := -1
    minimumFractionDigits := -1
    minimumGroupingDigits := -1
    minimumIntegerDigits := -1
    minimumSignificantDigits := -1
    multiplier := 1
    multiplierScale := 0
    negativePrefix := none
    negativePrefixPattern := none
    negativeSuffix := none
    negativeSuffixPattern := none
    padPosition := none
    padString := none
    parseAllInput := 2
    parseCaseSensitive := false
    parseIntegerOnly := false
    parseMode := none
    parseNoExponent := false
    positivePrefix := none
    positivePrefixPattern := none
    positiveSuffix := none
    positiveSuffixPattern := none
    roundingIncrement := { bits := 0 }
    roundingMode := none
    secondaryGroupingSize := -1
    signAlwaysShown := false }

/-! ## Rebuilding the derived state -/

/-- `DecimalFormat::setupFastFormat`. Every early `return` of the source leaves
`fastData` as it was and clears `canUseFastFormat`. `exportedProperties` is
dereferenced only after the affix and grouping checks; `touch` calls this function
only when the pointer is not null, so the `none` branch is never taken from there. -/
def setupFastFormat (env : Collaborators) (fields : DecimalFormatFields) : DecimalFormatFields :=
  -- Check the majority of properties:
  if !env.equalsDefaultExceptFastFormat fields.properties then
    { fields with canUseFastFormat := false }
  else
    -- Nontrivial affixes:
    let trivialPP := UnicodeString.isEmpty fields.properties.positivePrefixPattern
    let trivialPS := UnicodeString.isEmpty fields.properties.positiveSuffixPattern
    let trivialNP := UnicodeString.isBogus fields.properties.negativePrefixPattern ||
      (decide (UnicodeString.length fields.properties.negativePrefixPattern = 1) &&
        decide (UnicodeString.charAt fields.properties.negativePrefixPattern 0 = 0x2D))
    let trivialNS := UnicodeString.isEmpty fields.properties.negativeSuffixPattern
    if !trivialPP || !trivialPS || !trivialNP || !trivialNS then
      { fields with canUseFastFormat := false }
    else
      -- Grouping:
      let groupingUsed := fields.properties.groupingUsed
      let groupingSize := fields.properties.groupingSize
      let unusualGroupingSize := decide (groupingSize > 0) && decide (groupingSize ≠ 3)
      let groupingString := fields.symbols.kGroupingSeparatorSymbol
      if groupingUsed && (unusualGroupingSize || decide (UnicodeString.length groupingString ≠ 1)) then
        { fields with canUseFastFormat := false }
      else
        match fields.exportedProperties with
        | none => fields
        | some exported =>
          -- Integer length:
          let minInt := exported.minimumIntegerDigits
          let maxInt := exported.maximumIntegerDigits
          if minInt > 10 then
            { fields with canUseFastFormat := false }
          else
            -- Fraction length:
            let minFrac := exported.minimumFractionDigits
            if minFrac > 0 then
              { fields with canUseFastFormat := false }
            else
              -- Other symbols:
              let minusSignString := fields.symbols.kMinusSignSymbol
              let codePointZero := fields.symbols.codePointZero
              if UnicodeString.length minusSignString ≠ 1 || U16_LENGTH codePointZero ≠ 1 then
                { fields with canUseFastFormat := false }
              else
                { fields with
                  canUseFastFormat := true
                  fastData :=
                    { cpZero := toChar16 codePointZero
                      cpGroupingSeparator :=
                        if groupingUsed && decide (groupingSize = 3)
                        then UnicodeString.charAt groupingString 0 else 0
                      cpMinusSign := UnicodeString.charAt minusSignString 0
                      minInt := if minInt < 0 ∨ minInt > 127 then 0 else wrapInt8 minInt
                      maxInt := if maxInt < 0 ∨ maxInt > 127 then 127 else wrapInt8 maxInt } }

/-- `DecimalFormat::touch`: rebuilds the formatter object from the property bag. -/
def touch (env : Collaborators) (df : DecimalFormat) (status : UErrorCode) :
    DecimalFormat × UErrorCode :=
  match df.fields.exportedProperties with
  | none => (df, status)
  | some exported =>
    let built := env.create df.fields.properties df.fields.symbols exported status
    let fields1 : DecimalFormatFields :=
      { df.fields with formatter := some built.1, exportedProperties := some built.2.1 }
    -- Do this after fields->exportedProperties are set up
    let fields2 := setupFastFormat env fields1
    -- Delete the parsers if they were made previously
    let fields3 : DecimalFormatFields :=
      { fields2 with atomicParser := none, atomicCurrencyParser := none }
    let exported1 := built.2.1
    let cur := env.setCurrency df.base exported1.currency built.2.2
    let base1 := env.setMaximumIntegerDigits cur.1 exported1.maximumIntegerDigits
    let base2 := env.setMinimumIntegerDigits base1 exported1.minimumIntegerDigits
    let base3 := env.setMaximumFractionDigits base2 exported1.maximumFractionDigits
    let base4 := env.setMinimumFractionDigits base3 exported1.minimumFractionDigits
    let base5 := env.setGroupingUsed base4 fields3.properties.groupingUsed
    ({ base := base5, fields := fields3 }, cur.2)

/-- `DecimalFormat::touchNoError`. -/
def touchNoError (env : Collaborators) (df : DecimalFormat) : DecimalFormat :=
  (touch env df U_ZERO_ERROR).1

/-- Writes `p` into `fields->properties`. -/
def withProperties (df : DecimalFormat) (p : DecimalFormatProperties) : DecimalFormat :=
  { df with fields := { df.fields with properties := p } }

/-! ## Digit-limit setters -/

/-- `DecimalFormat::setMaximumIntegerDigits`. -/
def setMaximumIntegerDigits (env : Collaborators) (df : DecimalFormat) (newValue : Int) :
    DecimalFormat :=
  if newValue = df.fields.properties.maximumIntegerDigits then df
  else
    -- For backwards compatibility, conflicting min/max need to keep the most recent setting.
    let min := df.fields.properties.minimumIntegerDigits
    let p1 : DecimalFormatProperties :=
      if min ≥ 0 ∧ min > newValue then
        { df.fields.properties with minimumIntegerDigits := newValue }
      else df.fields.properties
    let p2 : DecimalFormatProperties := { p1 with maximumIntegerDigits := newValue }
    touchNoError env (withProperties df p2)

/-- `DecimalFormat::setMinimumIntegerDigits`. -/
def setMinimumIntegerDigits (env : Collaborators) (df : DecimalFormat) (newValue : Int) :
    DecimalFormat :=
  if newValue = df.fields.properties.minimumIntegerDigits then df
  else
    -- For backwards compatibility, conflicting min/max need to keep the most recent setting.
    let max := df.fields.properties.maximumIntegerDigits
    let p1 : DecimalFormatProperties :=
      if max ≥ 0 ∧ max < newValue then
        { df.fields.properties with maximumIntegerDigits := newValue }
      else df.fields.properties
    let p2 : DecimalFormatProperties := { p1 with minimumIntegerDigits := newValue }
    touchNoError env (withProperties df p2)

/-- `DecimalFormat::setMaximumFractionDigits`. -/
def setMaximumFractionDigits (env : Collaborators) (df : DecimalFormat) (newValue : Int) :
    DecimalFormat :=
  if newValue = df.fields.properties.maximumFractionDigits then df
  else
    -- For backwards compatibility, conflicting min/max need to keep the most recent setting.
    let min := df.fields.properties.minimumFractionDigits
    let p1 : DecimalFormatProperties :=
      if min ≥ 0 ∧ min > newValue then
        { df.fields.properties with minimumFractionDigits := newValue }
      else df.fields.properties
    let p2 : DecimalFormatProperties := { p1 with maximumFractionDigits := newValue }
    touchNoError env (withProperties df p2)

/-- `DecimalFormat::setMinimumFractionDigits`. -/
def setMinimumFractionDigits (env : Collaborators) (df : DecimalFormat) (newValue : Int) :
    DecimalFormat :=
  if newValue = df.fields.properties.minimumFractionDigits then df
  else
    -- For backwards compatibility, conflicting min/max need to keep the most recent setting.
    let max := df.fields.properties.maximumFractionDigits
    let p1 : DecimalFormatProperties :=
      if max ≥ 0 ∧ max < newValue then
        { df.fields.properties with maximumFractionDigits := newValue }
      else df.fields.properties
    let p2 : DecimalFormatProperties := { p1 with minimumFractionDigits := newValue }
    touchNoError env (withProperties df p2)

/-- `DecimalFormat::setMinimumSignificantDigits`. -/
def setMinimumSignificantDigits (env : Collaborators) (df : DecimalFormat) (value : Int) :
    DecimalFormat :=
  if value = df.fields.properties.minimumSignificantDigits then df
  else
    let max := df.fields.properties.maximumSignificantDigits
    let p1 : DecimalFormatProperties :=
      if max ≥ 0 ∧ max < value then
        { df.fields.properties with maximumSignificantDigits := value }
      else df.fields.properties
    let p2 : DecimalFormatProperties := { p1 with minimumSignificantDigits := value }
    touchNoError env (withProperties df p2)

/-- `DecimalFormat::setMaximumSignificantDigits`. -/
def setMaximumSignificantDigits (env : Collaborators) (df : DecimalFormat) (value : Int) :
    DecimalFormat :=
  if value = df.fields.properties.maximumSignificantDigits then df
  else
    let min := df.fields.properties.minimumSignificantDigits
    let p1 : DecimalFormatProperties :=
      if min ≥ 0 ∧ min > value then
        { df.fields.properties with minimumSignificantDigits := value }
      else df.fields.properties
    let p2 : DecimalFormatProperties := { p1 with maximumSignificantDigits := value }
    touchNoError env (withProperties df p2)

/-- `DecimalFormat::areSignificantDigitsUsed`. -/
def areSignificantDigitsUsed (df : DecimalFormat) : Bool :=
  decide (df.fields.properties.minimumSignificantDigits ≠ -1) ||
    decide (df.fields.properties.maximumSignificantDigits ≠ -1)

/-- `DecimalFormat::setSignificantDigitsUsed`; the `UBool` argument is true when non-zero. -/
def setSignificantDigitsUsed (env : Collaborators) (df : DecimalFormat)
    (useSignificantDigits : Int) : DecimalFormat :=
  -- These are the default values from the old implementation.
  let minSig : Int := if useSignificantDigits ≠ 0 then 1 else -1
  let maxSig : Int := if useSignificantDigits ≠ 0 then 6 else -1
  if df.fields.properties.minimumSignificantDigits = minSig ∧
      df.fields.properties.maximumSignificantDigits = maxSig then df
  else
    touchNoError env (withProperties df
      { df.fields.properties with
        minimumSignificantDigits := minSig, maximumSignificantDigits := maxSig })

/-! ## The other setters reachable from `setAttribute`

A `UBool` argument is an `Int` in the `int8_t` range. The test
`UBOOL_TO_BOOL(value) == fields->properties->flag` is the integer comparison of the
builds where `UBOOL_TO_BOOL(b)` is `b`; the store turns a non-zero value into `true`. -/

/-- `DecimalFormat::setParseAllInput` (compiled when `UCONFIG_HAVE_PARSEALLINPUT`). -/
def setParseAllInput (df : DecimalFormat) (value : Int) : DecimalFormat :=
  if value = df.fields.properties.parseAllInput then df
  else withProperties df { df.fields.properties with parseAllInput := value }

/-- `DecimalFormat::setGroupingUsed`. -/
def setGroupingUsed (env : Collaborators) (df : DecimalFormat) (enabled : Int) : DecimalFormat :=
  if enabled = boolToInt df.fields.properties.groupingUsed then df
  else
    let df1 : DecimalFormat := { df with base := env.setGroupingUsed df.base (decide (enabled ≠ 0)) }
    touchNoError env (withProperties df1
      { df1.fields.properties with groupingUsed := decide (enabled ≠ 0) })

/-- `DecimalFormat::setParseIntegerOnly`. -/
def setParseIntegerOnly (env : Collaborators) (df : DecimalFormat) (value : Int) : DecimalFormat :=
  if value = boolToInt df.fields.properties.parseIntegerOnly then df
  else
    let df1 : DecimalFormat := { df with base := env.setParseIntegerOnly df.base (decide (value ≠ 0)) }
    touchNoError env (withProperties df1
      { df1.fields.properties with parseIntegerOnly := decide (value ≠ 0) })

/-- `DecimalFormat::setLenient`. -/
def setLenient (env : Collaborators) (df : DecimalFormat) (enable : Int) : DecimalFormat :=
  let mode := if enable ≠ 0 then ParseMode.PARSE_MODE_LENIENT else ParseMode.PARSE_MODE_STRICT
  if df.fields.properties.parseMode = some mode then df
  else
    let df1 : DecimalFormat := { df with base := env.setLenient df.base (decide (enable ≠ 0)) }
    touchNoError env (withProperties df1 { df1.fields.properties with parseMode := some mode })

/-- `DecimalFormat::setSignAlwaysShown`. -/
def setSignAlwaysShown (env : Collaborators) (df : DecimalFormat) (value : Int) : DecimalFormat :=
  if value = boolToInt df.fields.properties.signAlwaysShown then df
  else touchNoError env (withProperties df
    { df.fields.properties with signAlwaysShown := decide (value ≠ 0) })

/-- The `while (value != 1)` loop of `DecimalFormat::setMultiplier`, entered with the
current `delta` and `value`; the result is the final `delta`. `value` is never zero
here: `setMultiplier` replaces a zero multiplier by one, and a quotient `temp` with
`temp * 10 == value` is zero only if `value` is. -/
def setMultiplierLoop (delta value : Int) (hvalue : value ≠ 0) : Int :=
  if h1 : value ≠ 1 then
    let delta1 := delta + 1
    let temp := value.tdiv 10
    if h2 : temp * 10 ≠ value then -1
    else
      setMultiplierLoop delta1 temp (by
        intro h0
        apply hvalue
        have h3 : temp * 10 = value := not_not.mp h2
        rw [← h3, h0]; rfl)
  else delta
termination_by value.natAbs
decreasing_by omega

/-- `DecimalFormat::setMultiplier`. -/
def setMultiplier (env : Collaborators) (df : DecimalFormat) (multiplier : Int) : DecimalFormat :=
  -- one being the benign default value for a multiplier.
  let multiplier1 : { m : Int // m ≠ 0 } :=
    if h : multiplier = 0 then ⟨1, by decide⟩ else ⟨multiplier, h⟩
  -- Try to convert to a magnitude multiplier first
  let delta := setMultiplierLoop 0 multiplier1.1 multiplier1.2
  let p : DecimalFormatProperties :=
    if delta ≠ -1 then
      { df.fields.properties with magnitudeMultiplier := delta, multiplier := 1 }
    else
      { df.fields.properties with magnitudeMultiplier := 0, multiplier := multiplier1.1 }
  touchNoError env (withProperties df p)

/-- `DecimalFormat::setMultiplierScale`. -/
def setMultiplierScale (env : Collaborators) (df : DecimalFormat) (newValue : Int) : DecimalFormat :=
  if newValue = df.fields.properties.multiplierScale then df
  else touchNoError env (withProperties df { df.fields.properties with multiplierScale := newValue })

/-- `DecimalFormat::setRoundingMode`. -/
def setRoundingMode (env : Collaborators) (df : DecimalFormat) (roundingMode : Int) : DecimalFormat :=
  if df.fields.properties.roundingMode = some roundingMode then df
  else
    -- to set field for compatibility
    let df1 : DecimalFormat := { df with base := env.setMaximumIntegerDigits df.base roundingMode }
    touchNoError env (withProperties df1
      { df1.fields.properties with roundingMode := some roundingMode })

/-- `DecimalFormat::setFormatWidth`. -/
def setFormatWidth (env : Collaborators) (df : DecimalFormat) (width : Int) : DecimalFormat :=
  if width = df.fields.properties.formatWidth then df
  else touchNoError env (withProperties df { df.fields.properties with formatWidth := width })

/-- `DecimalFormat::setPadPosition`. -/
def setPadPosition (env : Collaborators) (df : DecimalFormat) (padPos : Int) : DecimalFormat :=
  if df.fields.properties.padPosition = some padPos then df
  else touchNoError env (withProperties df { df.fields.properties with padPosition := some padPos })

/-- `DecimalFormat::setGroupingSize`. -/
def setGroupingSize (env : Collaborators) (df : DecimalFormat) (newValue : Int) : DecimalFormat :=
  if newValue = df.fields.properties.groupingSize then df
  else touchNoError env (withProperties df { df.fields.properties with groupingSize := newValue })

/-- `DecimalFormat::setSecondaryGroupingSize`. -/
def setSecondaryGroupingSize (env : Collaborators) (df : DecimalFormat) (newValue : Int) :
    DecimalFormat :=
  if newValue = df.fields.properties.secondaryGroupingSize then df
  else touchNoError env (withProperties df
    { df.fields.properties with secondaryGroupingSize := newValue })

/-- `DecimalFormat::setMinimumGroupingDigits`. -/
def setMinimumGroupingDigits (env : Collaborators) (df : DecimalFormat) (newValue : Int) :
    DecimalFormat :=
  if newValue = df.fields.properties.minimumGroupingDigits then df
  else touchNoError env (withProperties df
    { df.fields.properties with minimumGroupingDigits := newValue })

/-- `DecimalFormat::setDecimalSeparatorAlwaysShown`. -/
def setDecimalSeparatorAlwaysShown (env : Collaborators) (df : DecimalFormat) (newValue : Int) :
    DecimalFormat :=
  if newValue = boolToInt df.fields.properties.decimalSeparatorAlwaysShown then df
  else touchNoError env (withProperties df
    { df.fields.properties with decimalSeparatorAlwaysShown := decide (newValue ≠ 0) })

/-- `DecimalFormat::setDecimalPatternMatchRequired`. -/
def setDecimalPatternMatchRequired (env : Collaborators) (df : DecimalFormat) (newValue : Int) :
    DecimalFormat :=
  if newValue = boolToInt df.fields.properties.decimalPatternMatchRequired then df
  else touchNoError env (withProperties df
    { df.fields.properties with decimalPatternMatchRequired := decide (newValue ≠ 0) })

/-- `DecimalFormat::setParseNoExponent`. -/
def setParseNoExponent (env : Collaborators) (df : DecimalFormat) (value : Int) : DecimalFormat :=
  if value = boolToInt df.fields.properties.parseNoExponent then df
  else touchNoError env (withProperties df
    { df.fields.properties with parseNoExponent := decide (value ≠ 0) })

/-- `DecimalFormat::setParseCaseSensitive`. -/
def setParseCaseSensitive (env : Collaborators) (df : DecimalFormat) (value : Int) : DecimalFormat :=
  if value = boolToInt df.fields.properties.parseCaseSensitive then df
  else touchNoError env (withProperties df
    { df.fields.properties with parseCaseSensitive := decide (value ≠ 0) })

/-- `DecimalFormat::setFormatFailIfMoreThanMaxDigits`. -/
def setFormatFailIfMoreThanMaxDigits (env : Collaborators) (df : DecimalFormat) (value : Int) :
    DecimalFormat :=
  if value = boolToInt df.fields.properties.formatFailIfMoreThanMaxDigits then df
  else touchNoError env (withProperties df
    { df.fields.properties with formatFailIfMoreThanMaxDigits := decide (value ≠ 0) })

/-- `DecimalFormat::setCurrencyUsage`. -/
def setCurrencyUsage (env : Collaborators) (df : DecimalFormat) (newUsage : Int)
    (ec : UErrorCode) : DecimalFormat × UErrorCode :=
  if U_FAILURE ec then (df, ec)
  else if df.fields.properties.currencyUsage = some newUsage then (df, ec)
  else touch env (withProperties df { df.fields.properties with currencyUsage := some newUsage }) ec

/-! ## `setAttribute` -/

/-- `UNumberFormatAttribute`: the selectors that the `switch` of `setAttribute` names,
and `other` for every value that falls to `default:`. -/
inductive UNumberFormatAttribute where
  | UNUM_LENIENT_PARSE
  | UNUM_PARSE_INT_ONLY
  | UNUM_GROUPING_USED
  | UNUM_DECIMAL_ALWAYS_SHOWN
  | UNUM_MAX_INTEGER_DIGITS
  | UNUM_MIN_INTEGER_DIGITS
  | UNUM_INTEGER_DIGITS
  | UNUM_MAX_FRACTION_DIGITS
  | UNUM_MIN_FRACTION_DIGITS
  | UNUM_FRACTION_DIGITS
  | UNUM_SIGNIFICANT_DIGITS_USED
  | UNUM_MAX_SIGNIFICANT_DIGITS
  | UNUM_MIN_SIGNIFICANT_DIGITS
  | UNUM_MULTIPLIER
  | UNUM_SCALE
  | UNUM_GROUPING_SIZE
  | UNUM_ROUNDING_MODE
  | UNUM_FORMAT_WIDTH
  | UNUM_PADDING_POSITION
  | UNUM_SECONDARY_GROUPING_SIZE
  | UNUM_PARSE_ALL_INPUT
  | UNUM_PARSE_NO_EXPONENT
  | UNUM_PARSE_DECIMAL_MARK_REQUIRED
  | UNUM_CURRENCY_USAGE
  | UNUM_MINIMUM_GROUPING_DIGITS
  | UNUM_PARSE_CASE_SENSITIVE
  | UNUM_SIGN_ALWAYS_SHOWN
  | UNUM_FORMAT_FAIL_IF_MORE_THAN_MAX_DIGITS
  | other (raw : Int)
deriving DecidableEq

/-- `DecimalFormat::setAttribute`; returns the object and the status. -/
def setAttribute (env : Collaborators) (df : DecimalFormat) (attr : UNumberFormatAttribute)
    (newValue : Int) (status : UErrorCode) : DecimalFormat × UErrorCode :=
  if U_FAILURE status then (df, status)
  else
    match attr with
    | .UNUM_LENIENT_PARSE => (setLenient env df (boolToInt (decide (newValue ≠ 0))), status)
    | .UNUM_PARSE_INT_ONLY => (setParseIntegerOnly env df (boolToInt (decide (newValue ≠ 0))), status)
    | .UNUM_GROUPING_USED => (setGroupingUsed env df (boolToInt (decide (newValue ≠ 0))), status)
    | .UNUM_DECIMAL_ALWAYS_SHOWN =>
      (setDecimalSeparatorAlwaysShown env df (boolToInt (decide (newValue ≠ 0))), status)
    | .UNUM_MAX_INTEGER_DIGITS => (setMaximumIntegerDigits env df newValue, status)
    | .UNUM_MIN_INTEGER_DIGITS => (setMinimumIntegerDigits env df newValue, status)
    | .UNUM_INTEGER_DIGITS =>
      (setMaximumIntegerDigits env (setMinimumIntegerDigits env df newValue) newValue, status)
    | .UNUM_MAX_FRACTION_DIGITS => (setMaximumFractionDigits env df newValue, status)
    | .UNUM_MIN_FRACTION_DIGITS => (setMinimumFractionDigits env df newValue, status)
    | .UNUM_FRACTION_DIGITS =>
      (setMaximumFractionDigits env (setMinimumFractionDigits env df newValue) newValue, status)
    | .UNUM_SIGNIFICANT_DIGITS_USED =>
      (setSignificantDigitsUsed env df (boolToInt (decide (newValue ≠ 0))), status)
    | .UNUM_MAX_SIGNIFICANT_DIGITS => (setMaximumSignificantDigits env df newValue, status)
    | .UNUM_MIN_SIGNIFICANT_DIGITS => (setMinimumSignificantDigits env df newValue, status)
    | .UNUM_MULTIPLIER => (setMultiplier env df newValue, status)
    | .UNUM_SCALE => (setMultiplierScale env df newValue, status)
    | .UNUM_GROUPING_SIZE => (setGroupingSize env df newValue, status)
    | .UNUM_ROUNDING_MODE => (setRoundingMode env df newValue, status)
    | .UNUM_FORMAT_WIDTH => (setFormatWidth env df newValue, status)
    | .UNUM_PADDING_POSITION => (setPadPosition env df newValue, status)
    | .UNUM_SECONDARY_GROUPING_SIZE => (setSecondaryGroupingSize env df newValue, status)
    | .UNUM_PARSE_ALL_INPUT =>
      if env.UCONFIG_HAVE_PARSEALLINPUT then (setParseAllInput df newValue, status)
      else (df, U_UNSUPPORTED_ERROR)
    | .UNUM_PARSE_NO_EXPONENT => (setParseNoExponent env df (toUBool newValue), status)
    | .UNUM_PARSE_DECIMAL_MARK_REQUIRED =>
      (setDecimalPatternMatchRequired env df (toUBool newValue), status)
    | .UNUM_CURRENCY_USAGE => setCurrencyUsage env df newValue status
    | .UNUM_MINIMUM_GROUPING_DIGITS => (setMinimumGroupingDigits env df newValue, status)
    | .UNUM_PARSE_CASE_SENSITIVE => (setParseCaseSensitive env df (toUBool newValue), status)
    | .UNUM_SIGN_ALWAYS_SHOWN => (setSignAlwaysShown env df (toUBool newValue), status)
    | .UNUM_FORMAT_FAIL_IF_MORE_THAN_MAX_DIGITS =>
      (setFormatFailIfMoreThanMaxDigits env df (toUBool newValue), status)
    | .other _ => (df, U_UNSUPPORTED_ERROR)

/-! ## The fast path -/

/-- `localCapacity` of `doFastFormatInt32`: the size of `localBuffer`. -/
def localCapacity : Nat := 13

/-- The store `*(--ptr) = c` into `localBuffer`. `ptr` is the offset of the write
pointer from the start of the buffer and `buf` the cells from `ptr` to the end;
moving the pointer before the start of the buffer has no defined result (`none`). -/
def storeBefore (ptr : Nat) (buf : List Char16) (c : Char16) : Option (Nat × List Char16) :=
  if ptr = 0 then none else some (ptr - 1, c :: buf)

/-- The `for` loop of `doFastFormatInt32`, from a state `(i, group, input, ptr)`.
`fuel` bounds the number of iterations: `none` also stands for a loop that is still
running when the fuel is used up. -/
def doFastFormatInt32Loop (fd : FastFormatData) :
    Nat → Int → Int → Int → Nat → List Char16 → Option (Nat × List Char16)
  | 0, _, _, _, _, _ => none
  | fuel + 1, i, group, input, ptr, buf =>
    if i < fd.maxInt ∧ (input ≠ 0 ∨ i < fd.minInt) then
      -- `group++ == 3 && cpGroupingSeparator != 0`
      let afterSeparator : Option (Int × Nat × List Char16) :=
        if group = 3 ∧ fd.cpGroupingSeparator ≠ 0 then
          (storeBefore ptr buf fd.cpGroupingSeparator).map (fun r => (1, r.1, r.2))
        else some (wrapInt8 (group + 1), ptr, buf)
      match afterSeparator with
      | none => none
      | some (group1, ptr1, buf1) =>
        -- `std::div(input, 10)`
        let quot := input.tdiv 10
        let rem := input.tmod 10
        match storeBefore ptr1 buf1 (toChar16 (fd.cpZero + rem)) with
        | none => none
        | some (ptr2, buf2) =>
          doFastFormatInt32Loop fd fuel (wrapInt8 (i + 1)) group1 quot ptr2 buf2
    else some (ptr, buf)

/-- `DecimalFormat::doFastFormatInt32`: the text after the call, `none` when a store
leaves `localBuffer`. (The `U_ASSERT`s are debug-build checks and are not part of the
behaviour.) An `int8_t` counter below `maxInt <= 127` takes at most 128 values. -/
def doFastFormatInt32 (fields : DecimalFormatFields) (input : Int) (isNegative : Bool)
    (output : TextBuffer) : Option TextBuffer :=
  let output1 := if isNegative then output ++ [fields.fastData.cpMinusSign] else output
  let input1 := if isNegative then wrapInt32 (-input) else input
  match doFastFormatInt32Loop fields.fastData 128 0 0 input1 localCapacity [] with
  | none => none
  | some (ptr, buf) =>
    let len := localCapacity - ptr
    some (output1 ++ buf.take len)

/-- `DecimalFormat::fastFormatInt64`: the returned flag and the text after the call. -/
def fastFormatInt64 (fields : DecimalFormatFields) (input : Int) (output : TextBuffer) :
    Option (Bool × TextBuffer) :=
  if !fields.canUseFastFormat then some (false, output)
  else if input ≤ INT32_MIN ∨ input > INT32_MAX then some (false, output)
  else
    (doFastFormatInt32 fields (wrapInt32 input) (decide (input < 0)) output).map
      (fun o => (true, o))

/-- Modelled from the spec: the constant `FieldPosition::DONT_CARE` of
`unicode/fieldpos.h`, the field selector of a caller that requests no field position. -/
def DONT_CARE : Int := -1

/-- `DecimalFormat::format(int64_t number, UnicodeString& appendTo, FieldPosition& pos)`
(both overloads, which differ in the status only): the text after the call.
`posField` is `pos.getField()`. The general path needs a built formatter. -/
def format (df : DecimalFormat) (number : Int) (appendTo : TextBuffer) (posField : Int) :
    Option TextBuffer :=
  let general (text : TextBuffer) : Option TextBuffer :=
    df.fields.formatter.map (fun formatter => text ++ formatter.formatInt number)
  if posField = DONT_CARE then
    match fastFormatInt64 df.fields number appendTo with
    | none => none
    | some (true, text) => some text
    | some (false, text) => general text
  else general appendTo

/-! ## The remaining mutators -/

/-- Writes `symbols` into `fields->symbols`. -/
def withSymbols (df : DecimalFormat) (symbols : DecimalFormatSymbols) : DecimalFormat :=
  { df with fields := { df.fields with symbols := symbols } }

/-- `DecimalFormat::adoptDecimalFormatSymbols`; `none` is the null pointer. -/
def adoptDecimalFormatSymbols (env : Collaborators) (df : DecimalFormat)
    (symbolsToAdopt : Option DecimalFormatSymbols) : DecimalFormat :=
  match symbolsToAdopt with
  | none => df -- do not allow caller to set fields->symbols to NULL
  | some symbols => touchNoError env (withSymbols df symbols)

/-- `DecimalFormat::setDecimalFormatSymbols`. -/
def setDecimalFormatSymbols (env : Collaborators) (df : DecimalFormat)
    (symbols : DecimalFormatSymbols) : DecimalFormat :=
  touchNoError env (withSymbols df symbols)

/-- `DecimalFormat::adoptCurrencyPluralInfo`; `none` is the null pointer. -/
def adoptCurrencyPluralInfo (env : Collaborators) (df : DecimalFormat) (toAdopt : Option Nat) :
    DecimalFormat :=
  touchNoError env (withProperties df { df.fields.properties with currencyPluralInfo := toAdopt })

/-- `DecimalFormat::setCurrencyPluralInfo`: a clone of `info` when the bag holds none,
a copy-assignment otherwise; the bag holds the contents of `info` in both cases. -/
def setCurrencyPluralInfo (env : Collaborators) (df : DecimalFormat) (info : Nat) :
    DecimalFormat :=
  let p : DecimalFormatProperties :=
    if df.fields.properties.currencyPluralInfo.isNone then
      { df.fields.properties with currencyPluralInfo := some info }
    else { df.fields.properties with currencyPluralInfo := some info }
  touchNoError env (withProperties df p)

/-- `DecimalFormat::setPositivePrefix`. -/
def setPositivePrefix (env : Collaborators) (df : DecimalFormat) (newValue : UnicodeString) :
    DecimalFormat :=
  if newValue = df.fields.properties.positivePrefix then df
  else touchNoError env (withProperties df { df.fields.properties with positivePrefix := newValue })

/-- `DecimalFormat::setNegativePrefix`. -/
def setNegativePrefix (env : Collaborators) (df : DecimalFormat) (newValue : UnicodeString) :
    DecimalFormat :=
  if newValue = df.fields.properties.negativePrefix then df
  else touchNoError env (withProperties df { df.fields.properties with negativePrefix := newValue })

/-- `DecimalFormat::setPositiveSuffix`. -/
def setPositiveSuffix (env : Collaborators) (df : DecimalFormat) (newValue : UnicodeString) :
    DecimalFormat :=
  if newValue = df.fields.properties.positiveSuffix then df
  else touchNoError env (withProperties df { df.fields.properties with positiveSuffix := newValue })

/-- `DecimalFormat::setNegativeSuffix`. -/
def setNegativeSuffix (env : Collaborators) (df : DecimalFormat) (newValue : UnicodeString) :
    DecimalFormat :=
  if newValue = df.fields.properties.negativeSuffix then df
  else touchNoError env (withProperties df { df.fields.properties with negativeSuffix := newValue })

/-- `DecimalFormat::setRoundingIncrement`. -/
def setRoundingIncrement (env : Collaborators) (df : DecimalFormat) (newValue : Double) :
    DecimalFormat :=
  if Double.eq newValue df.fields.properties.roundingIncrement then df
  else touchNoError env (withProperties df
    { df.fields.properties with roundingIncrement := newValue })

/-- Modelled from the spec: `UnicodeString(padChar.char32At(0))` of `unicode/unistr.h`,
the string made of the first code point of a non-empty string: a lead surrogate
followed by a trail surrogate is one code point of two code units. -/
def firstCodePointString (s : List Char16) : UnicodeString :=
  match s with
  | [] => none
  | [a] => some [a]
  | a :: b :: _ =>
    if 0xD800 ≤ a ∧ a ≤ 0xDBFF ∧ 0xDC00 ≤ b ∧ b ≤ 0xDFFF then some [a, b] else some [a]

/-- `DecimalFormat::setPadCharacter`. -/
def setPadCharacter (env : Collaborators) (df : DecimalFormat) (padChar : UnicodeString) :
    DecimalFormat :=
  if padChar = df.fields.properties.padString then df
  else
    let p : DecimalFormatProperties :=
      if UnicodeString.length padChar > 0 then
        { df.fields.properties with padString := firstCodePointString (padChar.getD []) }
      else { df.fields.properties with padString := none }
    touchNoError env (withProperties df p)

/-- `DecimalFormat::setScientificNotation`. -/
def setScientificNotation (env : Collaborators) (df : DecimalFormat) (useScientific : Int) :
    DecimalFormat :=
  let minExp : Int := if useScientific ≠ 0 then 1 else -1
  if df.fields.properties.minimumExponentDigits = minExp then df
  else
    let p : DecimalFormatProperties :=
      if useScientific ≠ 0 then { df.fields.properties with minimumExponentDigits := 1 }
      else { df.fields.properties with minimumExponentDigits := -1 }
    touchNoError env (withProperties df p)

/-- `DecimalFormat::setMinimumExponentDigits`; the argument is an `int8_t`. -/
def setMinimumExponentDigits (env : Collaborators) (df : DecimalFormat) (minExpDig : Int) :
    DecimalFormat :=
  if minExpDig = df.fields.properties.minimumExponentDigits then df
  else touchNoError env (withProperties df
    { df.fields.properties with minimumExponentDigits := minExpDig })

/-- `DecimalFormat::setExponentSignAlwaysShown`. -/
def setExponentSignAlwaysShown (env : Collaborators) (df : DecimalFormat) (expSignAlways : Int) :
    DecimalFormat :=
  if expSignAlways = boolToInt df.fields.properties.exponentSignAlwaysShown then df
  else touchNoError env (withProperties df
    { df.fields.properties with exponentSignAlwaysShown := decide (expSignAlways ≠ 0) })

/-! ## Patterns and currency -/

/-- Modelled from the spec: the enumerator `IGNORE_ROUNDING_NEVER` of
`number_patternstring.h` ("never-ignore"). -/
def IGNORE_ROUNDING_NEVER : Int := 0

/-- Modelled from the spec: the enumerator `IGNORE_ROUNDING_IF_CURRENCY` of
`number_patternstring.h` ("ignore-if-currency-style"). -/
def IGNORE_ROUNDING_IF_CURRENCY : Int := 1

/-- Modelled from the spec: the enumerator `IGNORE_ROUNDING_ALWAYS` of
`number_patternstring.h` ("always-ignore"). -/
def IGNORE_ROUNDING_ALWAYS : Int := 2

/-- `DecimalFormat::setPropertiesFromPattern`. -/
def setPropertiesFromPattern (env : Collaborators) (df : DecimalFormat) (pattern : UnicodeString)
    (ignoreRounding : Int) (status : UErrorCode) : DecimalFormat × UErrorCode :=
  if U_SUCCESS status then
    let parsed := env.parseToExistingProperties pattern df.fields.properties ignoreRounding status
    (withProperties df parsed.1, parsed.2)
  else (df, status)

/-- `DecimalFormat::applyPattern(pattern, status)`; the overload with a `UParseError`
forwards to it. -/
def applyPattern (env : Collaborators) (df : DecimalFormat) (pattern : UnicodeString)
    (status : UErrorCode) : DecimalFormat × UErrorCode :=
  let parsed := setPropertiesFromPattern env df pattern IGNORE_ROUNDING_NEVER status
  touch env parsed.1 parsed.2

/-- `DecimalFormat::applyLocalizedPattern(localizedPattern, status)`; the overload with a
`UParseError` forwards to it. -/
def applyLocalizedPattern (env : Collaborators) (df : DecimalFormat)
    (localizedPattern : UnicodeString) (status : UErrorCode) : DecimalFormat × UErrorCode :=
  if U_SUCCESS status then
    let converted := env.convertLocalized localizedPattern df.fields.symbols false status
    applyPattern env df converted.1 converted.2
  else (df, status)

/-- `DecimalFormat::setCurrency(theCurrency, ec)`; `none` is the null pointer. -/
def setCurrency (env : Collaborators) (df : DecimalFormat) (theCurrency : Option (List Char16))
    (ec : UErrorCode) : DecimalFormat × UErrorCode :=
  let currencyUnit := env.currencyUnit theCurrency ec
  if U_FAILURE currencyUnit.2 then (df, currencyUnit.2)
  else if df.fields.properties.currency = some currencyUnit.1 then (df, currencyUnit.2)
  else
    -- to set field for compatibility
    let base := env.setCurrency df.base theCurrency currencyUnit.2
    let df1 : DecimalFormat := { df with base := base.1 }
    (touchNoError env (withProperties df1
      { df1.fields.properties with currency := some currencyUnit.1 }), base.2)

/-- `DecimalFormat::setCurrency(theCurrency)`: the overload with a local status. -/
def setCurrencyLocalStatus (env : Collaborators) (df : DecimalFormat)
    (theCurrency : Option (List Char16)) : DecimalFormat :=
  (setCurrency env df theCurrency U_ZERO_ERROR).1

/-! ## The mutators as one family -/

/-- A call of one of the mutators of `DecimalFormat` (each `set*`, `adopt*`,
`applyPattern`, `applyLocalizedPattern` and `setAttribute` member function of
`decimfmt.cpp`) with its arguments. -/
inductive Mutator where
  | setParseAllInput (value : Int)
  | setAttribute (attr : UNumberFormatAttribute) (newValue : Int) (status : UErrorCode)
  | setGroupingUsed (value : Int)
  | setParseIntegerOnly (value : Int)
  | setLenient (value : Int)
  | setSignAlwaysShown (value : Int)
  | setMultiplier (value : Int)
  | setMultiplierScale (value : Int)
  | setRoundingMode (value : Int)
  | setFormatWidth (value : Int)
  | setPadPosition (value : Int)
  | setScientificNotation (value : Int)
  | setMinimumExponentDigits (value : Int)
  | setExponentSignAlwaysShown (value : Int)
  | setGroupingSize (value : Int)
  | setSecondaryGroupingSize (value : Int)
  | setMinimumGroupingDigits (value : Int)
  | setDecimalSeparatorAlwaysShown (value : Int)
  | setDecimalPatternMatchRequired (value : Int)
  | setParseNoExponent (value : Int)
  | setParseCaseSensitive (value : Int)
  | setFormatFailIfMoreThanMaxDigits (value : Int)
  | setMaximumIntegerDigits (value : Int)
  | setMinimumIntegerDigits (value : Int)
  | setMaximumFractionDigits (value : Int)
  | setMinimumFractionDigits (value : Int)
  | setMinimumSignificantDigits (value : Int)
  | setMaximumSignificantDigits (value : Int)
  | setSignificantDigitsUsed (value : Int)
  | setPositivePrefix (value : UnicodeString)
  | setNegativePrefix (value : UnicodeString)
  | setPositiveSuffix (value : UnicodeString)
  | setNegativeSuffix (value : UnicodeString)
  | setPadCharacter (value : UnicodeString)
  | adoptDecimalFormatSymbols (symbolsToAdopt : Option DecimalFormatSymbols)
  | setDecimalFormatSymbols (symbols : DecimalFormatSymbols)
  | adoptCurrencyPluralInfo (toAdopt : Option Nat)
  | setCurrencyPluralInfo (info : Nat)
  | setRoundingIncrement (newValue : Double)
  | applyPattern (pattern : UnicodeString) (status : UErrorCode)
  | applyLocalizedPattern (localizedPattern : UnicodeString) (status : UErrorCode)
  | setCurrency (theCurrency : Option (List Char16)) (ec : UErrorCode)
  | setCurrencyLocalStatus (theCurrency : Option (List Char16))
  | setCurrencyUsage (newUsage : Int) (ec : UErrorCode)

/-- The instance a mutator call leaves. -/
def Mutator.apply (env : Collaborators) (df : DecimalFormat) : Mutator → DecimalFormat
  | .setParseAllInput value => Decimfmt.setParseAllInput df value
  | .setAttribute attr newValue status => (Decimfmt.setAttribute env df attr newValue status).1
  | .setGroupingUsed value => Decimfmt.setGroupingUsed env df value
  | .setParseIntegerOnly value => Decimfmt.setParseIntegerOnly env df value
  | .setLenient value => Decimfmt.setLenient env df value
  | .setSignAlwaysShown value => Decimfmt.setSignAlwaysShown env df value
  | .setMultiplier value => Decimfmt.setMultiplier env df value
  | .setMultiplierScale value => Decimfmt.setMultiplierScale env df value
  | .setRoundingMode value => Decimfmt.setRoundingMode env df value
  | .setFormatWidth value => Decimfmt.setFormatWidth env df value
  | .setPadPosition value => Decimfmt.setPadPosition env df value
  | .setScientificNotation value => Decimfmt.setScientificNotation env df value
  | .setMinimumExponentDigits value => Decimfmt.setMinimumExponentDigits env df value
  | .setExponentSignAlwaysShown value => Decimfmt.setExponentSignAlwaysShown env df value
  | .setGroupingSize value => Decimfmt.setGroupingSize env df value
  | .setSecondaryGroupingSize value => Decimfmt.setSecondaryGroupingSize env df value
  | .setMinimumGroupingDigits value => Decimfmt.setMinimumGroupingDigits env df value
  | .setDecimalSeparatorAlwaysShown value => Decimfmt.setDecimalSeparatorAlwaysShown env df value
  | .setDecimalPatternMatchRequired value => Decimfmt.setDecimalPatternMatchRequired env df value
  | .setParseNoExponent value => Decimfmt.setParseNoExponent env df value
  | .setParseCaseSensitive value => Decimfmt.setParseCaseSensitive env df value
  | .setFormatFailIfMoreThanMaxDigits value => Decimfmt.setFormatFailIfMoreThanMaxDigits env df value
  | .setMaximumIntegerDigits value => Decimfmt.setMaximumIntegerDigits env df value
  | .setMinimumIntegerDigits value => Decimfmt.setMinimumIntegerDigits env df value
  | .setMaximumFractionDigits value => Decimfmt.setMaximumFractionDigits env df value
  | .setMinimumFractionDigits value => Decimfmt.setMinimumFractionDigits env df value
  | .setMinimumSignificantDigits value => Decimfmt.setMinimumSignificantDigits env df value
  | .setMaximumSignificantDigits value => Decimfmt.setMaximumSignificantDigits env df value
  | .setSignificantDigitsUsed value => Decimfmt.setSignificantDigitsUsed env df value
  | .setPositivePrefix value => Decimfmt.setPositivePrefix env df value
  | .setNegativePrefix value => Decimfmt.setNegativePrefix env df value
  | .setPositiveSuffix value => Decimfmt.setPositiveSuffix env df value
  | .setNegativeSuffix value => Decimfmt.setNegativeSuffix env df value
  | .setPadCharacter value => Decimfmt.setPadCharacter env df value
  | .adoptDecimalFormatSymbols symbolsToAdopt =>
    Decimfmt.adoptDecimalFormatSymbols env df symbolsToAdopt
  | .setDecimalFormatSymbols symbols => Decimfmt.setDecimalFormatSymbols env df symbols
  | .adoptCurrencyPluralInfo toAdopt => Decimfmt.adoptCurrencyPluralInfo env df toAdopt
  | .setCurrencyPluralInfo info => Decimfmt.setCurrencyPluralInfo env df info
  | .setRoundingIncrement newValue => Decimfmt.setRoundingIncrement env df newValue
  | .applyPattern pattern status => (Decimfmt.applyPattern env df pattern status).1
  | .applyLocalizedPattern localizedPattern status =>
    (Decimfmt.applyLocalizedPattern env df localizedPattern status).1
  | .setCurrency theCurrency ec => (Decimfmt.setCurrency env df theCurrency ec).1
  | .setCurrencyLocalStatus theCurrency => Decimfmt.setCurrencyLocalStatus env df theCurrency
  | .setCurrencyUsage newUsage ec => (Decimfmt.setCurrencyUsage env df newUsage ec).1

/-- The call writes `parseAllInput`: `setParseAllInput` itself, or `setAttribute` with
the selector `UNUM_PARSE_ALL_INPUT`. -/
def Mutator.writesParseAllInput : Mutator → Bool
  | .setParseAllInput _ => true
  | .setAttribute .UNUM_PARSE_ALL_INPUT _ _ => true
  | _ => false

/-! ## The multiplier getter -/

/-- Modelled from the spec: `static_cast<int32_t>(uprv_pow10(x))` with `uprv_pow10` of
`putilimp.h`, ten to the power `x` as a `double`: zero after truncation for a negative
exponent, the power itself while it fits 32 bits, and no defined result (`none`) beyond. -/
def pow10AsInt32 (x : Int) : Option Int :=
  if x < 0 then some 0
  else if (10 : Int) ^ x.toNat ≤ INT32_MAX then some (10 ^ x.toNat)
  else none

/-- `DecimalFormat::getMultiplier`. -/
def getMultiplier (df : DecimalFormat) : Option Int :=
  if df.fields.properties.multiplier ≠ 1 then some df.fields.properties.multiplier
  else if df.fields.properties.magnitudeMultiplier ≠ 0 then
    pow10AsInt32 df.fields.properties.magnitudeMultiplier
  else some 1

/-! ## The getters reachable from `getAttribute` -/

/-- Modelled from the spec: the enumerator `kPadBeforePrefix` of
`DecimalFormat::EPadPosition` (`unicode/decimfmt.h`), the first one. -/
def kPadBeforePrefix : Int := 0

/-- Modelled from the spec: the enumerator `UCURR_USAGE_STANDARD` of `UCurrencyUsage`
(`unicode/ucurr.h`), the first one. -/
def UCURR_USAGE_STANDARD : Int := 0

/-- `DecimalFormat::isSignAlwaysShown`. -/
def isSignAlwaysShown (df : DecimalFormat) : Int :=
  boolToInt df.fields.properties.signAlwaysShown

/-- `DecimalFormat::getMultiplierScale`. -/
def getMultiplierScale (df : DecimalFormat) : Int :=
  df.fields.properties.multiplierScale

/-- `DecimalFormat::getRoundingMode`; it reads the exported properties, so it has no
defined result (`none`) without them. -/
def getRoundingMode (env : Collaborators) (df : DecimalFormat) : Option Int :=
  df.fields.exportedProperties.map (fun exported =>
    -- UNumberFormatRoundingMode and ERoundingMode have the same values.
    exported.roundingMode.getD env.roundingModeOfNull)

/-- `DecimalFormat::getFormatWidth`. -/
def getFormatWidth (df : DecimalFormat) : Int :=
  df.fields.properties.formatWidth

/-- `DecimalFormat::getPadPosition`. -/
def getPadPosition (df : DecimalFormat) : Int :=
  match df.fields.properties.padPosition with
  | none => kPadBeforePrefix
  | some padPos => padPos

/-- `DecimalFormat::getGroupingSize`. -/
def getGroupingSize (df : DecimalFormat) : Int :=
  if df.fields.properties.groupingSize < 0 then 0 else df.fields.properties.groupingSize

/-- `DecimalFormat::getSecondaryGroupingSize`. -/
def getSecondaryGroupingSize (df : DecimalFormat) : Int :=
  let grouping2 := df.fields.properties.secondaryGroupingSize
  if grouping2 < 0 then 0 else grouping2

/-- `DecimalFormat::getMinimumGroupingDigits`. -/
def getMinimumGroupingDigits (df : DecimalFormat) : Int :=
  df.fields.properties.minimumGroupingDigits

/-- `DecimalFormat::isDecimalSeparatorAlwaysShown`. -/
def isDecimalSeparatorAlwaysShown (df : DecimalFormat) : Int :=
  boolToInt df.fields.properties.decimalSeparatorAlwaysShown

/-- `DecimalFormat::isDecimalPatternMatchRequired`. -/
def isDecimalPatternMatchRequired (df : DecimalFormat) : Int :=
  boolToInt df.fields.properties.decimalPatternMatchRequired

/-- `DecimalFormat::isParseNoExponent`. -/
def isParseNoExponent (df : DecimalFormat) : Int :=
  boolToInt df.fields.properties.parseNoExponent

/-- `DecimalFormat::isParseCaseSensitive`. -/
def isParseCaseSensitive (df : DecimalFormat) : Int :=
  boolToInt df.fields.properties.parseCaseSensitive

/-- `DecimalFormat::isFormatFailIfMoreThanMaxDigits`. -/
def isFormatFailIfMoreThanMaxDigits (df : DecimalFormat) : Int :=
  boolToInt df.fields.properties.formatFailIfMoreThanMaxDigits

/-- `DecimalFormat::getMinimumSignificantDigits`; it reads the exported properties. -/
def getMinimumSignificantDigits (df : DecimalFormat) : Option Int :=
  df.fields.exportedProperties.map (fun exported => exported.minimumSignificantDigits)

/-- `DecimalFormat::getMaximumSignificantDigits`; it reads the exported properties. -/
def getMaximumSignificantDigits (df : DecimalFormat) : Option Int :=
  df.fields.exportedProperties.map (fun exported => exported.maximumSignificantDigits)

/-- `DecimalFormat::getCurrencyUsage`. -/
def getCurrencyUsage (df : DecimalFormat) : Int :=
  -- CurrencyUsage is not exported, so we have to get it from the input property bag.
  match df.fields.properties.currencyUsage with
  | none => UCURR_USAGE_STANDARD
  | some usage => usage

/-- `DecimalFormat::getAttribute`: the value returned and the status; `none` when the
getter called has no defined result. `UNUM_PARSE_ALL_INPUT` is not named by the
`switch` and falls to `default:`. -/
def getAttribute (env : Collaborators) (df : DecimalFormat) (attr : UNumberFormatAttribute)
    (status : UErrorCode) : Option (Int × UErrorCode) :=
  if U_FAILURE status then some (-1, status)
  else
    match attr with
    | .UNUM_LENIENT_PARSE => some (env.isLenient df.base, status)
    | .UNUM_PARSE_INT_ONLY => some (env.isParseIntegerOnly df.base, status)
    | .UNUM_GROUPING_USED => some (env.isGroupingUsed df.base, status)
    | .UNUM_DECIMAL_ALWAYS_SHOWN => some (isDecimalSeparatorAlwaysShown df, status)
    | .UNUM_MAX_INTEGER_DIGITS => some (env.getMaximumIntegerDigits df.base, status)
    | .UNUM_MIN_INTEGER_DIGITS => some (env.getMinimumIntegerDigits df.base, status)
    -- TBD: what should this return?
    | .UNUM_INTEGER_DIGITS => some (env.getMinimumIntegerDigits df.base, status)
    | .UNUM_MAX_FRACTION_DIGITS => some (env.getMaximumFractionDigits df.base, status)
    | .UNUM_MIN_FRACTION_DIGITS => some (env.getMinimumFractionDigits df.base, status)
    -- TBD: what should this return?
    | .UNUM_FRACTION_DIGITS => some (env.getMinimumFractionDigits df.base, status)
    | .UNUM_SIGNIFICANT_DIGITS_USED => some (boolToInt (areSignificantDigitsUsed df), status)
    | .UNUM_MAX_SIGNIFICANT_DIGITS =>
      (getMaximumSignificantDigits df).map (fun value => (value, status))
    | .UNUM_MIN_SIGNIFICANT_DIGITS =>
      (getMinimumSignificantDigits df).map (fun value => (value, status))
    | .UNUM_MULTIPLIER => (getMultiplier df).map (fun value => (value, status))
    | .UNUM_SCALE => some (getMultiplierScale df, status)
    | .UNUM_GROUPING_SIZE => some (getGroupingSize df, status)
    | .UNUM_ROUNDING_MODE => (getRoundingMode env df).map (fun value => (value, status))
    | .UNUM_FORMAT_WIDTH => some (getFormatWidth df, status)
    | .UNUM_PADDING_POSITION => some (getPadPosition df, status)
    | .UNUM_SECONDARY_GROUPING_SIZE => some (getSecondaryGroupingSize df, status)
    | .UNUM_PARSE_ALL_INPUT => some (-1, U_UNSUPPORTED_ERROR)
    | .UNUM_PARSE_NO_EXPONENT => some (isParseNoExponent df, status)
    | .UNUM_PARSE_DECIMAL_MARK_REQUIRED => some (isDecimalPatternMatchRequired df, status)
    | .UNUM_CURRENCY_USAGE => some (getCurrencyUsage df, status)
    | .UNUM_MINIMUM_GROUPING_DIGITS => some (getMinimumGroupingDigits df, status)
    | .UNUM_PARSE_CASE_SENSITIVE => some (isParseCaseSensitive df, status)
    | .UNUM_SIGN_ALWAYS_SHOWN => some (isSignAlwaysShown df, status)
    | .UNUM_FORMAT_FAIL_IF_MORE_THAN_MAX_DIGITS =>
      some (isFormatFailIfMoreThanMaxDigits df, status)
    | .other _ => some (-1, U_UNSUPPORTED_ERROR)

/-! ## Equality, copy and assignment -/

/-- A `Format` object: a `DecimalFormat`, or an object of another class, for which
`dynamic_cast<const DecimalFormat*>` yields null. -/
inductive Format where
  | decimalFormat (df : DecimalFormat)
  | other (tag : Nat)

/-- `DecimalFormat::operator==`. -/
def operatorEq (env : Collaborators) (this : DecimalFormat) (other : Format) : Bool :=
  match other with
  | Format.other _ => false
  | Format.decimalFormat otherDF =>
    env.propertiesEquals this.fields.properties otherDF.fields.properties &&
      env.symbolsEquals this.fields.symbols otherDF.fields.symbols

/-- A `DecimalFormatFields` as `new DecimalFormatFields()` leaves it before the copy
constructor fills it: no formatter, null parser slots, `canUseFastFormat` false; the
members of `fastData`, which the source leaves uninitialised, are zero here. -/
def newFields (properties : DecimalFormatProperties) (symbols : DecimalFormatSymbols)
    (exportedProperties : DecimalFormatProperties) : DecimalFormatFields :=
  { properties := properties
    symbols := symbols
    exportedProperties := some exportedProperties
    formatter := none
    canUseFastFormat := false
    fastData := { cpZero := 0, cpGroupingSeparator := 0, cpMinusSign := 0, minInt := 0, maxInt := 0 }
    atomicParser := none
    atomicCurrencyParser := none }

/-- The copy constructor `DecimalFormat::DecimalFormat(const DecimalFormat& source)`, the
three allocations succeeding: the base class is copied, the bag and the symbols are
copied, the exported properties are a new default bag, and the formatter is
re-constructed from the property bag. -/
def copyConstructor (env : Collaborators) (source : DecimalFormat) : DecimalFormat :=
  touchNoError env
    { base := source.base
      fields := newFields source.fields.properties source.fields.symbols
        DecimalFormatProperties.unset }

/-- `DecimalFormat::clone`. -/
def clone (env : Collaborators) (this : DecimalFormat) : DecimalFormat :=
  copyConstructor env this

/-- `DecimalFormat::operator=`. `fields->exportedProperties->clear()` dereferences the
pointer, so the assignment has no defined result (`none`) on a target without exported
properties. -/
def operatorAssign (env : Collaborators) (this rhs : DecimalFormat) : Option DecimalFormat :=
  match this.fields.exportedProperties with
  | none => none
  | some _ =>
    some (touchNoError env
      { this with
        fields :=
          { this.fields with
            properties := rhs.fields.properties
            exportedProperties := some DecimalFormatProperties.unset
            symbols := rhs.fields.symbols } })

/-- The `DecimalFormat` objects of a program by address; `none` where no object lives. -/
abbrev Store := Nat → Option DecimalFormat

/-- `new DecimalFormat(source)`, which is also `source.clone()`, in a store: the copy is
constructed at the address `fresh`, where no object lives yet, from the object at the
address `source`, which is read through a `const` reference. -/
def copyConstructAt (env : Collaborators) (store : Store) (source fresh : Nat) : Option Store :=
  match store source, store fresh with
  | some s, none => some (Function.update store fresh (some (copyConstructor env s)))
  | _, _ => none

/-- The statement `target = rhs` in a store: the object at the address `target` is
written, the object at the address `rhs` is read; the two addresses may be the same. -/
def assignAt (env : Collaborators) (store : Store) (target rhs : Nat) : Option Store :=
  match store target, store rhs with
  | some t, some s =>
    (operatorAssign env t s).map (fun t1 => Function.update store target (some t1))
  | _, _ => none

/-! ## The parser cache -/

/-- `std::atomic<T*>::compare_exchange_strong(expected, desired)` on a slot: the flag
returned, the slot afterwards and `expected` afterwards. -/
def compareExchangeStrong (slot expected desired : Option Nat) :
    Bool × Option Nat × Option Nat :=
  if slot = expected then (true, desired, expected) else (false, slot, slot)

/-- What a call of `getParser` or `getCurrencyParser` leaves: the pointer returned, the
object (the slot is written through `const_cast`), the status, whether
`createParserFromProperties` was called, and the parser deleted on a lost exchange. -/
structure ParserCall where
  parser : Option Nat
  df : DecimalFormat
  status : UErrorCode
  builderCalled : Bool
  deleted : Option Nat

/-- `DecimalFormat::getParser`, run without interference from other threads: the
exchange sees the slot as the load left it. -/
def getParser (env : Collaborators) (df : DecimalFormat) (status : UErrorCode) : ParserCall :=
  if U_FAILURE status then
    { parser := none, df := df, status := status, builderCalled := false, deleted := none }
  else
    -- First try to get the pre-computed parser
    let ptr := df.fields.atomicParser
    if ptr ≠ none then
      { parser := ptr, df := df, status := status, builderCalled := false, deleted := none }
    else
      -- Try computing the parser on our own
      let built := env.createParserFromProperties df.fields.properties df.fields.symbols false status
      let temp := built.1
      let status1 := if temp = none then U_MEMORY_ALLOCATION_ERROR else built.2
      let exchange := compareExchangeStrong df.fields.atomicParser ptr temp
      let df1 : DecimalFormat := { df with fields := { df.fields with atomicParser := exchange.2.1 } }
      if !exchange.1 then
        -- Another thread beat us to computing the parser
        { parser := exchange.2.2, df := df1, status := status1, builderCalled := true,
          deleted := temp }
      else
        -- Our copy of the parser got stored in the atomic
        { parser := temp, df := df1, status := status1, builderCalled := true, deleted := none }

/-- `DecimalFormat::getCurrencyParser`, run without interference from other threads. -/
def getCurrencyParser (env : Collaborators) (df : DecimalFormat) (status : UErrorCode) :
    ParserCall :=
  if U_FAILURE status then
    { parser := none, df := df, status := status, builderCalled := false, deleted := none }
  else
    -- First try to get the pre-computed parser
    let ptr := df.fields.atomicCurrencyParser
    if ptr ≠ none then
      { parser := ptr, df := df, status := status, builderCalled := false, deleted := none }
    else
      -- Try computing the parser on our own
      let built := env.createParserFromProperties df.fields.properties df.fields.symbols true status
      let temp := built.1
      let status1 := if temp = none then U_MEMORY_ALLOCATION_ERROR else built.2
      let exchange := compareExchangeStrong df.fields.atomicCurrencyParser ptr temp
      let df1 : DecimalFormat :=
        { df with fields := { df.fields with atomicCurrencyParser := exchange.2.1 } }
      if !exchange.1 then
        -- Another thread beat us to computing the parser
        { parser := exchange.2.2, df := df1, status := status1, builderCalled := true,
          deleted := temp }
      else
        -- Our copy of the parser got stored in the atomic
        { parser := temp, df := df1, status := status1, builderCalled := true, deleted := none }

/-! ## Parsing -/

/-- `DecimalFormat::parse(text, output, parsePosition)`: the output, the parse position
and the object (its parser cache) after the call. `ErrorCode status` starts as
`U_ZERO_ERROR`. A call through a null parser pointer has no defined result (`none`).
The sum `startIndex + result.charEnd` of two offsets into the text is taken in the
integers. -/
def parse (env : Collaborators) (df : DecimalFormat) (text : UnicodeString)
    (output : Formattable) (parsePosition : ParsePosition) :
    Option (Formattable × ParsePosition × DecimalFormat) :=
  if parsePosition.index < 0 ∨ parsePosition.index ≥ UnicodeString.length text then
    some (output, parsePosition, df)
  else
    -- Note: if this is a currency instance, currencies will be matched despite the fact
    -- that we are not in the parseCurrency method (backwards compatibility)
    let startIndex := parsePosition.index
    let call := getParser env df U_ZERO_ERROR
    if U_FAILURE call.status then some (output, parsePosition, call.df)
    else
      match call.parser with
      | none => none
      | some parser =>
        let result := (env.parserParse parser text startIndex true call.status).1
        if result.success then
          some (env.populateFormattable result output (env.getParseFlags parser),
            { parsePosition with index := result.charEnd }, call.df)
        else
          some (output, { parsePosition with errorIndex := startIndex + result.charEnd },
            call.df)

/-- `DecimalFormat::parseCurrency(text, parsePosition)`: the pointer returned (`none` is
`nullptr`), the parse position and the object after the call; the allocation of the
`CurrencyAmount` succeeds. A call through a null parser pointer has no defined result
(the outer `none`). -/
def parseCurrency (env : Collaborators) (df : DecimalFormat) (text : UnicodeString)
    (parsePosition : ParsePosition) :
    Option (Option CurrencyAmount × ParsePosition × DecimalFormat) :=
  if parsePosition.index < 0 ∨ parsePosition.index ≥ UnicodeString.length text then
    some (none, parsePosition, df)
  else
    let startIndex := parsePosition.index
    let call := getCurrencyParser env df U_ZERO_ERROR
    if U_FAILURE call.status then some (none, parsePosition, call.df)
    else
      match call.parser with
      | none => none
      | some parser =>
        let parsed := env.parserParse parser text startIndex true call.status
        let result := parsed.1
        if result.success then
          let formattable :=
            env.populateFormattable result env.newFormattable (env.getParseFlags parser)
          some (some { amount := formattable, isoCode := result.currencyCode, status := parsed.2 },
            { parsePosition with index := result.charEnd }, call.df)
        else
          some (none, { parsePosition with errorIndex := startIndex + result.charEnd },
            call.df)

/-! ## Sample data for concrete evaluations -/

/-- Modelled from the spec: `DecimalFormatProperties::equalsDefaultExceptFastFormat`
(`number_decimfmtprops.cpp`): the bag equals the default bag on every property outside
the ones `setupFastFormat` examines itself afterwards (affix patterns, grouping used
and size, integer and fraction digit limits). -/
def equalsDefaultExceptFastFormatModel (p : DecimalFormatProperties) : Bool :=
  decide ({ p with
      groupingSize := DecimalFormatProperties.unset.groupingSize
      groupingUsed := DecimalFormatProperties.unset.groupingUsed
      maximumFractionDigits := DecimalFormatProperties.unset.maximumFractionDigits
      maximumIntegerDigits := DecimalFormatProperties.unset.maximumIntegerDigits
      minimumFractionDigits := DecimalFormatProperties.unset.minimumFractionDigits
      minimumIntegerDigits := DecimalFormatProperties.unset.minimumIntegerDigits
      negativePrefixPattern := DecimalFormatProperties.unset.negativePrefixPattern
      negativeSuffixPattern := DecimalFormatProperties.unset.negativeSuffixPattern
      positivePrefixPattern := DecimalFormatProperties.unset.positivePrefixPattern
      positiveSuffixPattern := DecimalFormatProperties.unset.positiveSuffixPattern }
    = DecimalFormatProperties.unset)

/-- Symbols of a Latin-digit locale: `,` groups, `-` is the minus sign, `0` is U+0030. -/
def sampleSymbols : DecimalFormatSymbols :=
  { kGroupingSeparatorSymbol := some [0x2C]
    kMinusSignSymbol := some [0x2D]
    codePointZero := 0x30 }

/-- A formatter that renders nothing; a stand-in where a formatter object is needed. -/
def sampleFormatter : LocalizedNumberFormatter := { formatInt := fun _ => [] }

/-- One choice of collaborators for concrete evaluations: the mapper exports the bag
with an unset minimum integer or fraction digit count read as `1` and `0`, the
base-class setters store their argument, a missing currency is `XXX`, patterns leave
the bag alone, the parser builder returns the parsers numbered 1 (plain) and 2
(currency), two bags or two symbol records compare equal when they are the same, the
base-class getters read the base-class fields, and a parser matches one ASCII digit at
the start position. -/
def sampleCollaborators : Collaborators :=
  { create := fun p _ _ status =>
      (sampleFormatter,
        { p with
          minimumIntegerDigits := if p.minimumIntegerDigits < 0 then 1 else p.minimumIntegerDigits
          minimumFractionDigits := if p.minimumFractionDigits < 0 then 0 else p.minimumFractionDigits },
        status)
    equalsDefaultExceptFastFormat := equalsDefaultExceptFastFormatModel
    setCurrency := fun nf c status => ({ nf with fCurrency := c.getD [] }, status)
    setMaximumIntegerDigits := fun nf v => { nf with fMaxIntegerDigits := v }
    setMinimumIntegerDigits := fun nf v => { nf with fMinIntegerDigits := v }
    setMaximumFractionDigits := fun nf v => { nf with fMaxFractionDigits := v }
    setMinimumFractionDigits := fun nf v => { nf with fMinFractionDigits := v }
    setGroupingUsed := fun nf v => { nf with fGroupingUsed := v }
    setParseIntegerOnly := fun nf v => { nf with fParseIntegerOnly := v }
    setLenient := fun nf v => { nf with fLenient := v }
    UCONFIG_HAVE_PARSEALLINPUT := true
    currencyUnit := fun c status => (c.getD [0x58, 0x58, 0x58], status)
    parseToExistingProperties := fun _ p _ status => (p, status)
    convertLocalized := fun input _ _ status => (input, status)
    createParserFromProperties := fun _ _ parseCurrency status =>
      (some (if parseCurrency then 2 else 1), status)
    propertiesEquals := fun a b => decide (a = b)
    symbolsEquals := fun a b => decide (a = b)
    isLenient := fun nf => boolToInt nf.fLenient
    isParseIntegerOnly := fun nf => boolToInt nf.fParseIntegerOnly
    isGroupingUsed := fun nf => boolToInt nf.fGroupingUsed
    getMaximumIntegerDigits := fun nf => nf.fMaxIntegerDigits
    getMinimumIntegerDigits := fun nf => nf.fMinIntegerDigits
    getMaximumFractionDigits := fun nf => nf.fMaxFractionDigits
    getMinimumFractionDigits := fun nf => nf.fMinFractionDigits
    roundingModeOfNull := 0
    parserParse := fun _ text start _ status =>
      ({ success := decide (0x30 ≤ UnicodeString.charAt text start.toNat) &&
            decide (UnicodeString.charAt text start.toNat ≤ 0x39)
         charEnd :=
           if 0x30 ≤ UnicodeString.charAt text start.toNat ∧
             UnicodeString.charAt text start.toNat ≤ 0x39 then start + 1 else 0
         currencyCode := [0x58, 0x58, 0x58]
         quantity := UnicodeString.charAt text start.toNat - 0x30 }, status)
    getParseFlags := fun _ => 0
    populateFormattable := fun result _ _ => { id := result.quantity }
    newFormattable := { id := 0 } }

/-- A `DecimalFormat` as the constructor leaves it before the first `touch`: unset
bag, empty exported properties, no formatter, no cached parser. -/
def sampleFormat : DecimalFormat :=
  { base :=
      { fGroupingUsed := true, fMaxIntegerDigits := 0, fMinIntegerDigits := 0
        fMaxFractionDigits := 0, fMinFractionDigits := 0, fParseIntegerOnly := false
        fLenient := false, fCurrency := [] }
    fields :=
      { properties := DecimalFormatProperties.unset
        symbols := sampleSymbols
        exportedProperties := some DecimalFormatProperties.unset
        formatter := none
        canUseFastFormat := false
        fastData := { cpZero := 0, cpGroupingSeparator := 0, cpMinusSign := 0, minInt := 0, maxInt := 0 }
        atomicParser := none
        atomicCurrencyParser := none } }

/-- The sample object with the bag replaced by `p`. -/
def sampleFormatWith (p : DecimalFormatProperties) : DecimalFormat :=
  withProperties sampleFormat p

/-! ## Predicates used in the statements -/

/-- A pair of digit limits is consistent: one of the two is unset (negative) or
`min <= max`. -/
def pairConsistent (min max : Int) : Prop := min < 0 ∨ max < 0 ∨ min ≤ max

instance (min max : Int) : Decidable (pairConsistent min max) := by
  unfold pairConsistent; infer_instance

/-- The integer, fraction and significant digit pairs of a bag are all consistent. -/
def digitLimitsConsistent (p : DecimalFormatProperties) : Prop :=
  pairConsistent p.minimumIntegerDigits p.maximumIntegerDigits ∧
  pairConsistent p.minimumFractionDigits p.maximumFractionDigits ∧
  pairConsistent p.minimumSignificantDigits p.maximumSignificantDigits

instance (p : DecimalFormatProperties) : Decidable (digitLimitsConsistent p) := by
  unfold digitLimitsConsistent; infer_instance

/-! ## Definitions used to state the fast-path results -/

/-- Number of decimal digits of `m`; zero for `m = 0`. -/
def decimalDigitCount (m : Nat) : Nat := (Nat.digits 10 m).length

/-- Number of iterations of the loop of `doFastFormatInt32` on the magnitude `m`:
the loop leaves at the first `i` with `i >= maxInt`, or with `input == 0` and
`i >= minInt`. -/
def fastDigitCount (fd : FastFormatData) (m : Nat) : Nat :=
  min fd.maxInt.toNat (max (decimalDigitCount m) fd.minInt.toNat)

/-- The code unit written for the decimal digit of weight `10 ^ j` of `m`. -/
def fastDigit (fd : FastFormatData) (m j : Nat) : Char16 :=
  (fd.cpZero + m / 10 ^ j % 10) % 65536

/-- The `c` digit code units of `m`, most significant first. -/
def digitChars (fd : FastFormatData) (m : Nat) (c : Nat) : List Char16 :=
  (List.range c).reverse.map (fastDigit fd m)

/-- Grouping of a digit string: a separator follows a digit exactly when the number
of digits to its right is a positive multiple of three; no separator when `sep = 0`. -/
def groupFromRight (sep : Char16) : List Char16 → List Char16
  | [] => []
  | d :: ds =>
    if sep ≠ 0 ∧ ds ≠ [] ∧ ds.length % 3 = 0 then d :: sep :: groupFromRight sep ds
    else d :: groupFromRight sep ds

/-- Contents of `localBuffer` from `ptr` on after `i` iterations on the magnitude `m`. -/
def fastBuffer (fd : FastFormatData) (m : Nat) : Nat → List Char16
  | 0 => []
  | i + 1 =>
    if fd.cpGroupingSeparator ≠ 0 ∧ i ≠ 0 ∧ i % 3 = 0 then
      fastDigit fd m i :: fd.cpGroupingSeparator :: fastBuffer fd m i
    else fastDigit fd m i :: fastBuffer fd m i

/-- Value of `group` at the head of iteration `i`. -/
def groupAt (fd : FastFormatData) (i : Nat) : Int :=
  if fd.cpGroupingSeparator ≠ 0 then (if i = 0 then 0 else ((i - 1) % 3 + 1 : Nat)) else i

/-- The digit count `d` of `m` clamped to `[minInt, maxInt]`. -/
def clampedDigitCount (fd : FastFormatData) (m : Nat) : Nat :=
  max fd.minInt.toNat (min (decimalDigitCount m) fd.maxInt.toNat)

/-- Sample fields with the bag `p` and the exported properties `exported`. -/
def sampleFields (p exported : DecimalFormatProperties) : DecimalFormatFields :=
  { sampleFormat.fields with properties := p, exportedProperties := some exported }

/-- Sample fields carrying the fast-path plan `fd`. -/
def samplePlanFields (fd : FastFormatData) : DecimalFormatFields :=
  { sampleFormat.fields with canUseFastFormat := true, fastData := fd }

/-- A fast-path plan of a Latin-digit locale: digits from U+0030, `,` as grouping
separator, `-` as minus sign, at least one integer digit and no upper limit. -/
def samplePlan : FastFormatData :=
  { cpZero := 0x30, cpGroupingSeparator := 0x2C, cpMinusSign := 0x2D, minInt := 1, maxInt := 127 }

/-- Exported properties of a plain integer format: one integer digit at least, no
fraction digit required. -/
def sampleExported : DecimalFormatProperties :=
  { DecimalFormatProperties.unset with minimumIntegerDigits := 1, minimumFractionDigits := 0 }

/-! ## Definitions used to state the results on copies, mutators and the parser cache -/

/-- The call replaces the symbols of the instance. -/
def Mutator.replacesSymbols : Mutator → Bool
  | .adoptDecimalFormatSymbols (some _) => true
  | .setDecimalFormatSymbols _ => true
  | _ => false

/-- Both parser slots are null and the exported properties are present: what a rebuild
leaves. -/
def rebuilt (df : DecimalFormat) : Prop :=
  df.fields.atomicParser = none ∧ df.fields.atomicCurrencyParser = none ∧
    df.fields.exportedProperties.isSome = true

/-- The instance `c` carries the configuration of `s` and nothing derived from it: bag
and symbols are those of `s`, both parser slots are null, and the formatter is the one
the property mapper builds from the bag and symbols of `c` itself, exporting into a
default bag. -/
def carriesConfigurationOf (env : Collaborators) (s c : DecimalFormat) : Prop :=
  c.fields.properties = s.fields.properties ∧
  c.fields.symbols = s.fields.symbols ∧
  c.fields.atomicParser = none ∧
  c.fields.atomicCurrencyParser = none ∧
  c.fields.formatter =
    some (env.create c.fields.properties c.fields.symbols DecimalFormatProperties.unset
      U_ZERO_ERROR).1

/-- A sequence of reads of the parser cache with no mutator call in between: each entry
is a call of `getCurrencyParser` (`true`) or of `getParser` (`false`) with the status it
is entered with; the result is the instance after the last call. -/
def parserCalls (env : Collaborators) (df : DecimalFormat) : List (Bool × UErrorCode) → DecimalFormat
  | [] => df
  | (true, status) :: rest => parserCalls env (getCurrencyParser env df status).df rest
  | (false, status) :: rest => parserCalls env (getParser env df status).df rest

/-- The sample instance after its first rebuild. -/
def sampleBuilt : DecimalFormat := touchNoError sampleCollaborators sampleFormat

/-- The rebuilt sample instance after one `getParser` and one `getCurrencyParser` call:
the parsers 1 and 2 are cached. -/
def sampleParsed : DecimalFormat :=
  (getCurrencyParser sampleCollaborators
    (getParser sampleCollaborators sampleBuilt U_ZERO_ERROR).df U_ZERO_ERROR).df

/-- An instance whose formatter is not ready yet (no exported properties), after one
`getParser` call: the parser 1 is cached. -/
def sampleNotReady : DecimalFormat :=
  (getParser sampleCollaborators
    { sampleFormat with fields := { sampleFormat.fields with exportedProperties := none } }
    U_ZERO_ERROR).df

/-- Collaborators whose property mapper reports a failure: it returns a formatter,
leaves the exported properties equal to the bag, and sets `U_MEMORY_ALLOCATION_ERROR`. -/
def sampleFailingCollaborators : Collaborators :=
  { sampleCollaborators with
    create := fun p _ _ _ => (sampleFormatter, p, U_MEMORY_ALLOCATION_ERROR) }

/-- A store with the parsed sample instance at address 0, the sample instance with
grouping size 3 at address 1, and no other object. -/
def sampleStore : Store := fun address =>
  if address = 0 then some sampleParsed
  else if address = 1 then
    some (setGroupingSize sampleCollaborators sampleBuilt 3)
  else none

/-! ## The loop of `setMultiplier`, pass by pass -/

/-- One pass through the body of the `while (value != 1)` loop of
`DecimalFormat::setMultiplier`, entered with `delta` and `value`: `none` when the pass
leaves the loop by `break` (with `delta = -1`), else the `delta` and `value` the next
test of the loop condition sees. -/
def setMultiplierBody (delta value : Int) : Option (Int × Int) :=
  let delta1 := delta + 1
  let temp := value.tdiv 10
  if temp * 10 ≠ value then none else some (delta1, temp)

/-- The `while (value != 1)` loop of `DecimalFormat::setMultiplier` run for at most
`fuel` passes through its body: the final `delta`, or `none` when the loop condition
still holds after `fuel` passes. -/
def setMultiplierLoopFuel : Nat → Int → Int → Option Int
  | 0, delta, value => if value ≠ 1 then none else some delta
  | fuel + 1, delta, value =>
    if value ≠ 1 then
      match setMultiplierBody delta value with
      | none => some (-1)
      | some (delta1, temp) => setMultiplierLoopFuel fuel delta1 temp
    else some delta

/-! ## Definitions used to state the results on the base-class fields -/

/-- What the base-class integer-digit fields hold after
`NumberFormat::setMaximumIntegerDigits(max)` followed by
`NumberFormat::setMinimumIntegerDigits(min)` depends on `max` and `min` only, not on the
fields before, and the base-class setters for the fraction digits and for grouping
leave the integer-digit fields alone. -/
def integerDigitsFromArguments (env : Collaborators) : Prop :=
  (∀ (a b : NumberFormat) (max min : Int),
    (env.setMinimumIntegerDigits (env.setMaximumIntegerDigits a max) min).fMaxIntegerDigits =
      (env.setMinimumIntegerDigits (env.setMaximumIntegerDigits b max) min).fMaxIntegerDigits ∧
    (env.setMinimumIntegerDigits (env.setMaximumIntegerDigits a max) min).fMinIntegerDigits =
      (env.setMinimumIntegerDigits (env.setMaximumIntegerDigits b max) min).fMinIntegerDigits) ∧
  (∀ (a : NumberFormat) (v : Int),
    (env.setMaximumFractionDigits a v).fMaxIntegerDigits = a.fMaxIntegerDigits ∧
    (env.setMaximumFractionDigits a v).fMinIntegerDigits = a.fMinIntegerDigits) ∧
  (∀ (a : NumberFormat) (v : Int),
    (env.setMinimumFractionDigits a v).fMaxIntegerDigits = a.fMaxIntegerDigits ∧
    (env.setMinimumFractionDigits a v).fMinIntegerDigits = a.fMinIntegerDigits) ∧
  (∀ (a : NumberFormat) (g : Bool),
    (env.setGroupingUsed a g).fMaxIntegerDigits = a.fMaxIntegerDigits ∧
    (env.setGroupingUsed a g).fMinIntegerDigits = a.fMinIntegerDigits)

/-- The base-class part a rebuild leaves: the chain of base-class setter calls at the
end of `touch`, from the base-class part `base`, the exported properties `exported`,
the status `status` the property mapper returned and the `groupingUsed` of the bag. -/
def baseAfterRebuild (env : Collaborators) (base : NumberFormat)
    (exported : DecimalFormatProperties) (status : UErrorCode) (groupingUsed : Bool) :
    NumberFormat :=
  env.setGroupingUsed
    (env.setMinimumFractionDigits
      (env.setMaximumFractionDigits
        (env.setMinimumIntegerDigits
          (env.setMaximumIntegerDigits (env.setCurrency base exported.currency status).1
            exported.maximumIntegerDigits)
          exported.minimumIntegerDigits)
        exported.maximumFractionDigits)
      exported.minimumFractionDigits)
    groupingUsed

/-! ## Frame lemmas for the rebuild -/

theorem setupFastFormat_properties (env : Collaborators) (fields : DecimalFormatFields) :
    (setupFastFormat env fields).properties = fields.properties := by
  unfold setupFastFormat
  dsimp only
  repeat' (first | rfl | split)

theorem touch_properties (env : Collaborators) (df : DecimalFormat) (status : UErrorCode) :
    (touch env df status).1.fields.properties = df.fields.properties := by
  unfold touch
  split
  · rfl
  · simp [setupFastFormat_properties]

theorem touchNoError_properties (env : Collaborators) (df : DecimalFormat) :
    (touchNoError env df).fields.properties = df.fields.properties :=
  touch_properties env df U_ZERO_ERROR

/-! ## What each digit-limit setter leaves in the bag -/

theorem setMaximumIntegerDigits_properties (env : Collaborators) (df : DecimalFormat) (n : Int) :
    (setMaximumIntegerDigits env df n).fields.properties =
      if n = df.fields.properties.maximumIntegerDigits then df.fields.properties
      else if df.fields.properties.minimumIntegerDigits ≥ 0 ∧ df.fields.properties.minimumIntegerDigits > n then
        { df.fields.properties with minimumIntegerDigits := n, maximumIntegerDigits := n }
      else { df.fields.properties with maximumIntegerDigits := n } := by
  unfold setMaximumIntegerDigits
  by_cases h1 : n = df.fields.properties.maximumIntegerDigits
  · simp [h1]
  · by_cases h2 : df.fields.properties.minimumIntegerDigits ≥ 0 ∧ df.fields.properties.minimumIntegerDigits > n
    · simp [h1, h2, touchNoError_properties, withProperties]
    · simp [h1, h2, touchNoError_properties, withProperties]

theorem setMinimumIntegerDigits_properties (env : Collaborators) (df : DecimalFormat) (n : Int) :
    (setMinimumIntegerDigits env df n).fields.properties =
      if n = df.fields.properties.minimumIntegerDigits then df.fields.properties
      else if df.fields.properties.maximumIntegerDigits ≥ 0 ∧ df.fields.properties.maximumIntegerDigits < n then
        { df.fields.properties with maximumIntegerDigits := n, minimumIntegerDigits := n }
      else { df.fields.properties with minimumIntegerDigits := n } := by
  unfold setMinimumIntegerDigits
  by_cases h1 : n = df.fields.properties.minimumIntegerDigits
  · simp [h1]
  · by_cases h2 : df.fields.properties.maximumIntegerDigits ≥ 0 ∧ df.fields.properties.maximumIntegerDigits < n
    · simp [h1, h2, touchNoError_properties, withProperties]
    · simp [h1, h2, touchNoError_properties, withProperties]

theorem setMaximumFractionDigits_properties (env : Collaborators) (df : DecimalFormat) (n : Int) :
    (setMaximumFractionDigits env df n).fields.properties =
      if n = df.fields.properties.maximumFractionDigits then df.fields.properties
      else if df.fields.properties.minimumFractionDigits ≥ 0 ∧ df.fields.properties.minimumFractionDigits > n then
        { df.fields.properties with minimumFractionDigits := n, maximumFractionDigits := n }
      else { df.fields.properties with maximumFractionDigits := n } := by
  unfold setMaximumFractionDigits
  by_cases h1 : n = df.fields.properties.maximumFractionDigits
  · simp [h1]
  · by_cases h2 : df.fields.properties.minimumFractionDigits ≥ 0 ∧ df.fields.properties.minimumFractionDigits > n
    · simp [h1, h2, touchNoError_properties, withProperties]
    · simp [h1, h2, touchNoError_properties, withProperties]

theorem setMinimumFractionDigits_properties (env : Collaborators) (df : DecimalFormat) (n : Int) :
    (setMinimumFractionDigits env df n).fields.properties =
      if n = df.fields.properties.minimumFractionDigits then df.fields.properties
      else if df.fields.properties.maximumFractionDigits ≥ 0 ∧ df.fields.properties.maximumFractionDigits < n then
        { df.fields.properties with maximumFractionDigits := n, minimumFractionDigits := n }
      else { df.fields.properties with minimumFractionDigits := n } := by
  unfold setMinimumFractionDigits
  by_cases h1 : n = df.fields.properties.minimumFractionDigits
  · simp [h1]
  · by_cases h2 : df.fields.properties.maximumFractionDigits ≥ 0 ∧ df.fields.properties.maximumFractionDigits < n
    · simp [h1, h2, touchNoError_properties, withProperties]
    · simp [h1, h2, touchNoError_properties, withProperties]

theorem setMaximumSignificantDigits_properties (env : Collaborators) (df : DecimalFormat) (n : Int) :
    (setMaximumSignificantDigits env df n).fields.properties =
      if n = df.fields.properties.maximumSignificantDigits then df.fields.properties
      else if df.fields.properties.minimumSignificantDigits ≥ 0 ∧ df.fields.properties.minimumSignificantDigits > n then
        { df.fields.properties with minimumSignificantDigits := n, maximumSignificantDigits := n }
      else { df.fields.properties with maximumSignificantDigits := n } := by
  unfold setMaximumSignificantDigits
  by_cases h1 : n = df.fields.properties.maximumSignificantDigits
  · simp [h1]
  · by_cases h2 : df.fields.properties.minimumSignificantDigits ≥ 0 ∧ df.fields.properties.minimumSignificantDigits > n
    · simp [h1, h2, touchNoError_properties, withProperties]
    · simp [h1, h2, touchNoError_properties, withProperties]

theorem setMinimumSignificantDigits_properties (env : Collaborators) (df : DecimalFormat) (n : Int) :
    (setMinimumSignificantDigits env df n).fields.properties =
      if n = df.fields.properties.minimumSignificantDigits then df.fields.properties
      else if df.fields.properties.maximumSignificantDigits ≥ 0 ∧ df.fields.properties.maximumSignificantDigits < n then
        { df.fields.properties with maximumSignificantDigits := n, minimumSignificantDigits := n }
      else { df.fields.properties with minimumSignificantDigits := n } := by
  unfold setMinimumSignificantDigits
  by_cases h1 : n = df.fields.properties.minimumSignificantDigits
  · simp [h1]
  · by_cases h2 : df.fields.properties.maximumSignificantDigits ≥ 0 ∧ df.fields.properties.maximumSignificantDigits < n
    · simp [h1, h2, touchNoError_properties, withProperties]
    · simp [h1, h2, touchNoError_properties, withProperties]

/-! ## The setters keep the digit pairs consistent -/

theorem setMaximumIntegerDigits_consistent (env : Collaborators) (df : DecimalFormat) (n : Int)
    (h : digitLimitsConsistent df.fields.properties) :
    digitLimitsConsistent (setMaximumIntegerDigits env df n).fields.properties := by
  rw [setMaximumIntegerDigits_properties]
  unfold digitLimitsConsistent pairConsistent at *
  split_ifs <;> (try dsimp only) <;> omega

theorem setMinimumIntegerDigits_consistent (env : Collaborators) (df : DecimalFormat) (n : Int)
    (h : digitLimitsConsistent df.fields.properties) :
    digitLimitsConsistent (setMinimumIntegerDigits env df n).fields.properties := by
  rw [setMinimumIntegerDigits_properties]
  unfold digitLimitsConsistent pairConsistent at *
  split_ifs <;> (try dsimp only) <;> omega

theorem setMaximumFractionDigits_consistent (env : Collaborators) (df : DecimalFormat) (n : Int)
    (h : digitLimitsConsistent df.fields.properties) :
    digitLimitsConsistent (setMaximumFractionDigits env df n).fields.properties := by
  rw [setMaximumFractionDigits_properties]
  unfold digitLimitsConsistent pairConsistent at *
  split_ifs <;> (try dsimp only) <;> omega

theorem setMinimumFractionDigits_consistent (env : Collaborators) (df : DecimalFormat) (n : Int)
    (h : digitLimitsConsistent df.fields.properties) :
    digitLimitsConsistent (setMinimumFractionDigits env df n).fields.properties := by
  rw [setMinimumFractionDigits_properties]
  unfold digitLimitsConsistent pairConsistent at *
  split_ifs <;> (try dsimp only) <;> omega

theorem setMaximumSignificantDigits_consistent (env : Collaborators) (df : DecimalFormat) (n : Int)
    (h : digitLimitsConsistent df.fields.properties) :
    digitLimitsConsistent (setMaximumSignificantDigits env df n).fields.properties := by
  rw [setMaximumSignificantDigits_properties]
  unfold digitLimitsConsistent pairConsistent at *
  split_ifs <;> (try dsimp only) <;> omega

theorem setMinimumSignificantDigits_consistent (env : Collaborators) (df : DecimalFormat) (n : Int)
    (h : digitLimitsConsistent df.fields.properties) :
    digitLimitsConsistent (setMinimumSignificantDigits env df n).fields.properties := by
  rw [setMinimumSignificantDigits_properties]
  unfold digitLimitsConsistent pairConsistent at *
  split_ifs <;> (try dsimp only) <;> omega

theorem setSignificantDigitsUsed_consistent (env : Collaborators) (df : DecimalFormat) (b : Int)
    (h : digitLimitsConsistent df.fields.properties) :
    digitLimitsConsistent (setSignificantDigitsUsed env df b).fields.properties := by
  unfold setSignificantDigitsUsed
  dsimp only
  split_ifs
  all_goals
    first
    | exact h
    | (unfold digitLimitsConsistent pairConsistent at *
       simp only [touchNoError_properties, withProperties]
       omega)

theorem setMultiplier_consistent (env : Collaborators) (df : DecimalFormat) (m : Int)
    (h : digitLimitsConsistent df.fields.properties) :
    digitLimitsConsistent (setMultiplier env df m).fields.properties := by
  have key : ∀ (c : Prop) [Decidable c] (a b : DecimalFormatProperties),
      digitLimitsConsistent a → digitLimitsConsistent b →
      digitLimitsConsistent (if c then a else b) := by
    intro c _ a b ha hb
    split_ifs <;> assumption
  simp only [setMultiplier, touchNoError_properties, withProperties]
  apply key <;> exact h

theorem setAttribute_consistent (env : Collaborators) (df : DecimalFormat)
    (attr : UNumberFormatAttribute) (v : Int) (status : UErrorCode)
    (h : digitLimitsConsistent df.fields.properties) :
    digitLimitsConsistent (setAttribute env df attr v status).1.fields.properties := by
  by_cases hs : U_FAILURE status = true
  · simp only [setAttribute, hs, if_true]
    exact h
  · cases attr with
    | UNUM_LENIENT_PARSE =>
      simp only [setAttribute, hs, if_false, Bool.false_eq_true, setLenient]
      repeat' split
      all_goals
        first
        | exact h
        | (simp only [touchNoError_properties, touch_properties, withProperties]; exact h)
    | UNUM_PARSE_INT_ONLY =>
      simp only [setAttribute, hs, if_false, Bool.false_eq_true, setParseIntegerOnly]
      repeat' split
      all_goals
        first
        | exact h
        | (simp only [touchNoError_properties, touch_properties, withProperties]; exact h)
    | UNUM_GROUPING_USED =>
      simp only [setAttribute, hs, if_false, Bool.false_eq_true, setGroupingUsed]
      repeat' split
      all_goals
        first
        | exact h
        | (simp only [touchNoError_properties, touch_properties, withProperties]; exact h)
    | UNUM_DECIMAL_ALWAYS_SHOWN =>
      simp only [setAttribute, hs, if_false, Bool.false_eq_true, setDecimalSeparatorAlwaysShown]
      repeat' split
      all_goals
        first
        | exact h
        | (simp only [touchNoError_properties, touch_properties, withProperties]; exact h)
    | UNUM_MAX_INTEGER_DIGITS =>
      simp only [setAttribute, hs, if_false, Bool.false_eq_true]
      exact setMaximumIntegerDigits_consistent env df v h
    | UNUM_MIN_INTEGER_DIGITS =>
      simp only [setAttribute, hs, if_false, Bool.false_eq_true]
      exact setMinimumIntegerDigits_consistent env df v h
    | UNUM_INTEGER_DIGITS =>
      simp only [setAttribute, hs, if_false, Bool.false_eq_true]
      exact setMaximumIntegerDigits_consistent env _ v
        (setMinimumIntegerDigits_consistent env df v h)
    | UNUM_MAX_FRACTION_DIGITS =>
      simp only [setAttribute, hs, if_false, Bool.false_eq_true]
      exact setMaximumFractionDigits_consistent env df v h
    | UNUM_MIN_FRACTION_DIGITS =>
      simp only [setAttribute, hs, if_false, Bool.false_eq_true]
      exact setMinimumFractionDigits_consistent env df v h
    | UNUM_FRACTION_DIGITS =>
      simp only [setAttribute, hs, if_false, Bool.false_eq_true]
      exact setMaximumFractionDigits_consistent env _ v
        (setMinimumFractionDigits_consistent env df v h)
    | UNUM_SIGNIFICANT_DIGITS_USED =>
      simp only [setAttribute, hs, if_false, Bool.false_eq_true]
      exact setSignificantDigitsUsed_consistent env df _ h
    | UNUM_MAX_SIGNIFICANT_DIGITS =>
      simp only [setAttribute, hs, if_false, Bool.false_eq_true]
      exact setMaximumSignificantDigits_consistent env df v h
    | UNUM_MIN_SIGNIFICANT_DIGITS =>
      simp only [setAttribute, hs, if_false, Bool.false_eq_true]
      exact setMinimumSignificantDigits_consistent env df v h
    | UNUM_MULTIPLIER =>
      simp only [setAttribute, hs, if_false, Bool.false_eq_true]
      exact setMultiplier_consistent env df v h
    | UNUM_SCALE =>
      simp only [setAttribute, hs, if_false, Bool.false_eq_true, setMultiplierScale]
      repeat' split
      all_goals
        first
        | exact h
        | (simp only [touchNoError_properties, touch_properties, withProperties]; exact h)
    | UNUM_GROUPING_SIZE =>
      simp only [setAttribute, hs, if_false, Bool.false_eq_true, setGroupingSize]
      repeat' split
      all_goals
        first
        | exact h
        | (simp only [touchNoError_properties, touch_properties, withProperties]; exact h)
    | UNUM_ROUNDING_MODE =>
      simp only [setAttribute, hs, if_false, Bool.false_eq_true, setRoundingMode]
      repeat' split
      all_goals
        first
        | exact h
        | (simp only [touchNoError_properties, touch_properties, withProperties]; exact h)
    | UNUM_FORMAT_WIDTH =>
      simp only [setAttribute, hs, if_false, Bool.false_eq_true, setFormatWidth]
      repeat' split
      all_goals
        first
        | exact h
        | (simp only [touchNoError_properties, touch_properties, withProperties]; exact h)
    | UNUM_PADDING_POSITION =>
      simp only [setAttribute, hs, if_false, Bool.false_eq_true, setPadPosition]
      repeat' split
      all_goals
        first
        | exact h
        | (simp only [touchNoError_properties, touch_properties, withProperties]; exact h)
    | UNUM_SECONDARY_GROUPING_SIZE =>
      simp only [setAttribute, hs, if_false, Bool.false_eq_true, setSecondaryGroupingSize]
      repeat' split
      all_goals
        first
        | exact h
        | (simp only [touchNoError_properties, touch_properties, withProperties]; exact h)
    | UNUM_PARSE_ALL_INPUT =>
      simp only [setAttribute, hs, if_false, Bool.false_eq_true, setParseAllInput]
      repeat' split
      all_goals exact h
    | UNUM_PARSE_NO_EXPONENT =>
      simp only [setAttribute, hs, if_false, Bool.false_eq_true, setParseNoExponent]
      repeat' split
      all_goals
        first
        | exact h
        | (simp only [touchNoError_properties, touch_properties, withProperties]; exact h)
    | UNUM_PARSE_DECIMAL_MARK_REQUIRED =>
      simp only [setAttribute, hs, if_false, Bool.false_eq_true, setDecimalPatternMatchRequired]
      repeat' split
      all_goals
        first
        | exact h
        | (simp only [touchNoError_properties, touch_properties, withProperties]; exact h)
    | UNUM_CURRENCY_USAGE =>
      simp only [setAttribute, hs, if_false, Bool.false_eq_true, setCurrencyUsage]
      repeat' split
      all_goals
        first
        | exact h
        | (simp only [touchNoError_properties, touch_properties, withProperties]; exact h)
    | UNUM_MINIMUM_GROUPING_DIGITS =>
      simp only [setAttribute, hs, if_false, Bool.false_eq_true, setMinimumGroupingDigits]
      repeat' split
      all_goals
        first
        | exact h
        | (simp only [touchNoError_properties, touch_properties, withProperties]; exact h)
    | UNUM_PARSE_CASE_SENSITIVE =>
      simp only [setAttribute, hs, if_false, Bool.false_eq_true, setParseCaseSensitive]
      repeat' split
      all_goals
        first
        | exact h
        | (simp only [touchNoError_properties, touch_properties, withProperties]; exact h)
    | UNUM_SIGN_ALWAYS_SHOWN =>
      simp only [setAttribute, hs, if_false, Bool.false_eq_true, setSignAlwaysShown]
      repeat' split
      all_goals
        first
        | exact h
        | (simp only [touchNoError_properties, touch_properties, withProperties]; exact h)
    | UNUM_FORMAT_FAIL_IF_MORE_THAN_MAX_DIGITS =>
      simp only [setAttribute, hs, if_false, Bool.false_eq_true, setFormatFailIfMoreThanMaxDigits]
      repeat' split
      all_goals
        first
        | exact h
        | (simp only [touchNoError_properties, touch_properties, withProperties]; exact h)
    | other raw =>
      simp only [setAttribute, hs, if_false, Bool.false_eq_true]
      exact h

/-! ## Arithmetic of the fast-path loop -/

theorem decimalDigitCount_le_iff (m j : Nat) : decimalDigitCount m ≤ j ↔ m < 10 ^ j := by
  unfold decimalDigitCount
  constructor
  · intro h
    exact lt_of_lt_of_le (Nat.lt_base_pow_length_digits (by norm_num))
      (Nat.pow_le_pow_right (by norm_num) h)
  · intro h
    by_cases hm : m = 0
    · simp [hm]
    · have h1 := Nat.base_pow_length_digits_le 10 m (by norm_num) hm
      have h2 : 10 ^ (Nat.digits 10 m).length < 10 ^ (j + 1) := by
        rw [pow_succ]; omega
      have h3 := (Nat.pow_lt_pow_iff_right (by norm_num : 1 < 10)).mp h2
      omega

theorem div_pow_ne_zero_iff (m j : Nat) : m / 10 ^ j ≠ 0 ↔ j < decimalDigitCount m := by
  have hpos : 0 < 10 ^ j := by positivity
  rw [Ne, Nat.div_eq_zero_iff hpos, ← decimalDigitCount_le_iff]
  omega

theorem fastBuffer_length_le (fd : FastFormatData) (m i : Nat) :
    (fastBuffer fd m i).length ≤ i + (i - 1) / 3 := by
  induction i with
  | zero => simp [fastBuffer]
  | succ i ih =>
    unfold fastBuffer
    split_ifs with h
    · simp only [List.length_cons]; omega
    · simp only [List.length_cons]; omega

theorem toChar16_digit (z r : Nat) : toChar16 ((z : Int) + (r : Int)) = (z + r) % 65536 := by
  unfold toChar16
  have : ((z : Int) + (r : Int)) % 65536 = (((z + r) % 65536 : Nat) : Int) := by
    push_cast; rfl
  rw [this, Int.toNat_ofNat]

theorem wrapInt8_small (x : Int) (h0 : -128 ≤ x) (h1 : x ≤ 127) : wrapInt8 x = x := by
  unfold wrapInt8; omega

theorem wrapInt32_small (x : Int) (h0 : -2147483648 ≤ x) (h1 : x ≤ 2147483647) :
    wrapInt32 x = x := by
  unfold wrapInt32; omega

theorem groupAt_of_separator (fd : FastFormatData) (i : Nat) (hs : fd.cpGroupingSeparator ≠ 0) :
    groupAt fd i = if i = 0 then 0 else (((i - 1) % 3 + 1 : Nat) : Int) := by
  unfold groupAt
  rw [if_pos hs]

theorem groupAt_of_no_separator (fd : FastFormatData) (i : Nat)
    (hs : fd.cpGroupingSeparator = 0) : groupAt fd i = i := by
  unfold groupAt
  rw [if_neg (not_not.mpr hs)]

theorem groupAt_le (fd : FastFormatData) (i : Nat) : 0 ≤ groupAt fd i ∧ groupAt fd i ≤ i + 3 := by
  by_cases hs : fd.cpGroupingSeparator = 0
  · rw [groupAt_of_no_separator fd i hs]; omega
  · rw [groupAt_of_separator fd i hs]
    split_ifs
    · omega
    · push_cast
      omega

theorem groupAt_eq_three (fd : FastFormatData) (i : Nat) (hs : fd.cpGroupingSeparator ≠ 0) :
    groupAt fd i = 3 ↔ (i ≠ 0 ∧ i % 3 = 0) := by
  rw [groupAt_of_separator fd i hs]
  split_ifs
  · omega
  · push_cast
    omega

theorem groupAt_succ_of_separator (fd : FastFormatData) (i : Nat)
    (hs : fd.cpGroupingSeparator ≠ 0) :
    groupAt fd (i + 1) = if i ≠ 0 ∧ i % 3 = 0 then 1 else groupAt fd i + 1 := by
  rw [groupAt_of_separator fd _ hs, groupAt_of_separator fd _ hs]
  rw [if_neg (Nat.succ_ne_zero i)]
  by_cases h0 : i = 0
  · subst h0; simp
  · rw [if_neg h0]
    split_ifs
    · push_cast; omega
    · push_cast; omega

theorem fastBuffer_succ_of_separator (fd : FastFormatData) (m i : Nat)
    (h : fd.cpGroupingSeparator ≠ 0 ∧ i ≠ 0 ∧ i % 3 = 0) :
    fastBuffer fd m (i + 1) = fastDigit fd m i :: fd.cpGroupingSeparator :: fastBuffer fd m i := by
  rw [fastBuffer, if_pos h]

theorem fastBuffer_succ_of_no_separator (fd : FastFormatData) (m i : Nat)
    (h : ¬ (fd.cpGroupingSeparator ≠ 0 ∧ i ≠ 0 ∧ i % 3 = 0)) :
    fastBuffer fd m (i + 1) = fastDigit fd m i :: fastBuffer fd m i := by
  rw [fastBuffer, if_neg h]

theorem storeBefore_of_room (ptr : Nat) (buf : List Char16) (c : Char16) (h : ptr ≠ 0) :
    storeBefore ptr buf c = some (ptr - 1, c :: buf) := by
  unfold storeBefore
  rw [if_neg h]

theorem digit_store_value (fd : FastFormatData) (m i : Nat) :
    toChar16 ((fd.cpZero : Int) + ((m / 10 ^ i : Nat) : Int).tmod 10) = fastDigit fd m i := by
  have h : ((m / 10 ^ i : Nat) : Int).tmod 10 = ((m / 10 ^ i % 10 : Nat) : Int) := by
    rw [Int.ofNat_tmod]; rfl
  rw [h, toChar16_digit]
  rfl

theorem quotient_value (m i : Nat) :
    ((m / 10 ^ i : Nat) : Int).tdiv 10 = ((m / 10 ^ (i + 1) : Nat) : Int) := by
  have h : ((m / 10 ^ i : Nat) : Int).tdiv 10 = ((m / 10 ^ i / 10 : Nat) : Int) := by
    rw [Int.ofNat_tdiv]; rfl
  rw [h, Nat.div_div_eq_div_mul, pow_succ]

/-- One iteration of the loop, from the state reached after `i` iterations. -/
theorem doFastFormatInt32Loop_step (fd : FastFormatData) (m i fuel : Nat)
    (hcond : (i : Int) < fd.maxInt ∧ (m / 10 ^ i ≠ 0 ∨ (i : Int) < fd.minInt))
    (hi : i < 127) (hlen : (fastBuffer fd m (i + 1)).length ≤ localCapacity) :
    doFastFormatInt32Loop fd (fuel + 1) i (groupAt fd i) ((m / 10 ^ i : Nat) : Int)
        (localCapacity - (fastBuffer fd m i).length) (fastBuffer fd m i) =
      doFastFormatInt32Loop fd fuel ((i + 1 : Nat) : Int) (groupAt fd (i + 1))
        ((m / 10 ^ (i + 1) : Nat) : Int)
        (localCapacity - (fastBuffer fd m (i + 1)).length) (fastBuffer fd m (i + 1)) := by
  have hcond1 : (i : Int) < fd.maxInt ∧
      (((m / 10 ^ i : Nat) : Int) ≠ 0 ∨ (i : Int) < fd.minInt) := by
    refine ⟨hcond.1, ?_⟩
    rcases hcond.2 with h | h
    · left; exact_mod_cast h
    · right; exact h
  have hi1 : wrapInt8 ((i : Int) + 1) = ((i + 1 : Nat) : Int) := by
    rw [wrapInt8_small] <;> push_cast <;> omega
  rw [doFastFormatInt32Loop, if_pos hcond1]
  by_cases hsep : fd.cpGroupingSeparator ≠ 0 ∧ i ≠ 0 ∧ i % 3 = 0
  · have hg : groupAt fd i = 3 ∧ fd.cpGroupingSeparator ≠ 0 :=
      ⟨(groupAt_eq_three fd i hsep.1).mpr hsep.2, hsep.1⟩
    have hb := fastBuffer_succ_of_separator fd m i hsep
    rw [hb] at hlen ⊢
    simp only [List.length_cons] at hlen ⊢
    have hg1 : groupAt fd (i + 1) = 1 := by
      rw [groupAt_succ_of_separator fd i hsep.1, if_pos hsep.2]
    simp only [if_pos hg]
    rw [storeBefore_of_room _ _ _ (by omega)]
    simp only [Option.map_some']
    rw [storeBefore_of_room _ _ _ (by omega), digit_store_value, quotient_value, hi1, hg1]
    congr 1
  · have hg : ¬ (groupAt fd i = 3 ∧ fd.cpGroupingSeparator ≠ 0) := by
      intro h
      exact hsep ⟨h.2, (groupAt_eq_three fd i h.2).mp h.1⟩
    have hb := fastBuffer_succ_of_no_separator fd m i hsep
    rw [hb] at hlen ⊢
    simp only [List.length_cons] at hlen ⊢
    have hg1 : wrapInt8 (groupAt fd i + 1) = groupAt fd (i + 1) := by
      by_cases hs : fd.cpGroupingSeparator = 0
      · rw [groupAt_of_no_separator fd _ hs, groupAt_of_no_separator fd _ hs,
          wrapInt8_small _ (by omega) (by omega)]
        push_cast; rfl
      · have hle : groupAt fd i ≤ 3 := by
          rw [groupAt_of_separator fd i hs]
          split_ifs
          · omega
          · push_cast; omega
        have hge := (groupAt_le fd i).1
        rw [groupAt_succ_of_separator fd i hs, if_neg (fun h => hsep ⟨hs, h⟩),
          wrapInt8_small _ (by omega) (by omega)]
    simp only [if_neg hg]
    rw [storeBefore_of_room _ _ _ (by omega), digit_store_value, quotient_value, hi1, hg1]
    congr 1

theorem fastBuffer_length_le_of_le (fd : FastFormatData) (m i j : Nat) (h : i ≤ j) :
    (fastBuffer fd m i).length ≤ (fastBuffer fd m j).length := by
  induction j with
  | zero =>
    have h0 : i = 0 := by omega
    rw [h0]
  | succ j ih =>
    by_cases hij : i = j + 1
    · rw [hij]
    · have h1 := ih (by omega)
      rw [fastBuffer]
      split_ifs <;> simp only [List.length_cons] <;> omega

/-- The loop runs `c` times when its condition holds before each of the first `c`
iterations and fails before the next one, and the buffer has room. -/
theorem doFastFormatInt32Loop_run (fd : FastFormatData) (m c : Nat) (hc : c ≤ 127)
    (hlen : (fastBuffer fd m c).length ≤ localCapacity)
    (hrun : ∀ j, j < c → (j : Int) < fd.maxInt ∧ (m / 10 ^ j ≠ 0 ∨ (j : Int) < fd.minInt))
    (hstop : ¬ ((c : Int) < fd.maxInt ∧ (m / 10 ^ c ≠ 0 ∨ (c : Int) < fd.minInt))) :
    ∀ (k i fuel : Nat), i + k = c → k < fuel →
      doFastFormatInt32Loop fd fuel i (groupAt fd i) ((m / 10 ^ i : Nat) : Int)
          (localCapacity - (fastBuffer fd m i).length) (fastBuffer fd m i) =
        some (localCapacity - (fastBuffer fd m c).length, fastBuffer fd m c) := by
  intro k
  induction k with
  | zero =>
    intro i fuel hik hfuel
    have hic : i = c := by omega
    obtain ⟨fuel1, rfl⟩ : ∃ f, fuel = f + 1 := ⟨fuel - 1, by omega⟩
    subst hic
    have hstop1 : ¬ ((i : Int) < fd.maxInt ∧
        (((m / 10 ^ i : Nat) : Int) ≠ 0 ∨ (i : Int) < fd.minInt)) := by
      intro h
      apply hstop
      refine ⟨h.1, ?_⟩
      rcases h.2 with h2 | h2
      · left; exact_mod_cast h2
      · right; exact h2
    rw [doFastFormatInt32Loop, if_neg hstop1]
  | succ k ih =>
    intro i fuel hik hfuel
    obtain ⟨fuel1, rfl⟩ : ∃ f, fuel = f + 1 := ⟨fuel - 1, by omega⟩
    have hlen1 : (fastBuffer fd m (i + 1)).length ≤ localCapacity :=
      le_trans (fastBuffer_length_le_of_le fd m (i + 1) c (by omega)) hlen
    rw [doFastFormatInt32Loop_step fd m i fuel1 (hrun i (by omega)) (by omega) hlen1]
    exact ih (i + 1) fuel1 (by omega) (by omega)

theorem fastDigitCount_runs (fd : FastFormatData) (m j : Nat) (hj : j < fastDigitCount fd m) :
    (j : Int) < fd.maxInt ∧ (m / 10 ^ j ≠ 0 ∨ (j : Int) < fd.minInt) := by
  unfold fastDigitCount at hj
  have h1 : j < fd.maxInt.toNat := lt_of_lt_of_le hj (min_le_left _ _)
  have h2 : j < max (decimalDigitCount m) fd.minInt.toNat := lt_of_lt_of_le hj (min_le_right _ _)
  refine ⟨by omega, ?_⟩
  rcases lt_max_iff.mp h2 with h3 | h3
  · left; exact (div_pow_ne_zero_iff m j).mpr h3
  · right; omega

theorem fastDigitCount_stops (fd : FastFormatData) (m : Nat) :
    ¬ ((fastDigitCount fd m : Int) < fd.maxInt ∧
      (m / 10 ^ fastDigitCount fd m ≠ 0 ∨ (fastDigitCount fd m : Int) < fd.minInt)) := by
  intro h
  have h1 : fastDigitCount fd m < fd.maxInt.toNat := by omega
  have h2 : max (decimalDigitCount m) fd.minInt.toNat ≤ fastDigitCount fd m := by
    unfold fastDigitCount at h1 ⊢
    rcases le_total fd.maxInt.toNat (max (decimalDigitCount m) fd.minInt.toNat) with h3 | h3
    · rw [min_eq_left h3] at h1; omega
    · rw [min_eq_right h3]
  rcases h.2 with h3 | h3
  · have := (div_pow_ne_zero_iff m _).mp h3
    have := le_max_left (decimalDigitCount m) fd.minInt.toNat
    omega
  · have := le_max_right (decimalDigitCount m) fd.minInt.toNat
    omega

theorem fastDigitCount_le_ten (fd : FastFormatData) (m : Nat) (hmin : fd.minInt ≤ 10)
    (hm : m < 10 ^ 10) : fastDigitCount fd m ≤ 10 := by
  unfold fastDigitCount
  have h1 : decimalDigitCount m ≤ 10 := (decimalDigitCount_le_iff m 10).mpr hm
  have h2 : fd.minInt.toNat ≤ 10 := by omega
  exact le_trans (min_le_right _ _) (max_le h1 h2)

theorem fastDigitCount_le_maxInt (fd : FastFormatData) (m : Nat) :
    fastDigitCount fd m ≤ fd.maxInt.toNat := min_le_left _ _

/-- The text `doFastFormatInt32` produces for a magnitude below `10 ^ 10`, under the
bounds `setupFastFormat` puts on the plan. -/
theorem doFastFormatInt32_eq (fields : DecimalFormatFields) (input : Int) (isNegative : Bool)
    (output : TextBuffer) (m : Nat)
    (hm : (if isNegative then wrapInt32 (-input) else input) = (m : Int))
    (hmin : fields.fastData.minInt ≤ 10) (hm10 : m < 10 ^ 10) :
    doFastFormatInt32 fields input isNegative output =
      some ((if isNegative then output ++ [fields.fastData.cpMinusSign] else output) ++
        fastBuffer fields.fastData m (fastDigitCount fields.fastData m)) := by
  have hc10 := fastDigitCount_le_ten fields.fastData m hmin hm10
  have hlen : (fastBuffer fields.fastData m (fastDigitCount fields.fastData m)).length ≤
      localCapacity := by
    have := fastBuffer_length_le fields.fastData m (fastDigitCount fields.fastData m)
    unfold localCapacity
    omega
  have hrun := doFastFormatInt32Loop_run fields.fastData m (fastDigitCount fields.fastData m)
    (by omega) hlen (fastDigitCount_runs fields.fastData m) (fastDigitCount_stops fields.fastData m)
    (fastDigitCount fields.fastData m) 0 128 (by omega) (by omega)
  have h0 : groupAt fields.fastData 0 = 0 := by
    unfold groupAt; simp
  simp only [fastBuffer, List.length_nil, Nat.sub_zero, pow_zero, Nat.div_one, h0,
    Nat.cast_zero] at hrun
  unfold doFastFormatInt32
  simp only [hm, hrun]
  congr 2
  apply List.take_of_length_le
  omega

theorem digitChars_succ (fd : FastFormatData) (m c : Nat) :
    digitChars fd m (c + 1) = fastDigit fd m c :: digitChars fd m c := by
  unfold digitChars
  rw [List.range_succ, List.reverse_append]
  rfl

theorem digitChars_length (fd : FastFormatData) (m c : Nat) :
    (digitChars fd m c).length = c := by
  unfold digitChars
  simp

/-- The buffer is the digit string with separators inserted from the right. -/
theorem fastBuffer_eq_groupFromRight (fd : FastFormatData) (m c : Nat) :
    fastBuffer fd m c = groupFromRight fd.cpGroupingSeparator (digitChars fd m c) := by
  induction c with
  | zero => rfl
  | succ c ih =>
    rw [digitChars_succ, groupFromRight, fastBuffer, ← ih]
    have hiff : (fd.cpGroupingSeparator ≠ 0 ∧ digitChars fd m c ≠ [] ∧
        (digitChars fd m c).length % 3 = 0) ↔
        (fd.cpGroupingSeparator ≠ 0 ∧ c ≠ 0 ∧ c % 3 = 0) := by
      rw [digitChars_length]
      have : digitChars fd m c ≠ [] ↔ c ≠ 0 := by
        rw [Ne, ← List.length_eq_zero, digitChars_length]
      rw [this]
    by_cases h : fd.cpGroupingSeparator ≠ 0 ∧ c ≠ 0 ∧ c % 3 = 0
    · rw [if_pos h, if_pos (hiff.mpr h)]
    · rw [if_neg h, if_neg (fun h1 => h (hiff.mp h1))]

theorem groupFromRight_no_separator (ds : List Char16) : groupFromRight 0 ds = ds := by
  induction ds with
  | nil => rfl
  | cons d ds ih =>
    rw [groupFromRight, if_neg (by simp), ih]

theorem fastBuffer_length_of_separator (fd : FastFormatData) (m c : Nat)
    (hs : fd.cpGroupingSeparator ≠ 0) :
    (fastBuffer fd m c).length = c + (c - 1) / 3 := by
  induction c with
  | zero => rfl
  | succ c ih =>
    by_cases h : c ≠ 0 ∧ c % 3 = 0
    · rw [fastBuffer_succ_of_separator fd m c ⟨hs, h⟩]
      simp only [List.length_cons, ih]
      omega
    · rw [fastBuffer_succ_of_no_separator fd m c (fun h1 => h h1.2)]
      simp only [List.length_cons, ih]
      omega

/-- Position by position from the right: index `j` holds the separator when
`j % 4 = 3` and otherwise the digit of weight `10 ^ (j - j / 4)`. -/
theorem fastBuffer_reverse_getElem (fd : FastFormatData) (m c : Nat)
    (hs : fd.cpGroupingSeparator ≠ 0) (j : Nat) (hj : j < c + (c - 1) / 3) :
    (fastBuffer fd m c).reverse[j]? =
      some (if j % 4 = 3 then fd.cpGroupingSeparator else fastDigit fd m (j - j / 4)) := by
  induction c with
  | zero => omega
  | succ c ih =>
    have hlen := fastBuffer_length_of_separator fd m c hs
    by_cases h : c ≠ 0 ∧ c % 3 = 0
    · rw [fastBuffer_succ_of_separator fd m c ⟨hs, h⟩]
      simp only [List.reverse_cons, List.append_assoc, List.singleton_append]
      by_cases hjc : j < c + (c - 1) / 3
      · rw [List.getElem?_append_left (by rw [List.length_reverse, hlen]; exact hjc)]
        exact ih hjc
      · rw [List.getElem?_append_right (by rw [List.length_reverse, hlen]; omega),
          List.length_reverse, hlen]
        by_cases hj0 : j = c + (c - 1) / 3
        · have h3 : j % 4 = 3 := by omega
          rw [if_pos h3, hj0, Nat.sub_self]
          rfl
        · have h1 : j - (c + (c - 1) / 3) = 1 := by omega
          have h3 : ¬ j % 4 = 3 := by omega
          have h4 : j - j / 4 = c := by omega
          rw [if_neg h3, h1, h4]
          rfl
    · rw [fastBuffer_succ_of_no_separator fd m c (fun h1 => h h1.2)]
      simp only [List.reverse_cons]
      by_cases hjc : j < c + (c - 1) / 3
      · rw [List.getElem?_append_left (by rw [List.length_reverse, hlen]; exact hjc)]
        exact ih hjc
      · rw [List.getElem?_append_right (by rw [List.length_reverse, hlen]; omega),
          List.length_reverse, hlen]
        have h1 : j - (c + (c - 1) / 3) = 0 := by omega
        have h3 : ¬ j % 4 = 3 := by omega
        have h4 : j - j / 4 = c := by omega
        rw [if_neg h3, h1, h4]
        rfl

theorem fastDigitCount_eq_clamped (fd : FastFormatData) (m : Nat)
    (h : fd.minInt ≤ fd.maxInt) : fastDigitCount fd m = clampedDigitCount fd m := by
  unfold fastDigitCount clampedDigitCount
  have h1 : fd.minInt.toNat ≤ fd.maxInt.toNat := Int.toNat_le_toNat h
  omega

theorem magnitude_of_input (n : Int) (hlo : -2147483648 < n) (hhi : n ≤ 2147483647) :
    (if decide (n < 0) = true then wrapInt32 (-n) else n) = (n.natAbs : Int) := by
  by_cases hn : n < 0
  · simp only [hn, decide_True, if_true]
    rw [wrapInt32_small _ (by omega) (by omega)]
    omega
  · simp only [hn, decide_False, if_false, Bool.false_eq_true]
    omega

theorem natAbs_lt_pow (n : Int) (hlo : -2147483648 < n) (hhi : n ≤ 2147483647) :
    n.natAbs < 10 ^ 10 := by
  omega

theorem doFastFormatInt32_of_int32 (fields : DecimalFormatFields) (n : Int) (out : TextBuffer)
    (hmin10 : fields.fastData.minInt ≤ 10) (hlo : -2147483648 < n) (hhi : n ≤ 2147483647) :
    doFastFormatInt32 fields n (decide (n < 0)) out =
      some (out ++ (if n < 0 then [fields.fastData.cpMinusSign] else []) ++
        fastBuffer fields.fastData n.natAbs (fastDigitCount fields.fastData n.natAbs)) := by
  rw [doFastFormatInt32_eq fields n (decide (n < 0)) out n.natAbs (magnitude_of_input n hlo hhi)
    hmin10 (natAbs_lt_pow n hlo hhi)]
  by_cases hn : n < 0
  · simp [hn]
  · simp [hn]

theorem mod_char16_of_small (z r : Nat) (hz : z + 9 < 65536) (hr : r < 10) :
    (z + r) % 65536 = z + r :=
  Nat.mod_eq_of_lt (by omega)

theorem setupFastFormat_eligible_plan (env : Collaborators) (f0 : DecimalFormatFields)
    (exported : DecimalFormatProperties) (hex : f0.exportedProperties = some exported)
    (h : (setupFastFormat env f0).canUseFastFormat = true) :
    0 ≤ (setupFastFormat env f0).fastData.minInt ∧
    (setupFastFormat env f0).fastData.minInt ≤ 10 ∧
    0 ≤ (setupFastFormat env f0).fastData.maxInt ∧
    (setupFastFormat env f0).fastData.maxInt ≤ 127 := by
  unfold setupFastFormat at h ⊢
  simp only [hex] at h ⊢
  split_ifs at h ⊢
  all_goals first
    | (simp at h; done)
    | (dsimp only
       refine ⟨?_, ?_, ?_, ?_⟩ <;>
         first | omega | (rw [wrapInt8_small] <;> omega))

/-! ## The claims -/

/-- C1. Last writer wins for the integer-digit pair. For every bag whose integer pair
is not in conflict (minimumIntegerDigits < 0, or maximumIntegerDigits < 0, or
min <= max): (a) if maximumIntegerDigits >= 0 and n > maximumIntegerDigits, then after
`setMinimumIntegerDigits(n)` the bag has minimumIntegerDigits = maximumIntegerDigits = n;
(b) if minimumIntegerDigits >= 0 and 0 <= n < minimumIntegerDigits, then after
`setMaximumIntegerDigits(n)` the bag has maximumIntegerDigits = minimumIntegerDigits = n. -/
theorem C1_integer_digits_last_writer_wins (env : Collaborators) (df : DecimalFormat) (n : Int)
    (hpair : pairConsistent df.fields.properties.minimumIntegerDigits
      df.fields.properties.maximumIntegerDigits) :
    (df.fields.properties.maximumIntegerDigits ≥ 0 →
        n > df.fields.properties.maximumIntegerDigits →
      (setMinimumIntegerDigits env df n).fields.properties.minimumIntegerDigits = n ∧
      (setMinimumIntegerDigits env df n).fields.properties.maximumIntegerDigits = n) ∧
    (df.fields.properties.minimumIntegerDigits ≥ 0 → 0 ≤ n →
        n < df.fields.properties.minimumIntegerDigits →
      (setMaximumIntegerDigits env df n).fields.properties.maximumIntegerDigits = n ∧
      (setMaximumIntegerDigits env df n).fields.properties.minimumIntegerDigits = n) := by
  unfold pairConsistent at hpair
  constructor
  · intro hmax hn
    rw [setMinimumIntegerDigits_properties]
    have hne : n ≠ df.fields.properties.minimumIntegerDigits := by omega
    simp [hne, hmax, hn]
  · intro hmin h0 hn
    rw [setMaximumIntegerDigits_properties]
    have hne : n ≠ df.fields.properties.maximumIntegerDigits := by omega
    simp [hne, hmin, hn]

/-- C1, at a concrete bag: with the integer pair (min, max) = (2, 5),
`setMinimumIntegerDigits(7)` leaves (7, 7) and `setMaximumIntegerDigits(1)`
leaves (1, 1). -/
theorem C1_integer_digits_witness :
    ((setMinimumIntegerDigits sampleCollaborators
        (sampleFormatWith { DecimalFormatProperties.unset with
          minimumIntegerDigits := 2, maximumIntegerDigits := 5 }) 7).fields.properties.minimumIntegerDigits = 7 ∧
      (setMinimumIntegerDigits sampleCollaborators
        (sampleFormatWith { DecimalFormatProperties.unset with
          minimumIntegerDigits := 2, maximumIntegerDigits := 5 }) 7).fields.properties.maximumIntegerDigits = 7) ∧
    ((setMaximumIntegerDigits sampleCollaborators
        (sampleFormatWith { DecimalFormatProperties.unset with
          minimumIntegerDigits := 2, maximumIntegerDigits := 5 }) 1).fields.properties.maximumIntegerDigits = 1 ∧
      (setMaximumIntegerDigits sampleCollaborators
        (sampleFormatWith { DecimalFormatProperties.unset with
          minimumIntegerDigits := 2, maximumIntegerDigits := 5 }) 1).fields.properties.minimumIntegerDigits = 1) :=
  ⟨(C1_integer_digits_last_writer_wins sampleCollaborators
      (sampleFormatWith { DecimalFormatProperties.unset with
        minimumIntegerDigits := 2, maximumIntegerDigits := 5 }) 7
      (by decide)).1 (by decide) (by decide),
    (C1_integer_digits_last_writer_wins sampleCollaborators
      (sampleFormatWith { DecimalFormatProperties.unset with
        minimumIntegerDigits := 2, maximumIntegerDigits := 5 }) 1
      (by decide)).2 (by decide) (by decide) (by decide)⟩

/-- C2. The predicate "for each of the integer, fraction and significant digit pairs:
min < 0, or max < 0, or min <= max" on the bag is preserved by every digit-limit
mutator for every argument value: the six minimum/maximum setters,
`setSignificantDigitsUsed`, and `setAttribute`. For `setAttribute` the statement is
shown for every selector and every incoming status, which covers
UNUM_INTEGER_DIGITS, UNUM_FRACTION_DIGITS and the six MIN/MAX digit attributes. -/
theorem C2_digit_limit_mutators_keep_pairs_consistent (env : Collaborators) (df : DecimalFormat)
    (v : Int) (status : UErrorCode) (h : digitLimitsConsistent df.fields.properties) :
    digitLimitsConsistent (setMinimumIntegerDigits env df v).fields.properties ∧
    digitLimitsConsistent (setMaximumIntegerDigits env df v).fields.properties ∧
    digitLimitsConsistent (setMinimumFractionDigits env df v).fields.properties ∧
    digitLimitsConsistent (setMaximumFractionDigits env df v).fields.properties ∧
    digitLimitsConsistent (setMinimumSignificantDigits env df v).fields.properties ∧
    digitLimitsConsistent (setMaximumSignificantDigits env df v).fields.properties ∧
    digitLimitsConsistent (setSignificantDigitsUsed env df v).fields.properties ∧
    ∀ attr : UNumberFormatAttribute,
      digitLimitsConsistent (setAttribute env df attr v status).1.fields.properties :=
  ⟨setMinimumIntegerDigits_consistent env df v h,
    setMaximumIntegerDigits_consistent env df v h,
    setMinimumFractionDigits_consistent env df v h,
    setMaximumFractionDigits_consistent env df v h,
    setMinimumSignificantDigits_consistent env df v h,
    setMaximumSignificantDigits_consistent env df v h,
    setSignificantDigitsUsed_consistent env df v h,
    fun attr => setAttribute_consistent env df attr v status h⟩

/-- C2, at a concrete bag: the integer pair (2, 5) is consistent, and it stays so after
`setMinimumIntegerDigits(7)` and after `setAttribute(UNUM_INTEGER_DIGITS, 7)`. -/
theorem C2_digit_limit_mutators_witness :
    digitLimitsConsistent
      (sampleFormatWith { DecimalFormatProperties.unset with
        minimumIntegerDigits := 2, maximumIntegerDigits := 5 }).fields.properties ∧
    digitLimitsConsistent
      (setMinimumIntegerDigits sampleCollaborators
        (sampleFormatWith { DecimalFormatProperties.unset with
        minimumIntegerDigits := 2, maximumIntegerDigits := 5 }) 7).fields.properties ∧
    digitLimitsConsistent
      (setAttribute sampleCollaborators
        (sampleFormatWith { DecimalFormatProperties.unset with
        minimumIntegerDigits := 2, maximumIntegerDigits := 5 })
        UNumberFormatAttribute.UNUM_INTEGER_DIGITS 7 U_ZERO_ERROR).1.fields.properties :=
  ⟨by decide,
    (C2_digit_limit_mutators_keep_pairs_consistent sampleCollaborators
      (sampleFormatWith { DecimalFormatProperties.unset with
        minimumIntegerDigits := 2, maximumIntegerDigits := 5 }) 7 U_ZERO_ERROR (by decide)).1,
    (C2_digit_limit_mutators_keep_pairs_consistent sampleCollaborators
      (sampleFormatWith { DecimalFormatProperties.unset with
        minimumIntegerDigits := 2, maximumIntegerDigits := 5 }) 7 U_ZERO_ERROR (by decide)).2.2.2.2.2.2.2
      UNumberFormatAttribute.UNUM_INTEGER_DIGITS⟩

/-- C3. Last writer wins for the fraction-digit pair. For every bag whose fraction pair
is not in conflict (minimumFractionDigits < 0, or maximumFractionDigits < 0, or
min <= max): (a) if maximumFractionDigits >= 0 and n > maximumFractionDigits, then after
`setMinimumFractionDigits(n)` the bag has minimumFractionDigits = maximumFractionDigits = n;
(b) if minimumFractionDigits >= 0 and 0 <= n < minimumFractionDigits, then after
`setMaximumFractionDigits(n)` the bag has maximumFractionDigits = minimumFractionDigits = n. -/
theorem C3_fraction_digits_last_writer_wins (env : Collaborators) (df : DecimalFormat) (n : Int)
    (hpair : pairConsistent df.fields.properties.minimumFractionDigits
      df.fields.properties.maximumFractionDigits) :
    (df.fields.properties.maximumFractionDigits ≥ 0 →
        n > df.fields.properties.maximumFractionDigits →
      (setMinimumFractionDigits env df n).fields.properties.minimumFractionDigits = n ∧
      (setMinimumFractionDigits env df n).fields.properties.maximumFractionDigits = n) ∧
    (df.fields.properties.minimumFractionDigits ≥ 0 → 0 ≤ n →
        n < df.fields.properties.minimumFractionDigits →
      (setMaximumFractionDigits env df n).fields.properties.maximumFractionDigits = n ∧
      (setMaximumFractionDigits env df n).fields.properties.minimumFractionDigits = n) := by
  unfold pairConsistent at hpair
  constructor
  · intro hmax hn
    rw [setMinimumFractionDigits_properties]
    have hne : n ≠ df.fields.properties.minimumFractionDigits := by omega
    simp [hne, hmax, hn]
  · intro hmin h0 hn
    rw [setMaximumFractionDigits_properties]
    have hne : n ≠ df.fields.properties.maximumFractionDigits := by omega
    simp [hne, hmin, hn]

/-- C3, at a concrete bag: with the fraction pair (min, max) = (3, 6),
`setMinimumFractionDigits(9)` leaves (9, 9) and `setMaximumFractionDigits(0)`
leaves (0, 0). -/
theorem C3_fraction_digits_witness :
    ((setMinimumFractionDigits sampleCollaborators
        (sampleFormatWith { DecimalFormatProperties.unset with
          minimumFractionDigits := 3, maximumFractionDigits := 6 }) 9).fields.properties.minimumFractionDigits = 9 ∧
      (setMinimumFractionDigits sampleCollaborators
        (sampleFormatWith { DecimalFormatProperties.unset with
          minimumFractionDigits := 3, maximumFractionDigits := 6 }) 9).fields.properties.maximumFractionDigits = 9) ∧
    ((setMaximumFractionDigits sampleCollaborators
        (sampleFormatWith { DecimalFormatProperties.unset with
          minimumFractionDigits := 3, maximumFractionDigits := 6 }) 0).fields.properties.maximumFractionDigits = 0 ∧
      (setMaximumFractionDigits sampleCollaborators
        (sampleFormatWith { DecimalFormatProperties.unset with
          minimumFractionDigits := 3, maximumFractionDigits := 6 }) 0).fields.properties.minimumFractionDigits = 0) :=
  ⟨(C3_fraction_digits_last_writer_wins sampleCollaborators
      (sampleFormatWith { DecimalFormatProperties.unset with
        minimumFractionDigits := 3, maximumFractionDigits := 6 }) 9
      (by decide)).1 (by decide) (by decide),
    (C3_fraction_digits_last_writer_wins sampleCollaborators
      (sampleFormatWith { DecimalFormatProperties.unset with
        minimumFractionDigits := 3, maximumFractionDigits := 6 }) 0
      (by decide)).2 (by decide) (by decide) (by decide)⟩

/-- C4. Last writer wins for the significant-digit pair. For every bag whose significant pair
is not in conflict (minimumSignificantDigits < 0, or maximumSignificantDigits < 0, or
min <= max): (a) if maximumSignificantDigits >= 0 and n > maximumSignificantDigits, then after
`setMinimumSignificantDigits(n)` the bag has minimumSignificantDigits = maximumSignificantDigits = n;
(b) if minimumSignificantDigits >= 0 and 0 <= n < minimumSignificantDigits, then after
`setMaximumSignificantDigits(n)` the bag has maximumSignificantDigits = minimumSignificantDigits = n. -/
theorem C4_significant_digits_last_writer_wins (env : Collaborators) (df : DecimalFormat) (n : Int)
    (hpair : pairConsistent df.fields.properties.minimumSignificantDigits
      df.fields.properties.maximumSignificantDigits) :
    (df.fields.properties.maximumSignificantDigits ≥ 0 →
        n > df.fields.properties.maximumSignificantDigits →
      (setMinimumSignificantDigits env df n).fields.properties.minimumSignificantDigits = n ∧
      (setMinimumSignificantDigits env df n).fields.properties.maximumSignificantDigits = n) ∧
    (df.fields.properties.minimumSignificantDigits ≥ 0 → 0 ≤ n →
        n < df.fields.properties.minimumSignificantDigits →
      (setMaximumSignificantDigits env df n).fields.properties.maximumSignificantDigits = n ∧
      (setMaximumSignificantDigits env df n).fields.properties.minimumSignificantDigits = n) := by
  unfold pairConsistent at hpair
  constructor
  · intro hmax hn
    rw [setMinimumSignificantDigits_properties]
    have hne : n ≠ df.fields.properties.minimumSignificantDigits := by omega
    simp [hne, hmax, hn]
  · intro hmin h0 hn
    rw [setMaximumSignificantDigits_properties]
    have hne : n ≠ df.fields.properties.maximumSignificantDigits := by omega
    simp [hne, hmin, hn]

/-- C4, at a concrete bag: with the significant pair (min, max) = (2, 4),
`setMinimumSignificantDigits(5)` leaves (5, 5) and `setMaximumSignificantDigits(1)`
leaves (1, 1). -/
theorem C4_significant_digits_witness :
    ((setMinimumSignificantDigits sampleCollaborators
        (sampleFormatWith { DecimalFormatProperties.unset with
          minimumSignificantDigits := 2, maximumSignificantDigits := 4 }) 5).fields.properties.minimumSignificantDigits = 5 ∧
      (setMinimumSignificantDigits sampleCollaborators
        (sampleFormatWith { DecimalFormatProperties.unset with
          minimumSignificantDigits := 2, maximumSignificantDigits := 4 }) 5).fields.properties.maximumSignificantDigits = 5) ∧
    ((setMaximumSignificantDigits sampleCollaborators
        (sampleFormatWith { DecimalFormatProperties.unset with
          minimumSignificantDigits := 2, maximumSignificantDigits := 4 }) 1).fields.properties.maximumSignificantDigits = 1 ∧
      (setMaximumSignificantDigits sampleCollaborators
        (sampleFormatWith { DecimalFormatProperties.unset with
          minimumSignificantDigits := 2, maximumSignificantDigits := 4 }) 1).fields.properties.minimumSignificantDigits = 1) :=
  ⟨(C4_significant_digits_last_writer_wins sampleCollaborators
      (sampleFormatWith { DecimalFormatProperties.unset with
        minimumSignificantDigits := 2, maximumSignificantDigits := 4 }) 5
      (by decide)).1 (by decide) (by decide),
    (C4_significant_digits_last_writer_wins sampleCollaborators
      (sampleFormatWith { DecimalFormatProperties.unset with
        minimumSignificantDigits := 2, maximumSignificantDigits := 4 }) 1
      (by decide)).2 (by decide) (by decide) (by decide)⟩

/-- C6. Fast-path digit rendering. For every plan with zero digit z and
0 <= minInt <= maxInt <= 127, minInt <= 10, and every n with -2^31 < n <= 2^31-1,
`doFastFormatInt32` returns, appends the minus-sign code unit first iff n < 0, and then
the digit string with grouping separators inserted (`groupFromRight` inserts nothing
but separators, and nothing at all when the separator is 0). The digit string has
exactly c code units, c being the number d of decimal digits of |n| (0 for n = 0)
clamped to [minInt, maxInt]; read most significant first they are
z + (|n| / 10^j mod 10) for j = c-1, ..., 0, as a `char16_t` (so modulo 2^16, which
changes nothing when z + 9 < 2^16): the c low-order digits of |n|, left-padded with z.
For n = 0 this is minInt digits, and when d > maxInt it is maxInt digits, the high-order
ones being dropped. -/
theorem C6_fast_path_digit_rendering (fields : DecimalFormatFields) (n : Int) (out : TextBuffer)
    (_hmin0 : 0 ≤ fields.fastData.minInt)
    (hminmax : fields.fastData.minInt ≤ fields.fastData.maxInt)
    (_hmax : fields.fastData.maxInt ≤ 127) (hmin10 : fields.fastData.minInt ≤ 10)
    (hlo : -2147483648 < n) (hhi : n ≤ 2147483647) :
    doFastFormatInt32 fields n (decide (n < 0)) out =
      some (out ++ (if n < 0 then [fields.fastData.cpMinusSign] else []) ++
        groupFromRight fields.fastData.cpGroupingSeparator
          (digitChars fields.fastData n.natAbs
            (clampedDigitCount fields.fastData n.natAbs))) ∧
    (digitChars fields.fastData n.natAbs (clampedDigitCount fields.fastData n.natAbs)).length =
      clampedDigitCount fields.fastData n.natAbs ∧
    (n = 0 → clampedDigitCount fields.fastData n.natAbs = fields.fastData.minInt.toNat) ∧
    (fields.fastData.maxInt.toNat < decimalDigitCount n.natAbs →
      clampedDigitCount fields.fastData n.natAbs = fields.fastData.maxInt.toNat) ∧
    (fields.fastData.cpZero + 9 < 65536 → ∀ j,
      fastDigit fields.fastData n.natAbs j = fields.fastData.cpZero + n.natAbs / 10 ^ j % 10) := by
  have h1 : fields.fastData.minInt.toNat ≤ fields.fastData.maxInt.toNat :=
    Int.toNat_le_toNat hminmax
  refine ⟨?_, digitChars_length _ _ _, ?_, ?_, ?_⟩
  · rw [doFastFormatInt32_of_int32 fields n out hmin10 hlo hhi,
      fastDigitCount_eq_clamped _ _ hminmax, fastBuffer_eq_groupFromRight]
  · intro hn
    subst hn
    unfold clampedDigitCount decimalDigitCount
    simp
  · intro hd
    unfold clampedDigitCount
    omega
  · intro hz j
    unfold fastDigit
    have hd : n.natAbs / 10 ^ j % 10 < 10 := Nat.mod_lt _ (by norm_num)
    exact mod_char16_of_small _ _ hz hd

/-- C6, at a concrete input: with the sample plan (z = `0`, separator `,`, minus `-`,
minInt 1, maxInt 127), -1234567 is rendered as `-1,234,567`, and with maxInt 2 and
no separator 12345 is rendered as `45`. -/
theorem C6_fast_path_digit_rendering_witness :
    doFastFormatInt32 (samplePlanFields samplePlan) (-1234567) true [] =
      some [0x2D, 0x31, 0x2C, 0x32, 0x33, 0x34, 0x2C, 0x35, 0x36, 0x37] ∧
    doFastFormatInt32
        (samplePlanFields { samplePlan with cpGroupingSeparator := 0, maxInt := 2 }) 12345 false [] =
      some [0x34, 0x35] ∧
    doFastFormatInt32 (samplePlanFields samplePlan) (-1234567) (decide ((-1234567 : Int) < 0)) [] =
      some ([] ++ (if (-1234567 : Int) < 0 then [(samplePlanFields samplePlan).fastData.cpMinusSign]
          else []) ++
        groupFromRight (samplePlanFields samplePlan).fastData.cpGroupingSeparator
          (digitChars (samplePlanFields samplePlan).fastData (-1234567 : Int).natAbs
            (clampedDigitCount (samplePlanFields samplePlan).fastData
              (-1234567 : Int).natAbs))) :=
  ⟨by decide, by decide,
    (C6_fast_path_digit_rendering (samplePlanFields samplePlan) (-1234567) []
      (by decide) (by decide) (by decide) (by decide) (by decide) (by decide)).1⟩

/-- C7. Fast-path grouping placement. For every plan with minInt <= 10 and every n with
-2^31 < n <= 2^31-1, `doFastFormatInt32` returns the sign followed by a body such that,
c being the number of digits emitted: when the separator g is not 0, the body has
c + floor((c-1)/3) code units and, counting positions from the right from 0, position j
holds g exactly when j mod 4 = 3 and otherwise holds the digit of weight 10^(j - j/4).
So g stands between the 3k-th and the (3k+1)-th digit from the right for every k >= 1
for which both are emitted and nowhere else, there are floor((c-1)/3) separators, the
body neither begins nor ends with a separator position, and padding zeros are grouped
like other digits; with c >= 1 the first and the last code unit of the body are the
digits of weight 10^(c-1) and 10^0. When the separator field is 0 the body is the bare
digit string. -/
theorem C7_fast_path_grouping_placement (fields : DecimalFormatFields) (n : Int)
    (out : TextBuffer) (hmin10 : fields.fastData.minInt ≤ 10)
    (hlo : -2147483648 < n) (hhi : n ≤ 2147483647) :
    ∃ body : List Char16,
      doFastFormatInt32 fields n (decide (n < 0)) out =
        some (out ++ (if n < 0 then [fields.fastData.cpMinusSign] else []) ++ body) ∧
      (fields.fastData.cpGroupingSeparator ≠ 0 →
        body.length = fastDigitCount fields.fastData n.natAbs +
          (fastDigitCount fields.fastData n.natAbs - 1) / 3 ∧
        (∀ j, j < body.length →
          body.reverse[j]? =
            some (if j % 4 = 3 then fields.fastData.cpGroupingSeparator
              else fastDigit fields.fastData n.natAbs (j - j / 4))) ∧
        (1 ≤ fastDigitCount fields.fastData n.natAbs →
          body.reverse[0]? = some (fastDigit fields.fastData n.natAbs 0) ∧
          body.reverse[body.length - 1]? =
            some (fastDigit fields.fastData n.natAbs
              (fastDigitCount fields.fastData n.natAbs - 1)))) ∧
      (fields.fastData.cpGroupingSeparator = 0 →
        body = digitChars fields.fastData n.natAbs (fastDigitCount fields.fastData n.natAbs)) := by
  refine ⟨fastBuffer fields.fastData n.natAbs (fastDigitCount fields.fastData n.natAbs),
    doFastFormatInt32_of_int32 fields n out hmin10 hlo hhi, ?_, ?_⟩
  · intro hs
    have hlen := fastBuffer_length_of_separator fields.fastData n.natAbs
      (fastDigitCount fields.fastData n.natAbs) hs
    refine ⟨hlen, ?_, ?_⟩
    · intro j hj
      rw [hlen] at hj
      exact fastBuffer_reverse_getElem _ _ _ hs j hj
    · intro hc
      constructor
      · rw [fastBuffer_reverse_getElem _ _ _ hs 0 (by omega)]
        rfl
      · rw [hlen, fastBuffer_reverse_getElem _ _ _ hs _ (by omega)]
        have h3 : ¬ (fastDigitCount fields.fastData n.natAbs +
            (fastDigitCount fields.fastData n.natAbs - 1) / 3 - 1) % 4 = 3 := by omega
        have h4 : (fastDigitCount fields.fastData n.natAbs +
            (fastDigitCount fields.fastData n.natAbs - 1) / 3 - 1) -
            (fastDigitCount fields.fastData n.natAbs +
              (fastDigitCount fields.fastData n.natAbs - 1) / 3 - 1) / 4 =
            fastDigitCount fields.fastData n.natAbs - 1 := by omega
        rw [if_neg h3, h4]
  · intro hs
    rw [fastBuffer_eq_groupFromRight, hs, groupFromRight_no_separator]

/-- C7, at a concrete input: n = 1234567 with g = `,` gives `1,234,567`. -/
theorem C7_fast_path_grouping_placement_witness :
    doFastFormatInt32 (samplePlanFields samplePlan) 1234567 false [] =
      some [0x31, 0x2C, 0x32, 0x33, 0x34, 0x2C, 0x35, 0x36, 0x37] ∧
    ∃ body : List Char16,
      doFastFormatInt32 (samplePlanFields samplePlan) 1234567 (decide ((1234567 : Int) < 0)) [] =
        some ([] ++ (if (1234567 : Int) < 0 then [(samplePlanFields samplePlan).fastData.cpMinusSign]
          else []) ++ body) ∧
      ((samplePlanFields samplePlan).fastData.cpGroupingSeparator ≠ 0 →
        body.length = fastDigitCount (samplePlanFields samplePlan).fastData (1234567 : Int).natAbs +
          (fastDigitCount (samplePlanFields samplePlan).fastData (1234567 : Int).natAbs - 1) / 3 ∧
        (∀ j, j < body.length →
          body.reverse[j]? =
            some (if j % 4 = 3 then (samplePlanFields samplePlan).fastData.cpGroupingSeparator
              else fastDigit (samplePlanFields samplePlan).fastData (1234567 : Int).natAbs
                (j - j / 4))) ∧
        (1 ≤ fastDigitCount (samplePlanFields samplePlan).fastData (1234567 : Int).natAbs →
          body.reverse[0]? =
            some (fastDigit (samplePlanFields samplePlan).fastData (1234567 : Int).natAbs 0) ∧
          body.reverse[body.length - 1]? =
            some (fastDigit (samplePlanFields samplePlan).fastData (1234567 : Int).natAbs
              (fastDigitCount (samplePlanFields samplePlan).fastData
                (1234567 : Int).natAbs - 1)))) ∧
      ((samplePlanFields samplePlan).fastData.cpGroupingSeparator = 0 →
        body = digitChars (samplePlanFields samplePlan).fastData (1234567 : Int).natAbs
          (fastDigitCount (samplePlanFields samplePlan).fastData (1234567 : Int).natAbs)) :=
  ⟨by decide,
    C7_fast_path_grouping_placement (samplePlanFields samplePlan) 1234567 []
      (by decide) (by decide) (by decide)⟩

/-- C8, as stated, fails at n = -2^31: the configuration is eligible, n is representable
in 32 bits, and `fastFormatInt64` returns false, leaving the text as it was. -/
theorem C8_counterexample_int32_min :
    (setupFastFormat sampleCollaborators
      (sampleFields { DecimalFormatProperties.unset with groupingSize := 3 } sampleExported)).canUseFastFormat = true ∧
    (-2147483648 : Int) ≥ -2147483648 ∧ (-2147483648 : Int) ≤ 2147483647 ∧
    fastFormatInt64
      (setupFastFormat sampleCollaborators
        (sampleFields { DecimalFormatProperties.unset with groupingSize := 3 } sampleExported))
      (-2147483648) [] = some (false, []) := by
  decide

/-- C8 (amended). For every eligible configuration (the fields `setupFastFormat` leaves
with `canUseFastFormat` set, run as `touch` runs it, with exported properties present)
and every integer n with -2^31 < n <= 2^31-1, formatting n
with no field-position request takes the fast path: `fastFormatInt64(n, out)` returns
true with some text, and `format` returns that same text whatever formatter object the
instance holds (even none), so the general formatter is not invoked. n = -2^31 is kept
off the fast path by the guard `input <= INT32_MIN`. -/
theorem C8_fast_path_taken (env : Collaborators) (f0 : DecimalFormatFields)
    (exported : DecimalFormatProperties) (hex : f0.exportedProperties = some exported)
    (helig : (setupFastFormat env f0).canUseFastFormat = true)
    (n : Int) (hlo : -2147483648 < n) (hhi : n ≤ 2147483647) (out : TextBuffer) :
    (∃ text : TextBuffer,
      fastFormatInt64 (setupFastFormat env f0) n out = some (true, text) ∧
      ∀ (base : NumberFormat) (formatter : Option LocalizedNumberFormatter),
        format { base := base, fields := { setupFastFormat env f0 with formatter := formatter } }
          n out DONT_CARE = some text) ∧
    fastFormatInt64 (setupFastFormat env f0) (-2147483648) out = some (false, out) := by
  have hplan := setupFastFormat_eligible_plan env f0 exported hex helig
  have hfast : ∀ g : DecimalFormatFields, g.canUseFastFormat = true →
      g.fastData = (setupFastFormat env f0).fastData →
      fastFormatInt64 g n out =
        some (true, out ++ (if n < 0 then [(setupFastFormat env f0).fastData.cpMinusSign] else []) ++
          fastBuffer (setupFastFormat env f0).fastData n.natAbs
            (fastDigitCount (setupFastFormat env f0).fastData n.natAbs)) := by
    intro g hg hfd
    have hrange : ¬ (n ≤ INT32_MIN ∨ n > INT32_MAX) := by
      unfold INT32_MIN INT32_MAX; omega
    unfold fastFormatInt64
    rw [hg]
    simp only [Bool.not_true, Bool.false_eq_true, if_false, hrange]
    rw [wrapInt32_small n (by omega) (by omega),
      doFastFormatInt32_of_int32 g n out (by rw [hfd]; exact hplan.2.1) hlo hhi, hfd]
    rfl
  refine ⟨⟨_, hfast _ helig rfl, ?_⟩, ?_⟩
  · intro base formatter
    unfold format
    simp only [if_true]
    rw [hfast { setupFastFormat env f0 with formatter := formatter } helig rfl]
  · unfold fastFormatInt64
    rw [helig]
    simp [INT32_MIN]

/-- C8 (amended), at a concrete input: the sample configuration with grouping size 3 is
eligible and 1234567 is formatted on the fast path as `1,234,567`. -/
theorem C8_fast_path_taken_witness :
    fastFormatInt64
      (setupFastFormat sampleCollaborators
        (sampleFields { DecimalFormatProperties.unset with groupingSize := 3 } sampleExported))
      1234567 [] = some (true, [0x31, 0x2C, 0x32, 0x33, 0x34, 0x2C, 0x35, 0x36, 0x37]) ∧
    ((∃ text : TextBuffer,
      fastFormatInt64
        (setupFastFormat sampleCollaborators
          (sampleFields { DecimalFormatProperties.unset with groupingSize := 3 } sampleExported))
        1234567 [] = some (true, text) ∧
      ∀ (base : NumberFormat) (formatter : Option LocalizedNumberFormatter),
        format { base := base, fields := { setupFastFormat sampleCollaborators
            (sampleFields { DecimalFormatProperties.unset with groupingSize := 3 } sampleExported) with
          formatter := formatter } }
          1234567 [] DONT_CARE = some text) ∧
    fastFormatInt64
      (setupFastFormat sampleCollaborators
        (sampleFields { DecimalFormatProperties.unset with groupingSize := 3 } sampleExported))
      (-2147483648) [] = some (false, [])) :=
  ⟨by decide,
    C8_fast_path_taken sampleCollaborators
      (sampleFields { DecimalFormatProperties.unset with groupingSize := 3 } sampleExported)
      sampleExported rfl (by decide) 1234567 (by decide) (by decide) []⟩

/-- C9. Fall-through: for every configuration and every integer n with n < -2^31 or
n > 2^31-1, and for every n at all when the plan is not eligible, `fastFormatInt64`
returns false and leaves the output buffer exactly as it was, so that `format` produces
what the general path produces: the formatter's text appended to the buffer. -/
theorem C9_fast_path_falls_through (df : DecimalFormat) (n : Int) (out : TextBuffer)
    (h : n < -2147483648 ∨ n > 2147483647 ∨ df.fields.canUseFastFormat = false) :
    fastFormatInt64 df.fields n out = some (false, out) ∧
    format df n out DONT_CARE =
      df.fields.formatter.map (fun formatter => out ++ formatter.formatInt n) := by
  have hfast : fastFormatInt64 df.fields n out = some (false, out) := by
    unfold fastFormatInt64
    by_cases hc : df.fields.canUseFastFormat = true
    · have hrange : n ≤ INT32_MIN ∨ n > INT32_MAX := by
        unfold INT32_MIN INT32_MAX
        rcases h with h | h | h
        · left; omega
        · right; omega
        · rw [hc] at h; exact absurd h (by decide)
      simp only [hc, Bool.not_true, Bool.false_eq_true, if_false, hrange, if_true]
    · simp only [hc, Bool.not_eq_true] at hc ⊢
      simp [hc]
  refine ⟨hfast, ?_⟩
  unfold format
  simp only [if_true]
  rw [hfast]

/-- C9, at concrete inputs: 2^31 on an eligible configuration, and 5 on the sample
object, whose plan is not eligible; both leave the text `[7]` untouched. -/
theorem C9_fast_path_falls_through_witness :
    fastFormatInt64
      { setupFastFormat sampleCollaborators
          (sampleFields { DecimalFormatProperties.unset with groupingSize := 3 } sampleExported) with
        formatter := some sampleFormatter }
      2147483648 [7] = some (false, [7]) ∧
    fastFormatInt64 sampleFormat.fields 5 [7] = some (false, [7]) :=
  ⟨(C9_fast_path_falls_through
      { base := sampleFormat.base
        fields := { setupFastFormat sampleCollaborators
            (sampleFields { DecimalFormatProperties.unset with groupingSize := 3 } sampleExported) with
          formatter := some sampleFormatter } }
      2147483648 [7] (Or.inr (Or.inl (by decide)))).1,
    (C9_fast_path_falls_through sampleFormat 5 [7] (Or.inr (Or.inr (by decide)))).1⟩

/-- C10, as stated, fails when grouping is not used: with groupingUsed = false and
groupingSize = 4 (positive and different from 3), every other property unset and
Latin-digit symbols, `setupFastFormat` marks the plan eligible. -/
theorem C10_counterexample_grouping_not_used :
    (sampleFields
        { DecimalFormatProperties.unset with groupingUsed := false, groupingSize := 4 }
        sampleExported).properties.groupingSize > 0 ∧
    (sampleFields
        { DecimalFormatProperties.unset with groupingUsed := false, groupingSize := 4 }
        sampleExported).properties.groupingSize ≠ 3 ∧
    (setupFastFormat sampleCollaborators
      (sampleFields
        { DecimalFormatProperties.unset with groupingUsed := false, groupingSize := 4 }
        sampleExported)).canUseFastFormat = true := by
  decide

/-- C10 (amended). For every bag in which grouping is used (groupingUsed = true) and whose
groupingSize is positive and different from 3, whatever the other properties, the
exported properties and the symbols are, `setupFastFormat` leaves the plan not
eligible (canUseFastFormat = false). -/
theorem C10_unusual_grouping_size_disqualifies (env : Collaborators) (f0 : DecimalFormatFields)
    (hused : f0.properties.groupingUsed = true) (hpos : 0 < f0.properties.groupingSize)
    (hne : f0.properties.groupingSize ≠ 3) :
    (setupFastFormat env f0).canUseFastFormat = false := by
  unfold setupFastFormat
  simp only [hused, hpos, hne]
  split_ifs <;> simp_all

/-- C10 (amended), at a concrete bag: grouping used with groupingSize = 4, everything
else unset, is not eligible. -/
theorem C10_unusual_grouping_size_witness :
    (setupFastFormat sampleCollaborators
      (sampleFields { DecimalFormatProperties.unset with groupingSize := 4 } sampleExported)).canUseFastFormat = false :=
  C10_unusual_grouping_size_disqualifies sampleCollaborators
    (sampleFields { DecimalFormatProperties.unset with groupingSize := 4 } sampleExported)
    (by decide) (by decide) (by decide)

/-! ## What eligibility says about the bag and the symbols -/

theorem isEmpty_iff (s : UnicodeString) :
    UnicodeString.isEmpty s = true ↔ s = none ∨ s = some [] := by
  cases s with
  | none => simp [UnicodeString.isEmpty, UnicodeString.length]
  | some us =>
    cases us with
    | nil => simp [UnicodeString.isEmpty, UnicodeString.length]
    | cons a t =>
      simp only [UnicodeString.isEmpty, UnicodeString.length, List.length_cons,
        decide_eq_true_eq]
      constructor
      · intro h
        omega
      · intro h
        simp at h

theorem length_eq_one_iff (s : UnicodeString) :
    UnicodeString.length s = 1 ↔ ∃ c, s = some [c] := by
  cases s with
  | none => simp [UnicodeString.length]
  | some us =>
    cases us with
    | nil => simp [UnicodeString.length]
    | cons a t =>
      cases t with
      | nil => simp [UnicodeString.length]
      | cons b t2 =>
        simp only [UnicodeString.length, List.length_cons]
        constructor
        · intro h
          omega
        · intro h
          obtain ⟨c, hc⟩ := h
          simp at hc

theorem trivialNegativePrefix_iff (s : UnicodeString) :
    (UnicodeString.isBogus s ||
      (decide (UnicodeString.length s = 1) && decide (UnicodeString.charAt s 0 = 0x2D))) = true ↔
      s = none ∨ s = some [0x2D] := by
  cases s with
  | none => simp [UnicodeString.isBogus]
  | some us =>
    cases us with
    | nil => simp [UnicodeString.isBogus, UnicodeString.length]
    | cons a t =>
      cases t with
      | nil => simp [UnicodeString.isBogus, UnicodeString.length, UnicodeString.charAt]
      | cons b t2 =>
        simp only [UnicodeString.isBogus, UnicodeString.length, List.length_cons,
          Option.isNone_some, Bool.false_or, Bool.and_eq_true, decide_eq_true_eq]
        constructor
        · intro h
          omega
        · intro h
          simp at h

/-- An eligible plan comes from the last branch of `setupFastFormat`: every test before
it passed, and the plan is the one computed there. -/
theorem setupFastFormat_eligible (env : Collaborators) (f0 : DecimalFormatFields)
    (exported : DecimalFormatProperties) (hex : f0.exportedProperties = some exported)
    (h : (setupFastFormat env f0).canUseFastFormat = true) :
    env.equalsDefaultExceptFastFormat f0.properties = true ∧
    UnicodeString.isEmpty f0.properties.positivePrefixPattern = true ∧
    UnicodeString.isEmpty f0.properties.positiveSuffixPattern = true ∧
    (UnicodeString.isBogus f0.properties.negativePrefixPattern ||
      (decide (UnicodeString.length f0.properties.negativePrefixPattern = 1) &&
        decide (UnicodeString.charAt f0.properties.negativePrefixPattern 0 = 0x2D))) = true ∧
    UnicodeString.isEmpty f0.properties.negativeSuffixPattern = true ∧
    (f0.properties.groupingUsed = true →
      (f0.properties.groupingSize ≤ 0 ∨ f0.properties.groupingSize = 3) ∧
        UnicodeString.length f0.symbols.kGroupingSeparatorSymbol = 1) ∧
    exported.minimumIntegerDigits ≤ 10 ∧
    exported.minimumFractionDigits ≤ 0 ∧
    UnicodeString.length f0.symbols.kMinusSignSymbol = 1 ∧
    U16_LENGTH f0.symbols.codePointZero = 1 ∧
    (setupFastFormat env f0).fastData =
      { cpZero := toChar16 f0.symbols.codePointZero
        cpGroupingSeparator :=
          if f0.properties.groupingUsed && decide (f0.properties.groupingSize = 3)
          then UnicodeString.charAt f0.symbols.kGroupingSeparatorSymbol 0 else 0
        cpMinusSign := UnicodeString.charAt f0.symbols.kMinusSignSymbol 0
        minInt :=
          if exported.minimumIntegerDigits < 0 ∨ exported.minimumIntegerDigits > 127 then 0
          else wrapInt8 exported.minimumIntegerDigits
        maxInt :=
          if exported.maximumIntegerDigits < 0 ∨ exported.maximumIntegerDigits > 127 then 127
          else wrapInt8 exported.maximumIntegerDigits } := by
  have c1 : env.equalsDefaultExceptFastFormat f0.properties = true := by
    by_contra hc
    simp [setupFastFormat, hc] at h
  have c2 : UnicodeString.isEmpty f0.properties.positivePrefixPattern = true := by
    by_contra hc
    simp [setupFastFormat, c1, hc] at h
  have c3 : UnicodeString.isEmpty f0.properties.positiveSuffixPattern = true := by
    by_contra hc
    simp [setupFastFormat, c1, c2, hc] at h
  have c4 : (UnicodeString.isBogus f0.properties.negativePrefixPattern ||
      (decide (UnicodeString.length f0.properties.negativePrefixPattern = 1) &&
        decide (UnicodeString.charAt f0.properties.negativePrefixPattern 0 = 0x2D))) = true := by
    by_contra hc
    rw [Bool.not_eq_true] at hc
    unfold setupFastFormat at h
    simp only [c1, c2, c3, hc] at h
    simp at h
  have c5 : UnicodeString.isEmpty f0.properties.negativeSuffixPattern = true := by
    by_contra hc
    rw [Bool.not_eq_true] at hc
    unfold setupFastFormat at h
    simp only [c1, c2, c3, c4, hc] at h
    simp at h
  have c6 : (f0.properties.groupingUsed &&
      ((decide (f0.properties.groupingSize > 0) && decide (f0.properties.groupingSize ≠ 3)) ||
        decide (UnicodeString.length f0.symbols.kGroupingSeparatorSymbol ≠ 1))) = false := by
    by_contra hc
    rw [Bool.not_eq_false] at hc
    unfold setupFastFormat at h
    simp only [c1, c2, c3, c4, c5, hc] at h
    simp at h
  have c7 : exported.minimumIntegerDigits ≤ 10 := by
    by_contra hc
    have hc2 : exported.minimumIntegerDigits > 10 := by omega
    unfold setupFastFormat at h
    simp only [c1, c2, c3, c4, c5, c6, hex, hc2] at h
    simp at h
  have c7n : ¬ exported.minimumIntegerDigits > 10 := by omega
  have c8 : exported.minimumFractionDigits ≤ 0 := by
    by_contra hc
    have hc2 : exported.minimumFractionDigits > 0 := by omega
    unfold setupFastFormat at h
    simp only [c1, c2, c3, c4, c5, c6, hex, c7n, hc2] at h
    simp at h
  have c8n : ¬ exported.minimumFractionDigits > 0 := by omega
  have c9 : (decide (UnicodeString.length f0.symbols.kMinusSignSymbol ≠ 1) ||
      decide (U16_LENGTH f0.symbols.codePointZero ≠ 1)) = false := by
    by_contra hc
    rw [Bool.not_eq_false] at hc
    unfold setupFastFormat at h
    simp only [c1, c2, c3, c4, c5, c6, hex, c7n, c8n, hc] at h
    simp at h
  have c9b : UnicodeString.length f0.symbols.kMinusSignSymbol = 1 ∧
      U16_LENGTH f0.symbols.codePointZero = 1 := by
    simpa using c9
  refine ⟨c1, c2, c3, c4, c5, ?_, c7, c8, c9b.1, c9b.2, ?_⟩
  · intro hg
    rw [hg] at c6
    simp only [Bool.true_and, Bool.or_eq_false_iff, Bool.and_eq_false_imp, decide_eq_true_eq,
      decide_eq_false_iff_not, ne_eq, Decidable.not_not] at c6
    refine ⟨?_, c6.2⟩
    by_cases hpos : f0.properties.groupingSize > 0
    · exact Or.inr (c6.1 hpos)
    · exact Or.inl (by omega)
  · unfold setupFastFormat
    simp only [c1, c2, c3, c4, c5, c6, hex, c7n, c8n, c9]
    simp

/-- C11. Eligibility is sound: whenever `setupFastFormat` (run on fields with exported
properties present, as `touch` runs it) marks the plan eligible, the positive-prefix,
positive-suffix and negative-suffix patterns are empty (bogus or of length zero), the
negative-prefix pattern is unset or exactly the one character `-`, the exported
minimumFractionDigits is <= 0, the exported minimumIntegerDigits is <= 10, the
minus-sign symbol is exactly one code unit, the zero digit is a code point of one code
unit, and `equalsDefaultExceptFastFormat` holds of the bag. -/
theorem C11_eligibility_is_sound (env : Collaborators) (f0 : DecimalFormatFields)
    (exported : DecimalFormatProperties) (hex : f0.exportedProperties = some exported)
    (helig : (setupFastFormat env f0).canUseFastFormat = true) :
    (f0.properties.positivePrefixPattern = none ∨ f0.properties.positivePrefixPattern = some []) ∧
    (f0.properties.positiveSuffixPattern = none ∨ f0.properties.positiveSuffixPattern = some []) ∧
    (f0.properties.negativeSuffixPattern = none ∨ f0.properties.negativeSuffixPattern = some []) ∧
    (f0.properties.negativePrefixPattern = none ∨
      f0.properties.negativePrefixPattern = some [0x2D]) ∧
    exported.minimumFractionDigits ≤ 0 ∧
    exported.minimumIntegerDigits ≤ 10 ∧
    (∃ c, f0.symbols.kMinusSignSymbol = some [c]) ∧
    U16_LENGTH f0.symbols.codePointZero = 1 ∧
    env.equalsDefaultExceptFastFormat f0.properties = true := by
  obtain ⟨h1, h2, h3, h4, h5, _, h7, h8, h9, h10, _⟩ :=
    setupFastFormat_eligible env f0 exported hex helig
  exact ⟨(isEmpty_iff _).1 h2, (isEmpty_iff _).1 h3, (isEmpty_iff _).1 h5,
    (trivialNegativePrefix_iff _).1 h4, h8, h7, (length_eq_one_iff _).1 h9, h10, h1⟩

/-- C11, at a concrete bag: the sample configuration with grouping size 3 and the
negative prefix pattern `-` is eligible, and the nine facts hold of it. -/
theorem C11_eligibility_is_sound_witness :
    (setupFastFormat sampleCollaborators
      (sampleFields
        { DecimalFormatProperties.unset with groupingSize := 3, negativePrefixPattern := some [0x2D] }
        sampleExported)).canUseFastFormat = true ∧
    ((some [0x2D] : UnicodeString) = none ∨ (some [0x2D] : UnicodeString) = some [0x2D]) ∧
    sampleExported.minimumFractionDigits ≤ 0 ∧
    sampleExported.minimumIntegerDigits ≤ 10 ∧
    (∃ c, sampleSymbols.kMinusSignSymbol = some [c]) :=
  have h := C11_eligibility_is_sound sampleCollaborators
    (sampleFields
      { DecimalFormatProperties.unset with groupingSize := 3, negativePrefixPattern := some [0x2D] }
      sampleExported)
    sampleExported rfl (by decide)
  ⟨by decide, h.2.2.2.1, h.2.2.2.2.1, h.2.2.2.2.2.1, h.2.2.2.2.2.2.1⟩

/-- C12. FastPathPlan ranges: for every eligible plan produced by `setupFastFormat` (run
on fields with exported properties present, as `touch` runs it), 0 <= minInt <= 10 and
0 <= maxInt <= 127; minInt equals the exported minimumIntegerDigits when that is >= 0
and is 0 when it is negative; maxInt equals the exported maximumIntegerDigits when that
lies in [0,127] and is 127 otherwise; and the grouping-separator field of the plan is
non-zero only if grouping is used and groupingSize is exactly 3. -/
theorem C12_fast_path_plan_ranges (env : Collaborators) (f0 : DecimalFormatFields)
    (exported : DecimalFormatProperties) (hex : f0.exportedProperties = some exported)
    (helig : (setupFastFormat env f0).canUseFastFormat = true) :
    (0 ≤ (setupFastFormat env f0).fastData.minInt ∧
      (setupFastFormat env f0).fastData.minInt ≤ 10) ∧
    (0 ≤ (setupFastFormat env f0).fastData.maxInt ∧
      (setupFastFormat env f0).fastData.maxInt ≤ 127) ∧
    (0 ≤ exported.minimumIntegerDigits →
      (setupFastFormat env f0).fastData.minInt = exported.minimumIntegerDigits) ∧
    (exported.minimumIntegerDigits < 0 → (setupFastFormat env f0).fastData.minInt = 0) ∧
    (0 ≤ exported.maximumIntegerDigits ∧ exported.maximumIntegerDigits ≤ 127 →
      (setupFastFormat env f0).fastData.maxInt = exported.maximumIntegerDigits) ∧
    (¬ (0 ≤ exported.maximumIntegerDigits ∧ exported.maximumIntegerDigits ≤ 127) →
      (setupFastFormat env f0).fastData.maxInt = 127) ∧
    ((setupFastFormat env f0).fastData.cpGroupingSeparator ≠ 0 →
      f0.properties.groupingUsed = true ∧ f0.properties.groupingSize = 3) := by
  obtain ⟨_, _, _, _, _, _, h7, _, _, _, hfd⟩ :=
    setupFastFormat_eligible env f0 exported hex helig
  have hplan := setupFastFormat_eligible_plan env f0 exported hex helig
  refine ⟨⟨hplan.1, hplan.2.1⟩, ⟨hplan.2.2.1, hplan.2.2.2⟩, ?_, ?_, ?_, ?_, ?_⟩
  · intro h0
    rw [hfd]
    have hn : ¬ (exported.minimumIntegerDigits < 0 ∨ exported.minimumIntegerDigits > 127) := by
      omega
    simp only [hn, if_false]
    exact wrapInt8_small _ (by omega) (by omega)
  · intro h0
    rw [hfd]
    simp [h0]
  · intro h0
    rw [hfd]
    have hn : ¬ (exported.maximumIntegerDigits < 0 ∨ exported.maximumIntegerDigits > 127) := by
      omega
    simp only [hn, if_false]
    exact wrapInt8_small _ (by omega) (by omega)
  · intro h0
    rw [hfd]
    have hn : exported.maximumIntegerDigits < 0 ∨ exported.maximumIntegerDigits > 127 := by
      omega
    simp only [hn, if_true]
  · intro hsep
    rw [hfd] at hsep
    by_cases hc : (f0.properties.groupingUsed && decide (f0.properties.groupingSize = 3)) = true
    · simpa using hc
    · simp [hc] at hsep

/-- C12, at a concrete configuration: grouping size 3, exported minimumIntegerDigits 1
and exported maximumIntegerDigits 300 give an eligible plan with minInt = 1,
maxInt = 127 and the grouping separator `,`. -/
theorem C12_fast_path_plan_ranges_witness :
    (setupFastFormat sampleCollaborators
      (sampleFields { DecimalFormatProperties.unset with groupingSize := 3 }
        { sampleExported with maximumIntegerDigits := 300 })).fastData =
      { cpZero := 0x30, cpGroupingSeparator := 0x2C, cpMinusSign := 0x2D, minInt := 1, maxInt := 127 } ∧
    (0 ≤ (setupFastFormat sampleCollaborators
      (sampleFields { DecimalFormatProperties.unset with groupingSize := 3 }
        { sampleExported with maximumIntegerDigits := 300 })).fastData.minInt ∧
      (setupFastFormat sampleCollaborators
        (sampleFields { DecimalFormatProperties.unset with groupingSize := 3 }
          { sampleExported with maximumIntegerDigits := 300 })).fastData.minInt ≤ 10) :=
  ⟨by decide,
    (C12_fast_path_plan_ranges sampleCollaborators
      (sampleFields { DecimalFormatProperties.unset with groupingSize := 3 }
        { sampleExported with maximumIntegerDigits := 300 })
      { sampleExported with maximumIntegerDigits := 300 } rfl (by decide)).1⟩

/-! ## The multiplier loop -/

theorem setMultiplierLoop_congr (d v w : Int) (hv : v ≠ 0) (hw : w ≠ 0) (h : v = w) :
    setMultiplierLoop d v hv = setMultiplierLoop d w hw := by
  subst h
  rfl

theorem pow_ten_ne_zero (k : Nat) : (10 : Int) ^ k ≠ 0 :=
  pow_ne_zero k (by decide)

/-- On a power of ten the loop counts the exponent. -/
theorem setMultiplierLoop_pow (k : Nat) (d : Int) :
    setMultiplierLoop d (10 ^ k) (pow_ten_ne_zero k) = d + k := by
  induction k generalizing d with
  | zero =>
    rw [setMultiplierLoop]
    simp
  | succ k ih =>
    have hne : (10 : Int) ^ (k + 1) ≠ 1 := by
      have h1 : (0 : Int) < 10 ^ k := pow_pos (by decide) k
      rw [pow_succ]
      omega
    have hdiv : ((10 : Int) ^ (k + 1)).tdiv 10 = 10 ^ k := by
      rw [pow_succ]
      exact Int.mul_tdiv_cancel _ (by decide)
    have hmul : ((10 : Int) ^ (k + 1)).tdiv 10 * 10 = 10 ^ (k + 1) := by
      rw [hdiv, pow_succ]
    rw [setMultiplierLoop]
    simp only [hne, ne_eq, not_false_eq_true, dif_pos, hmul, not_true_eq_false, dif_neg]
    rw [setMultiplierLoop_congr (d + 1) _ (10 ^ k) _ (pow_ten_ne_zero k) hdiv, ih]
    push_cast
    omega

/-- On a non-zero value that is not a power of ten the loop ends with `-1`. -/
theorem setMultiplierLoop_not_pow (n : Nat) :
    ∀ (d v : Int) (hv : v ≠ 0), v.natAbs ≤ n → (∀ k : Nat, v ≠ 10 ^ k) →
      setMultiplierLoop d v hv = -1 := by
  induction n with
  | zero =>
    intro d v hv hn _
    omega
  | succ n ih =>
    intro d v hv hn hpow
    have hne : v ≠ 1 := by
      have := hpow 0
      simpa using this
    rw [setMultiplierLoop]
    simp only [hne, ne_eq, not_false_eq_true, dif_pos]
    by_cases h2 : v.tdiv 10 * 10 = v
    · simp only [h2, not_true_eq_false, dif_neg, not_false_eq_true]
      apply ih
      · generalize v.tdiv 10 = t at h2
        omega
      · intro k hk
        apply hpow (k + 1)
        rw [← h2, hk, pow_succ]
    · simp only [h2, not_false_eq_true, dif_pos]

/-- The bag `setMultiplier` leaves, on a non-zero power of ten. -/
theorem setMultiplier_pow (env : Collaborators) (df : DecimalFormat) (k : Nat) :
    (setMultiplier env df (10 ^ k)).fields.properties =
      { df.fields.properties with magnitudeMultiplier := k, multiplier := 1 } := by
  have h0 : ¬ ((10 : Int) ^ k = 0) := pow_ten_ne_zero k
  have hd : ¬ ((k : Int) = -1) := by omega
  simp only [setMultiplier, touchNoError_properties, withProperties, h0, dif_neg,
    not_false_eq_true, setMultiplierLoop_pow, zero_add, ne_eq, hd, if_true]

/-- The bag `setMultiplier` leaves, on a non-zero value that is not a power of ten. -/
theorem setMultiplier_not_pow (env : Collaborators) (df : DecimalFormat) (m : Int)
    (hm : m ≠ 0) (hpow : ∀ k : Nat, m ≠ 10 ^ k) :
    (setMultiplier env df m).fields.properties =
      { df.fields.properties with magnitudeMultiplier := 0, multiplier := m } := by
  simp only [setMultiplier, touchNoError_properties, withProperties, hm, dif_neg,
    not_false_eq_true, setMultiplierLoop_not_pow m.natAbs 0 m hm (le_refl _) hpow, ne_eq,
    not_true_eq_false, if_false]

theorem setMultiplier_zero (env : Collaborators) (df : DecimalFormat) :
    setMultiplier env df 0 = setMultiplier env df 1 := by
  simp [setMultiplier]

/-- What `getMultiplier` returns right after `setMultiplier(m)` for a non-zero `m` of
32 bits. -/
theorem getMultiplier_setMultiplier (env : Collaborators) (df : DecimalFormat) (m : Int)
    (hhi : m ≤ 2147483647) (hm : m ≠ 0) :
    getMultiplier (setMultiplier env df m) = some m := by
  by_cases hpow : ∃ k : Nat, m = 10 ^ k
  · obtain ⟨k, rfl⟩ := hpow
    unfold getMultiplier
    rw [setMultiplier_pow]
    simp only [ne_eq, not_true_eq_false, if_false]
    by_cases hk : k = 0
    · subst hk
      simp
    · have hk2 : ¬ ((k : Int) = 0) := by omega
      have hk3 : ¬ ((k : Int) < 0) := by omega
      simp only [hk2, not_false_eq_true, if_true, pow10AsInt32, hk3, if_false, Int.toNat_ofNat,
        INT32_MAX, hhi]
  · have hpow2 : ∀ k : Nat, m ≠ 10 ^ k := fun k hk => hpow ⟨k, hk⟩
    have h1 : m ≠ 1 := by
      have := hpow2 0
      simpa using this
    unfold getMultiplier
    rw [setMultiplier_not_pow env df m hm hpow2]
    simp only [ne_eq, h1, not_false_eq_true, if_true]

/-- C13. Multiplier decomposition: for every k with 0 <= k <= 9, `setMultiplier(10^k)`
stores magnitudeMultiplier = k and multiplier = 1 in the bag; for every 32-bit m that is
non-zero and not of the form 10^k with k >= 0 (every negative m included), it stores
magnitudeMultiplier = 0 and multiplier = m; `setMultiplier(0)` leaves the instance that
`setMultiplier(1)` leaves; and after `setMultiplier` of any 32-bit value it is never the
case that multiplier != 1 and magnitudeMultiplier != 0 together. -/
theorem C13_multiplier_decomposition (env : Collaborators) (df : DecimalFormat) :
    (∀ k : Nat, k ≤ 9 →
      (setMultiplier env df (10 ^ k)).fields.properties.magnitudeMultiplier = k ∧
      (setMultiplier env df (10 ^ k)).fields.properties.multiplier = 1) ∧
    (∀ m : Int, -2147483648 ≤ m → m ≤ 2147483647 → m ≠ 0 → (∀ k : Nat, m ≠ 10 ^ k) →
      (setMultiplier env df m).fields.properties.magnitudeMultiplier = 0 ∧
      (setMultiplier env df m).fields.properties.multiplier = m) ∧
    setMultiplier env df 0 = setMultiplier env df 1 ∧
    (∀ m : Int, -2147483648 ≤ m → m ≤ 2147483647 →
      ¬ ((setMultiplier env df m).fields.properties.multiplier ≠ 1 ∧
        (setMultiplier env df m).fields.properties.magnitudeMultiplier ≠ 0)) := by
  refine ⟨?_, ?_, setMultiplier_zero env df, ?_⟩
  · intro k _
    rw [setMultiplier_pow]
    exact ⟨rfl, rfl⟩
  · intro m _ _ hm hpow
    rw [setMultiplier_not_pow env df m hm hpow]
    exact ⟨rfl, rfl⟩
  · intro m _ _ hboth
    by_cases hm : m = 0
    · subst hm
      rw [setMultiplier_zero] at hboth
      have h1 := setMultiplier_pow env df 0
      rw [pow_zero] at h1
      rw [h1] at hboth
      exact hboth.1 rfl
    · by_cases hpow : ∃ k : Nat, m = 10 ^ k
      · obtain ⟨k, rfl⟩ := hpow
        rw [setMultiplier_pow] at hboth
        exact hboth.1 rfl
      · have hpow2 : ∀ k : Nat, m ≠ 10 ^ k := fun k hk => hpow ⟨k, hk⟩
        rw [setMultiplier_not_pow env df m hm hpow2] at hboth
        exact hboth.2 rfl

/-- C13, at the multiplier of a percent pattern and at a negative multiplier:
`setMultiplier(100)` on the sample instance stores the magnitude shift 2 and the
multiplier 1, and `setMultiplier(-250)` stores the magnitude shift 0 and the
multiplier -250. -/
theorem C13_multiplier_decomposition_witness :
    ((2 : Nat) ≤ 9 ∧
      (setMultiplier sampleCollaborators sampleFormat (10 ^ 2)).fields.properties.magnitudeMultiplier
        = (2 : Nat) ∧
      (setMultiplier sampleCollaborators sampleFormat (10 ^ 2)).fields.properties.multiplier = 1) ∧
    ((setMultiplier sampleCollaborators sampleFormat (-250)).fields.properties.magnitudeMultiplier
        = 0 ∧
      (setMultiplier sampleCollaborators sampleFormat (-250)).fields.properties.multiplier
        = -250) :=
  ⟨⟨by decide, (C13_multiplier_decomposition sampleCollaborators sampleFormat).1 2 (by decide)⟩,
    (C13_multiplier_decomposition sampleCollaborators sampleFormat).2.1 (-250)
      (by decide) (by decide) (by decide)
      (fun k h => absurd (pow_pos (by decide : (0 : Int) < 10) k) (by rw [← h]; decide))⟩

/-- C14. Multiplier round trip: for every non-zero 32-bit integer m (positive or
negative, power of ten or not), `getMultiplier()` called right after `setMultiplier(m)`
returns m; after `setMultiplier(0)` it returns 1. -/
theorem C14_multiplier_round_trip (env : Collaborators) (df : DecimalFormat) :
    (∀ m : Int, -2147483648 ≤ m → m ≤ 2147483647 → m ≠ 0 →
      getMultiplier (setMultiplier env df m) = some m) ∧
    getMultiplier (setMultiplier env df 0) = some 1 := by
  refine ⟨fun m _ hhi hm => getMultiplier_setMultiplier env df m hhi hm, ?_⟩
  rw [setMultiplier_zero]
  exact getMultiplier_setMultiplier env df 1 (by decide) (by decide)

/-- C14, at two concrete multipliers: after `setMultiplier(-250)` on the sample instance
`getMultiplier()` returns -250, and after `setMultiplier(1000000000)` it returns
1000000000. -/
theorem C14_multiplier_round_trip_witness :
    getMultiplier (setMultiplier sampleCollaborators sampleFormat (-250)) = some (-250) ∧
    getMultiplier (setMultiplier sampleCollaborators sampleFormat 1000000000) = some 1000000000 :=
  ⟨(C14_multiplier_round_trip sampleCollaborators sampleFormat).1 (-250)
      (by decide) (by decide) (by decide),
    (C14_multiplier_round_trip sampleCollaborators sampleFormat).1 1000000000
      (by decide) (by decide) (by decide)⟩

/-! ## What a rebuild leaves in the fields -/

theorem setupFastFormat_symbols (env : Collaborators) (fields : DecimalFormatFields) :
    (setupFastFormat env fields).symbols = fields.symbols := by
  unfold setupFastFormat
  dsimp only
  repeat' (first | rfl | split)

theorem setupFastFormat_exportedProperties (env : Collaborators) (fields : DecimalFormatFields) :
    (setupFastFormat env fields).exportedProperties = fields.exportedProperties := by
  unfold setupFastFormat
  dsimp only
  repeat' (first | rfl | split)

theorem setupFastFormat_formatter (env : Collaborators) (fields : DecimalFormatFields) :
    (setupFastFormat env fields).formatter = fields.formatter := by
  unfold setupFastFormat
  dsimp only
  repeat' (first | rfl | split)

theorem touch_symbols (env : Collaborators) (df : DecimalFormat) (status : UErrorCode) :
    (touch env df status).1.fields.symbols = df.fields.symbols := by
  unfold touch
  split
  · rfl
  · simp [setupFastFormat_symbols]

/-- The fields a rebuild leaves when the exported properties are present. -/
theorem touch_fields (env : Collaborators) (df : DecimalFormat) (status : UErrorCode)
    (e : DecimalFormatProperties) (hex : df.fields.exportedProperties = some e) :
    (touch env df status).1.fields =
      { setupFastFormat env
          { df.fields with
            formatter := some (env.create df.fields.properties df.fields.symbols e status).1
            exportedProperties :=
              some (env.create df.fields.properties df.fields.symbols e status).2.1 } with
        atomicParser := none, atomicCurrencyParser := none } := by
  unfold touch
  simp only [hex]

theorem touch_slots (env : Collaborators) (df : DecimalFormat) (status : UErrorCode)
    (e : DecimalFormatProperties) (hex : df.fields.exportedProperties = some e) :
    (touch env df status).1.fields.atomicParser = none ∧
    (touch env df status).1.fields.atomicCurrencyParser = none := by
  rw [touch_fields env df status e hex]
  exact ⟨rfl, rfl⟩

theorem touch_exportedProperties (env : Collaborators) (df : DecimalFormat)
    (status : UErrorCode) (e : DecimalFormatProperties)
    (hex : df.fields.exportedProperties = some e) :
    (touch env df status).1.fields.exportedProperties =
      some (env.create df.fields.properties df.fields.symbols e status).2.1 := by
  rw [touch_fields env df status e hex]
  exact setupFastFormat_exportedProperties env _

theorem touch_formatter (env : Collaborators) (df : DecimalFormat) (status : UErrorCode)
    (e : DecimalFormatProperties) (hex : df.fields.exportedProperties = some e) :
    (touch env df status).1.fields.formatter =
      some (env.create df.fields.properties df.fields.symbols e status).1 := by
  rw [touch_fields env df status e hex]
  exact setupFastFormat_formatter env _

theorem touch_rebuilt (env : Collaborators) (df : DecimalFormat) (status : UErrorCode)
    (h : df.fields.exportedProperties.isSome = true) : rebuilt (touch env df status).1 := by
  obtain ⟨e, hex⟩ := Option.isSome_iff_exists.1 h
  refine ⟨(touch_slots env df status e hex).1, (touch_slots env df status e hex).2, ?_⟩
  rw [touch_exportedProperties env df status e hex]
  rfl

theorem touchNoError_rebuilt (env : Collaborators) (df : DecimalFormat)
    (h : df.fields.exportedProperties.isSome = true) : rebuilt (touchNoError env df) :=
  touch_rebuilt env df U_ZERO_ERROR h

/-! ## Copies -/

theorem copyConstructor_carries (env : Collaborators) (s : DecimalFormat) :
    carriesConfigurationOf env s (copyConstructor env s) := by
  unfold copyConstructor touchNoError
  refine ⟨?_, ?_, ?_, ?_, ?_⟩
  · rw [touch_properties]; rfl
  · rw [touch_symbols]; rfl
  · exact (touch_slots env _ _ DecimalFormatProperties.unset rfl).1
  · exact (touch_slots env _ _ DecimalFormatProperties.unset rfl).2
  · rw [touch_formatter env _ _ DecimalFormatProperties.unset rfl, touch_properties,
      touch_symbols]

theorem operatorAssign_carries (env : Collaborators) (t s : DecimalFormat)
    (e : DecimalFormatProperties) (hex : t.fields.exportedProperties = some e) :
    ∃ t1, operatorAssign env t s = some t1 ∧ carriesConfigurationOf env s t1 := by
  unfold operatorAssign
  rw [hex]
  refine ⟨_, rfl, ?_⟩
  unfold touchNoError
  refine ⟨?_, ?_, ?_, ?_, ?_⟩
  · rw [touch_properties]
  · rw [touch_symbols]
  · exact (touch_slots env _ _ DecimalFormatProperties.unset rfl).1
  · exact (touch_slots env _ _ DecimalFormatProperties.unset rfl).2
  · rw [touch_formatter env _ _ DecimalFormatProperties.unset rfl, touch_properties,
      touch_symbols]

theorem operatorEq_of_same_configuration (env : Collaborators) (a a2 bd bd2 : DecimalFormat)
    (h1 : a2.fields.properties = a.fields.properties) (h2 : a2.fields.symbols = a.fields.symbols)
    (h3 : bd2.fields.properties = bd.fields.properties)
    (h4 : bd2.fields.symbols = bd.fields.symbols) :
    operatorEq env a2 (Format.decimalFormat bd2) = operatorEq env a (Format.decimalFormat bd) := by
  simp only [operatorEq, h1, h2, h3, h4]

/-- C15. Equality: for every two format objects a and b, `a == b` is true exactly when
b is a `DecimalFormat`, the bag of a compares equal to the bag of b and the symbols of
a compare equal to the symbols of b (by the `operator==` of the two classes); the result
does not depend on the formatter, the exported properties, the fast-path plan or the
parser slots of either instance: two instances with the bag and symbols of a and of b
give the same result. -/
theorem C15_equality_is_bag_and_symbols (env : Collaborators) (a : DecimalFormat) (b : Format) :
    (operatorEq env a b = true ↔
      ∃ bd : DecimalFormat, b = Format.decimalFormat bd ∧
        env.propertiesEquals a.fields.properties bd.fields.properties = true ∧
        env.symbolsEquals a.fields.symbols bd.fields.symbols = true) ∧
    (∀ a2 bd bd2 : DecimalFormat,
      a2.fields.properties = a.fields.properties → a2.fields.symbols = a.fields.symbols →
      bd2.fields.properties = bd.fields.properties → bd2.fields.symbols = bd.fields.symbols →
      operatorEq env a2 (Format.decimalFormat bd2) = operatorEq env a (Format.decimalFormat bd)) := by
  refine ⟨?_, fun a2 bd bd2 h1 h2 h3 h4 =>
    operatorEq_of_same_configuration env a a2 bd bd2 h1 h2 h3 h4⟩
  cases b with
  | other tag => simp [operatorEq]
  | decimalFormat bd =>
    simp only [operatorEq, Bool.and_eq_true]
    constructor
    · intro h
      exact ⟨bd, rfl, h.1, h.2⟩
    · intro h
      obtain ⟨bd2, hbd, h1, h2⟩ := h
      cases hbd
      exact ⟨h1, h2⟩

/-- C15, at concrete instances: the sample instance with both parsers cached compares
with the rebuilt sample instance as the sample instance before its first rebuild
compares with itself, that is, equal; an object of another class never compares equal. -/
theorem C15_equality_witness :
    operatorEq sampleCollaborators sampleParsed (Format.decimalFormat sampleBuilt) =
      operatorEq sampleCollaborators sampleFormat (Format.decimalFormat sampleFormat) ∧
    operatorEq sampleCollaborators sampleParsed (Format.decimalFormat sampleBuilt) = true ∧
    operatorEq sampleCollaborators sampleParsed (Format.other 0) = false :=
  ⟨(C15_equality_is_bag_and_symbols sampleCollaborators sampleFormat
      (Format.decimalFormat sampleFormat)).2 sampleParsed sampleFormat sampleBuilt
      (by decide) (by decide) (by decide) (by decide),
    by decide, by decide⟩

/-- C16. Copying carries over the configuration and nothing derived. For every source
instance s, whatever parsers s has cached: the instance the copy constructor produces
(`clone` produces the same) and the target of `operator=` (a target that has its
exported properties, which the operator dereferences) have the bag and the symbols of
s, both parser slots null, and a formatter built by the property mapper from their own
bag and symbols; such an instance compares equal to s whenever the bag and the symbols
of s compare equal to themselves; and in a store of objects, after a copy is
constructed at a fresh address, or after s is assigned to another object, the object
at the address of s is s as it was (bag, symbols and parser slots included). -/
theorem C16_copy_carries_configuration (env : Collaborators) (s : DecimalFormat) :
    carriesConfigurationOf env s (copyConstructor env s) ∧
    clone env s = copyConstructor env s ∧
    (∀ (t : DecimalFormat) (e : DecimalFormatProperties),
      t.fields.exportedProperties = some e →
      ∃ t1, operatorAssign env t s = some t1 ∧ carriesConfigurationOf env s t1) ∧
    (∀ c : DecimalFormat, carriesConfigurationOf env s c →
      env.propertiesEquals s.fields.properties s.fields.properties = true →
      env.symbolsEquals s.fields.symbols s.fields.symbols = true →
      operatorEq env c (Format.decimalFormat s) = true) ∧
    (∀ (store : Store) (source fresh : Nat), store source = some s → store fresh = none →
      ∃ store1, copyConstructAt env store source fresh = some store1 ∧
        store1 fresh = some (copyConstructor env s) ∧ store1 source = some s) ∧
    (∀ (store : Store) (target source : Nat) (t : DecimalFormat) (e : DecimalFormatProperties),
      store source = some s → store target = some t →
      t.fields.exportedProperties = some e → target ≠ source →
      ∃ store1 t1, assignAt env store target source = some store1 ∧
        store1 target = some t1 ∧ carriesConfigurationOf env s t1 ∧
        store1 source = some s) := by
  refine ⟨copyConstructor_carries env s, rfl,
    fun t e hex => operatorAssign_carries env t s e hex, ?_, ?_, ?_⟩
  · intro c hc hp hs
    unfold operatorEq
    simp only [hc.1, hc.2.1, hp, hs, Bool.and_self]
  · intro store source fresh hsource hfresh
    have hne : source ≠ fresh := by
      intro h
      rw [h, hfresh] at hsource
      cases hsource
    refine ⟨Function.update store fresh (some (copyConstructor env s)), ?_,
      Function.update_same _ _ _, ?_⟩
    · unfold copyConstructAt
      rw [hsource, hfresh]
    · rw [Function.update_noteq hne]
      exact hsource
  · intro store target source t e hsource htarget hex hne
    obtain ⟨t1, ht1, hcarries⟩ := operatorAssign_carries env t s e hex
    refine ⟨Function.update store target (some t1), t1, ?_, Function.update_same _ _ _,
      hcarries, ?_⟩
    · unfold assignAt
      rw [htarget, hsource]
      simp only [ht1, Option.map_some']
    · rw [Function.update_noteq (Ne.symm hne)]
      exact hsource

/-- C16, in a concrete store: the sample instance with the parsers 1 and 2 cached lives
at address 0 and another instance at address 1; after `store[1] = store[0]` the object
at address 1 has the bag of the source and null parser slots, and the object at address
0 still has its two parsers. -/
theorem C16_copy_carries_configuration_witness :
    sampleStore 0 = some sampleParsed ∧
    sampleParsed.fields.atomicParser = some 1 ∧
    sampleParsed.fields.atomicCurrencyParser = some 2 ∧
    (∃ store1 t1, assignAt sampleCollaborators sampleStore 1 0 = some store1 ∧
      store1 1 = some t1 ∧ carriesConfigurationOf sampleCollaborators sampleParsed t1 ∧
      store1 0 = some sampleParsed) :=
  ⟨rfl, by decide, by decide,
    (C16_copy_carries_configuration sampleCollaborators sampleParsed).2.2.2.2.2 sampleStore 1 0
      (setGroupingSize sampleCollaborators sampleBuilt 3)
      { sampleExported with groupingSize := 3 }
      rfl rfl (by decide) (by decide)⟩

/-! ## Every mutator but `setParseAllInput` ends in a rebuild or changes nothing -/

theorem rebuilt_exported {df : DecimalFormat} (h : rebuilt df) :
    df.fields.exportedProperties.isSome = true := h.2.2

theorem setMaximumIntegerDigits_unchanged_or_rebuilt (env : Collaborators) (df : DecimalFormat)
    (v : Int) (h : df.fields.exportedProperties.isSome = true) :
    setMaximumIntegerDigits env df v = df ∨ rebuilt (setMaximumIntegerDigits env df v) := by
  unfold setMaximumIntegerDigits
  dsimp only
  repeat' split
  all_goals first
    | exact Or.inl rfl
    | exact Or.inr (touchNoError_rebuilt env _ h)

theorem setMinimumIntegerDigits_unchanged_or_rebuilt (env : Collaborators) (df : DecimalFormat)
    (v : Int) (h : df.fields.exportedProperties.isSome = true) :
    setMinimumIntegerDigits env df v = df ∨ rebuilt (setMinimumIntegerDigits env df v) := by
  unfold setMinimumIntegerDigits
  dsimp only
  repeat' split
  all_goals first
    | exact Or.inl rfl
    | exact Or.inr (touchNoError_rebuilt env _ h)

theorem setMaximumFractionDigits_unchanged_or_rebuilt (env : Collaborators) (df : DecimalFormat)
    (v : Int) (h : df.fields.exportedProperties.isSome = true) :
    setMaximumFractionDigits env df v = df ∨ rebuilt (setMaximumFractionDigits env df v) := by
  unfold setMaximumFractionDigits
  dsimp only
  repeat' split
  all_goals first
    | exact Or.inl rfl
    | exact Or.inr (touchNoError_rebuilt env _ h)

theorem setMinimumFractionDigits_unchanged_or_rebuilt (env : Collaborators) (df : DecimalFormat)
    (v : Int) (h : df.fields.exportedProperties.isSome = true) :
    setMinimumFractionDigits env df v = df ∨ rebuilt (setMinimumFractionDigits env df v) := by
  unfold setMinimumFractionDigits
  dsimp only
  repeat' split
  all_goals first
    | exact Or.inl rfl
    | exact Or.inr (touchNoError_rebuilt env _ h)

/-- Two calls in a row, each of which changes nothing or ends in a rebuild, change
nothing or end in a rebuild. -/
theorem unchanged_or_rebuilt_comp (df : DecimalFormat) (f g : DecimalFormat → DecimalFormat)
    (h : df.fields.exportedProperties.isSome = true)
    (hf : ∀ d : DecimalFormat, d.fields.exportedProperties.isSome = true → f d = d ∨ rebuilt (f d))
    (hg : ∀ d : DecimalFormat, d.fields.exportedProperties.isSome = true → g d = d ∨ rebuilt (g d)) :
    g (f df) = df ∨ rebuilt (g (f df)) := by
  rcases hf df h with h1 | h1
  · rw [h1]
    exact hg df h
  · rcases hg (f df) (rebuilt_exported h1) with h2 | h2
    · rw [h2]
      exact Or.inr h1
    · exact Or.inr h2

theorem setAttribute_unchanged_or_rebuilt (env : Collaborators) (df : DecimalFormat)
    (attr : UNumberFormatAttribute) (v : Int) (status : UErrorCode)
    (h : df.fields.exportedProperties.isSome = true)
    (hattr : attr ≠ UNumberFormatAttribute.UNUM_PARSE_ALL_INPUT) :
    (setAttribute env df attr v status).1 = df ∨ rebuilt (setAttribute env df attr v status).1 := by
  by_cases hs : U_FAILURE status = true
  · unfold setAttribute
    rw [if_pos hs]
    exact Or.inl rfl
  · cases attr with
    | UNUM_PARSE_ALL_INPUT => exact absurd rfl hattr
    | other raw =>
      unfold setAttribute
      rw [if_neg hs]
      exact Or.inl rfl
    | UNUM_INTEGER_DIGITS =>
      unfold setAttribute
      rw [if_neg hs]
      exact unchanged_or_rebuilt_comp df (fun d => setMinimumIntegerDigits env d v)
        (fun d => setMaximumIntegerDigits env d v) h
        (fun d hd => setMinimumIntegerDigits_unchanged_or_rebuilt env d v hd)
        (fun d hd => setMaximumIntegerDigits_unchanged_or_rebuilt env d v hd)
    | UNUM_FRACTION_DIGITS =>
      unfold setAttribute
      rw [if_neg hs]
      exact unchanged_or_rebuilt_comp df (fun d => setMinimumFractionDigits env d v)
        (fun d => setMaximumFractionDigits env d v) h
        (fun d hd => setMinimumFractionDigits_unchanged_or_rebuilt env d v hd)
        (fun d hd => setMaximumFractionDigits_unchanged_or_rebuilt env d v hd)
    | _ =>
      unfold setAttribute
      rw [if_neg hs]
      dsimp only
      first
        | unfold setLenient
        | unfold setParseIntegerOnly
        | unfold setGroupingUsed
        | unfold setDecimalSeparatorAlwaysShown
        | unfold setMaximumIntegerDigits
        | unfold setMinimumIntegerDigits
        | unfold setMaximumFractionDigits
        | unfold setMinimumFractionDigits
        | unfold setSignificantDigitsUsed
        | unfold setMaximumSignificantDigits
        | unfold setMinimumSignificantDigits
        | unfold setMultiplier
        | unfold setMultiplierScale
        | unfold setGroupingSize
        | unfold setRoundingMode
        | unfold setFormatWidth
        | unfold setPadPosition
        | unfold setSecondaryGroupingSize
        | unfold setParseNoExponent
        | unfold setDecimalPatternMatchRequired
        | unfold setCurrencyUsage
        | unfold setMinimumGroupingDigits
        | unfold setParseCaseSensitive
        | unfold setSignAlwaysShown
        | unfold setFormatFailIfMoreThanMaxDigits
      dsimp only
      repeat' split
      all_goals first
        | exact Or.inl rfl
        | exact Or.inr (touchNoError_rebuilt env _ h)
        | exact Or.inr (touch_rebuilt env _ _ h)

theorem applyPattern_rebuilt (env : Collaborators) (df : DecimalFormat) (pattern : UnicodeString)
    (status : UErrorCode) (h : df.fields.exportedProperties.isSome = true) :
    rebuilt (applyPattern env df pattern status).1 := by
  unfold applyPattern
  apply touch_rebuilt
  unfold setPropertiesFromPattern
  split
  · exact h
  · exact h

theorem apply_unchanged_or_rebuilt (env : Collaborators) (df : DecimalFormat)
    (m : Mutator) (h : df.fields.exportedProperties.isSome = true)
    (hm : m.writesParseAllInput = false) :
    m.apply env df = df ∨ rebuilt (m.apply env df) := by
  cases m with
  | setParseAllInput value => simp [Mutator.writesParseAllInput] at hm
  | setAttribute attr newValue status =>
    apply setAttribute_unchanged_or_rebuilt env df attr newValue status h
    intro hattr
    subst hattr
    simp [Mutator.writesParseAllInput] at hm
  | applyPattern pattern status => exact Or.inr (applyPattern_rebuilt env df pattern status h)
  | applyLocalizedPattern localizedPattern status =>
    dsimp only [Mutator.apply]
    unfold applyLocalizedPattern
    split
    · exact Or.inr (applyPattern_rebuilt env df _ _ h)
    · exact Or.inl rfl
  | _ =>
    dsimp only [Mutator.apply]
    first
      | unfold Decimfmt.setGroupingUsed
      | unfold Decimfmt.setParseIntegerOnly
      | unfold Decimfmt.setLenient
      | unfold Decimfmt.setSignAlwaysShown
      | unfold Decimfmt.setMultiplier
      | unfold Decimfmt.setMultiplierScale
      | unfold Decimfmt.setRoundingMode
      | unfold Decimfmt.setFormatWidth
      | unfold Decimfmt.setPadPosition
      | unfold Decimfmt.setScientificNotation
      | unfold Decimfmt.setMinimumExponentDigits
      | unfold Decimfmt.setExponentSignAlwaysShown
      | unfold Decimfmt.setGroupingSize
      | unfold Decimfmt.setSecondaryGroupingSize
      | unfold Decimfmt.setMinimumGroupingDigits
      | unfold Decimfmt.setDecimalSeparatorAlwaysShown
      | unfold Decimfmt.setDecimalPatternMatchRequired
      | unfold Decimfmt.setParseNoExponent
      | unfold Decimfmt.setParseCaseSensitive
      | unfold Decimfmt.setFormatFailIfMoreThanMaxDigits
      | unfold Decimfmt.setMaximumIntegerDigits
      | unfold Decimfmt.setMinimumIntegerDigits
      | unfold Decimfmt.setMaximumFractionDigits
      | unfold Decimfmt.setMinimumFractionDigits
      | unfold Decimfmt.setMinimumSignificantDigits
      | unfold Decimfmt.setMaximumSignificantDigits
      | unfold Decimfmt.setSignificantDigitsUsed
      | unfold Decimfmt.setPositivePrefix
      | unfold Decimfmt.setNegativePrefix
      | unfold Decimfmt.setPositiveSuffix
      | unfold Decimfmt.setNegativeSuffix
      | unfold Decimfmt.setPadCharacter
      | unfold Decimfmt.adoptDecimalFormatSymbols
      | unfold Decimfmt.setDecimalFormatSymbols
      | unfold Decimfmt.adoptCurrencyPluralInfo
      | unfold Decimfmt.setCurrencyPluralInfo
      | unfold Decimfmt.setRoundingIncrement
      | unfold Decimfmt.setCurrencyLocalStatus Decimfmt.setCurrency
      | unfold Decimfmt.setCurrency
      | unfold Decimfmt.setCurrencyUsage
    try dsimp only
    repeat' split
    all_goals first
      | exact Or.inl rfl
      | exact Or.inr (touchNoError_rebuilt env _ h)
      | exact Or.inr (touch_rebuilt env _ _ h)

theorem apply_rebuilt_of_replacesSymbols (env : Collaborators) (df : DecimalFormat) (m : Mutator)
    (h : df.fields.exportedProperties.isSome = true) (hm : m.replacesSymbols = true) :
    rebuilt (m.apply env df) := by
  cases m with
  | adoptDecimalFormatSymbols symbolsToAdopt =>
    cases symbolsToAdopt with
    | none => simp [Mutator.replacesSymbols] at hm
    | some symbols => exact touchNoError_rebuilt env _ h
  | setDecimalFormatSymbols symbols => exact touchNoError_rebuilt env _ h
  | _ => simp [Mutator.replacesSymbols] at hm

/-- C17, as stated, fails in two places. An instance whose exported properties are
absent has the parser 1 cached; `setGroupingSize(3)` changes its bag and the parser is
still cached when the call returns, because `touch` returns at once on such an
instance. And on the rebuilt sample instance with the parsers 1 and 2 cached,
`setParseAllInput(1)` changes the bag and both parsers are still cached. -/
theorem C17_counterexample_parser_survives :
    (sampleNotReady.fields.exportedProperties = none ∧
      (Mutator.apply sampleCollaborators sampleNotReady (Mutator.setGroupingSize 3)).fields.properties
        ≠ sampleNotReady.fields.properties ∧
      (Mutator.apply sampleCollaborators sampleNotReady
        (Mutator.setGroupingSize 3)).fields.atomicParser = some 1) ∧
    ((Mutator.apply sampleCollaborators sampleParsed (Mutator.setParseAllInput 1)).fields.properties
        ≠ sampleParsed.fields.properties ∧
      (Mutator.apply sampleCollaborators sampleParsed
        (Mutator.setParseAllInput 1)).fields.atomicParser = some 1 ∧
      (Mutator.apply sampleCollaborators sampleParsed
        (Mutator.setParseAllInput 1)).fields.atomicCurrencyParser = some 2) := by
  decide

/-- C17 (amended). For every instance whose exported properties are present and every
mutator call (each `set*`, `adopt*`, `applyPattern`, `applyLocalizedPattern` and
`setAttribute` operation) other than `setParseAllInput` and `setAttribute` with
`UNUM_PARSE_ALL_INPUT`: if the call changes a field of the bag or replaces the symbols,
both parser cache slots (plain and currency) are null when the call returns. -/
theorem C17_mutation_invalidates_parsers (env : Collaborators) (df : DecimalFormat) (m : Mutator)
    (hexported : df.fields.exportedProperties.isSome = true)
    (hm : m.writesParseAllInput = false)
    (hchange : (m.apply env df).fields.properties ≠ df.fields.properties ∨
      m.replacesSymbols = true) :
    (m.apply env df).fields.atomicParser = none ∧
    (m.apply env df).fields.atomicCurrencyParser = none := by
  have hrebuilt : rebuilt (m.apply env df) := by
    rcases hchange with hbag | hsym
    · rcases apply_unchanged_or_rebuilt env df m hexported hm with h1 | h1
      · rw [h1] at hbag
        exact absurd rfl hbag
      · exact h1
    · exact apply_rebuilt_of_replacesSymbols env df m hexported hsym
  exact ⟨hrebuilt.1, hrebuilt.2.1⟩

/-- C17 (amended), at a concrete call: on the rebuilt sample instance with the parsers 1
and 2 cached, `setGroupingSize(3)` changes the bag and leaves both slots null. -/
theorem C17_mutation_invalidates_parsers_witness :
    sampleParsed.fields.atomicParser = some 1 ∧
    sampleParsed.fields.atomicCurrencyParser = some 2 ∧
    (Mutator.apply sampleCollaborators sampleParsed (Mutator.setGroupingSize 3)).fields.atomicParser
      = none ∧
    (Mutator.apply sampleCollaborators sampleParsed
      (Mutator.setGroupingSize 3)).fields.atomicCurrencyParser = none :=
  ⟨by decide, by decide,
    C17_mutation_invalidates_parsers sampleCollaborators sampleParsed (Mutator.setGroupingSize 3)
      (by decide) rfl (Or.inl (by decide))⟩

/-! ## The parser cache -/

theorem getParser_of_failure (env : Collaborators) (df : DecimalFormat) (status : UErrorCode)
    (hs : U_FAILURE status = true) :
    getParser env df status =
      { parser := none, df := df, status := status, builderCalled := false, deleted := none } := by
  unfold getParser
  rw [if_pos hs]

theorem getParser_of_cached (env : Collaborators) (df : DecimalFormat) (status : UErrorCode)
    (p : Nat) (hs : U_FAILURE status = false) (hslot : df.fields.atomicParser = some p) :
    getParser env df status =
      { parser := some p, df := df, status := status, builderCalled := false, deleted := none } := by
  unfold getParser
  simp [hs, hslot]

theorem getParser_of_empty (env : Collaborators) (df : DecimalFormat) (status : UErrorCode)
    (hs : U_FAILURE status = false) (hslot : df.fields.atomicParser = none) :
    getParser env df status =
      { parser := (env.createParserFromProperties df.fields.properties df.fields.symbols false
          status).1
        df := { df with fields := { df.fields with
          atomicParser := (env.createParserFromProperties df.fields.properties df.fields.symbols
            false status).1 } }
        status :=
          if (env.createParserFromProperties df.fields.properties df.fields.symbols false
            status).1 = none then U_MEMORY_ALLOCATION_ERROR
          else (env.createParserFromProperties df.fields.properties df.fields.symbols false
            status).2
        builderCalled := true
        deleted := none } := by
  unfold getParser
  simp [hs, hslot, compareExchangeStrong]

theorem getCurrencyParser_of_failure (env : Collaborators) (df : DecimalFormat)
    (status : UErrorCode) (hs : U_FAILURE status = true) :
    getCurrencyParser env df status =
      { parser := none, df := df, status := status, builderCalled := false, deleted := none } := by
  unfold getCurrencyParser
  rw [if_pos hs]

theorem getCurrencyParser_of_cached (env : Collaborators) (df : DecimalFormat)
    (status : UErrorCode) (p : Nat) (hs : U_FAILURE status = false)
    (hslot : df.fields.atomicCurrencyParser = some p) :
    getCurrencyParser env df status =
      { parser := some p, df := df, status := status, builderCalled := false, deleted := none } := by
  unfold getCurrencyParser
  simp [hs, hslot]

theorem getCurrencyParser_of_empty (env : Collaborators) (df : DecimalFormat)
    (status : UErrorCode) (hs : U_FAILURE status = false)
    (hslot : df.fields.atomicCurrencyParser = none) :
    getCurrencyParser env df status =
      { parser := (env.createParserFromProperties df.fields.properties df.fields.symbols true
          status).1
        df := { df with fields := { df.fields with
          atomicCurrencyParser := (env.createParserFromProperties df.fields.properties
            df.fields.symbols true status).1 } }
        status :=
          if (env.createParserFromProperties df.fields.properties df.fields.symbols true
            status).1 = none then U_MEMORY_ALLOCATION_ERROR
          else (env.createParserFromProperties df.fields.properties df.fields.symbols true
            status).2
        builderCalled := true
        deleted := none } := by
  unfold getCurrencyParser
  simp [hs, hslot, compareExchangeStrong]

/-- `getParser` never writes the currency slot. -/
theorem getParser_currency_slot (env : Collaborators) (df : DecimalFormat) (status : UErrorCode) :
    (getParser env df status).df.fields.atomicCurrencyParser = df.fields.atomicCurrencyParser := by
  by_cases hs : U_FAILURE status = true
  · rw [getParser_of_failure env df status hs]
  · rw [Bool.not_eq_true] at hs
    cases hslot : df.fields.atomicParser with
    | none => rw [getParser_of_empty env df status hs hslot]
    | some p => rw [getParser_of_cached env df status p hs hslot]

/-- `getCurrencyParser` never writes the plain slot. -/
theorem getCurrencyParser_plain_slot (env : Collaborators) (df : DecimalFormat)
    (status : UErrorCode) :
    (getCurrencyParser env df status).df.fields.atomicParser = df.fields.atomicParser := by
  by_cases hs : U_FAILURE status = true
  · rw [getCurrencyParser_of_failure env df status hs]
  · rw [Bool.not_eq_true] at hs
    cases hslot : df.fields.atomicCurrencyParser with
    | none => rw [getCurrencyParser_of_empty env df status hs hslot]
    | some p => rw [getCurrencyParser_of_cached env df status p hs hslot]

/-- A filled plain slot stays as it is under `getParser`. -/
theorem getParser_keeps_cached (env : Collaborators) (df : DecimalFormat) (status : UErrorCode)
    (p : Nat) (hslot : df.fields.atomicParser = some p) :
    (getParser env df status).df = df := by
  by_cases hs : U_FAILURE status = true
  · rw [getParser_of_failure env df status hs]
  · rw [Bool.not_eq_true] at hs
    rw [getParser_of_cached env df status p hs hslot]

/-- A filled currency slot stays as it is under `getCurrencyParser`. -/
theorem getCurrencyParser_keeps_cached (env : Collaborators) (df : DecimalFormat)
    (status : UErrorCode) (p : Nat) (hslot : df.fields.atomicCurrencyParser = some p) :
    (getCurrencyParser env df status).df = df := by
  by_cases hs : U_FAILURE status = true
  · rw [getCurrencyParser_of_failure env df status hs]
  · rw [Bool.not_eq_true] at hs
    rw [getCurrencyParser_of_cached env df status p hs hslot]

/-- Reads of the cache leave a filled plain slot as it is. -/
theorem parserCalls_plain_slot (env : Collaborators) (calls : List (Bool × UErrorCode)) :
    ∀ (df : DecimalFormat) (p : Nat), df.fields.atomicParser = some p →
      (parserCalls env df calls).fields.atomicParser = some p := by
  induction calls with
  | nil =>
    intro df p h
    exact h
  | cons call rest ih =>
    intro df p h
    obtain ⟨currency, status⟩ := call
    cases currency with
    | true =>
      unfold parserCalls
      apply ih
      rw [getCurrencyParser_plain_slot]
      exact h
    | false =>
      unfold parserCalls
      apply ih
      rw [getParser_keeps_cached env df status p h]
      exact h

/-- Reads of the cache leave a filled currency slot as it is. -/
theorem parserCalls_currency_slot (env : Collaborators) (calls : List (Bool × UErrorCode)) :
    ∀ (df : DecimalFormat) (p : Nat), df.fields.atomicCurrencyParser = some p →
      (parserCalls env df calls).fields.atomicCurrencyParser = some p := by
  induction calls with
  | nil =>
    intro df p h
    exact h
  | cons call rest ih =>
    intro df p h
    obtain ⟨currency, status⟩ := call
    cases currency with
    | true =>
      unfold parserCalls
      apply ih
      rw [getCurrencyParser_keeps_cached env df status p h]
      exact h
    | false =>
      unfold parserCalls
      apply ih
      rw [getParser_currency_slot]
      exact h

/-- C18, as stated, fails for a later call that is entered with a failing status: on
the rebuilt sample instance the first `getParser` call finds the slot empty, builds the
parser 1, installs and returns it; a later `getParser` call entered with
`U_MEMORY_ALLOCATION_ERROR`, with no mutation in between, returns null, not the
parser 1. -/
theorem C18_counterexample_failing_status :
    sampleBuilt.fields.atomicParser = none ∧
    (getParser sampleCollaborators sampleBuilt U_ZERO_ERROR).parser = some 1 ∧
    (getParser sampleCollaborators sampleBuilt U_ZERO_ERROR).df.fields.atomicParser = some 1 ∧
    (getParser sampleCollaborators (getParser sampleCollaborators sampleBuilt U_ZERO_ERROR).df
      U_MEMORY_ALLOCATION_ERROR).parser = none := by
  decide

/-- C18 (amended). Lazy build at most once per generation, single-threaded. If
`getParser` is entered with a non-failing status and the slot empty and the builder
returns a parser p, then p is installed and returned; after any sequence of further
`getParser` and `getCurrencyParser` calls (no mutator call in between), every
`getParser` call entered with a non-failing status returns the same p without calling
the builder and leaves the instance as it is, and a call entered with a failing status
returns null without calling the builder. The same holds for `getCurrencyParser` with
its own slot, and a call of one variant leaves the slot of the other variant as it
was. -/
theorem C18_lazy_build_once_per_generation (env : Collaborators) (df : DecimalFormat)
    (status : UErrorCode) (p : Nat) (st : UErrorCode) (hs : U_FAILURE status = false) :
    (df.fields.atomicParser = none →
      env.createParserFromProperties df.fields.properties df.fields.symbols false status
        = (some p, st) →
      (getParser env df status).parser = some p ∧
      (getParser env df status).builderCalled = true ∧
      (getParser env df status).df.fields.atomicParser = some p ∧
      ∀ (calls : List (Bool × UErrorCode)) (status2 : UErrorCode),
        (U_FAILURE status2 = false →
          (getParser env (parserCalls env (getParser env df status).df calls) status2).parser
            = some p ∧
          (getParser env (parserCalls env (getParser env df status).df calls)
            status2).builderCalled = false ∧
          (getParser env (parserCalls env (getParser env df status).df calls) status2).df
            = parserCalls env (getParser env df status).df calls) ∧
        (U_FAILURE status2 = true →
          (getParser env (parserCalls env (getParser env df status).df calls) status2).parser
            = none ∧
          (getParser env (parserCalls env (getParser env df status).df calls)
            status2).builderCalled = false)) ∧
    (df.fields.atomicCurrencyParser = none →
      env.createParserFromProperties df.fields.properties df.fields.symbols true status
        = (some p, st) →
      (getCurrencyParser env df status).parser = some p ∧
      (getCurrencyParser env df status).builderCalled = true ∧
      (getCurrencyParser env df status).df.fields.atomicCurrencyParser = some p ∧
      ∀ (calls : List (Bool × UErrorCode)) (status2 : UErrorCode),
        (U_FAILURE status2 = false →
          (getCurrencyParser env (parserCalls env (getCurrencyParser env df status).df calls)
            status2).parser = some p ∧
          (getCurrencyParser env (parserCalls env (getCurrencyParser env df status).df calls)
            status2).builderCalled = false ∧
          (getCurrencyParser env (parserCalls env (getCurrencyParser env df status).df calls)
            status2).df = parserCalls env (getCurrencyParser env df status).df calls) ∧
        (U_FAILURE status2 = true →
          (getCurrencyParser env (parserCalls env (getCurrencyParser env df status).df calls)
            status2).parser = none ∧
          (getCurrencyParser env (parserCalls env (getCurrencyParser env df status).df calls)
            status2).builderCalled = false)) ∧
    (∀ status1 : UErrorCode,
      (getParser env df status1).df.fields.atomicCurrencyParser
        = df.fields.atomicCurrencyParser ∧
      (getCurrencyParser env df status1).df.fields.atomicParser = df.fields.atomicParser) := by
  refine ⟨?_, ?_, fun status1 =>
    ⟨getParser_currency_slot env df status1, getCurrencyParser_plain_slot env df status1⟩⟩
  · intro hslot hbuild
    have hfirst := getParser_of_empty env df status hs hslot
    rw [hbuild] at hfirst
    have hinstalled : (getParser env df status).df.fields.atomicParser = some p := by
      rw [hfirst]
    refine ⟨by rw [hfirst], by rw [hfirst], hinstalled, ?_⟩
    intro calls status2
    have hlater := parserCalls_plain_slot env calls _ p hinstalled
    constructor
    · intro hs2
      rw [getParser_of_cached env _ status2 p hs2 hlater]
      exact ⟨rfl, rfl, rfl⟩
    · intro hs2
      rw [getParser_of_failure env _ status2 hs2]
      exact ⟨rfl, rfl⟩
  · intro hslot hbuild
    have hfirst := getCurrencyParser_of_empty env df status hs hslot
    rw [hbuild] at hfirst
    have hinstalled : (getCurrencyParser env df status).df.fields.atomicCurrencyParser = some p := by
      rw [hfirst]
    refine ⟨by rw [hfirst], by rw [hfirst], hinstalled, ?_⟩
    intro calls status2
    have hlater := parserCalls_currency_slot env calls _ p hinstalled
    constructor
    · intro hs2
      rw [getCurrencyParser_of_cached env _ status2 p hs2 hlater]
      exact ⟨rfl, rfl, rfl⟩
    · intro hs2
      rw [getCurrencyParser_of_failure env _ status2 hs2]
      exact ⟨rfl, rfl⟩

/-- C18 (amended), on the rebuilt sample instance: the first `getParser` call builds,
installs and returns the parser 1 and leaves the currency slot empty; after a
`getCurrencyParser` call and a `getParser` call entered with a failing status, a
`getParser` call entered with `U_ZERO_ERROR` still returns the parser 1 without
calling the builder. -/
theorem C18_lazy_build_once_witness :
    sampleBuilt.fields.atomicParser = none ∧
    (getParser sampleCollaborators sampleBuilt U_ZERO_ERROR).df.fields.atomicCurrencyParser
      = none ∧
    (getParser sampleCollaborators sampleBuilt U_ZERO_ERROR).parser = some 1 ∧
    (getParser sampleCollaborators
      (parserCalls sampleCollaborators (getParser sampleCollaborators sampleBuilt U_ZERO_ERROR).df
        [(true, U_ZERO_ERROR), (false, U_MEMORY_ALLOCATION_ERROR)]) U_ZERO_ERROR).parser = some 1 ∧
    (getParser sampleCollaborators
      (parserCalls sampleCollaborators (getParser sampleCollaborators sampleBuilt U_ZERO_ERROR).df
        [(true, U_ZERO_ERROR), (false, U_MEMORY_ALLOCATION_ERROR)])
      U_ZERO_ERROR).builderCalled = false :=
  have h := (C18_lazy_build_once_per_generation sampleCollaborators sampleBuilt U_ZERO_ERROR 1
    U_ZERO_ERROR (by decide)).1 (by decide) rfl
  have hlater := (h.2.2.2 [(true, U_ZERO_ERROR), (false, U_MEMORY_ALLOCATION_ERROR)]
    U_ZERO_ERROR).1 (by decide)
  ⟨by decide, by decide, h.1, hlater.1, hlater.2.1⟩

/-- C20, as stated, fails: with a property mapper that reports a failure, `touch` on
the rebuilt sample instance, which has the parsers 1 and 2 cached, ends with a failing
status and has emptied both parser slots. -/
theorem C20_counterexample_failed_rebuild_mutates :
    sampleParsed.fields.atomicParser = some 1 ∧
    sampleParsed.fields.atomicCurrencyParser = some 2 ∧
    U_FAILURE (touch sampleFailingCollaborators sampleParsed U_ZERO_ERROR).2 = true ∧
    (touch sampleFailingCollaborators sampleParsed U_ZERO_ERROR).1.fields.atomicParser = none ∧
    (touch sampleFailingCollaborators sampleParsed U_ZERO_ERROR).1.fields.atomicCurrencyParser
      = none := by
  decide

/-- C20 (amended). For every instance state, if a rebuild (`touch`) ends with a failing
status, the bag and the symbols are the same after the call as before it, and the
derived state is replaced as by a rebuild that succeeds: the formatter is the one the
property mapper returned, the exported properties are what the mapper wrote, the
fast-path plan is the one `setupFastFormat` computes from them, and both parser slots
are null. Only an instance without exported properties is left as it was, whatever the
status. -/
theorem C20_failed_rebuild_replaces_derived_state (env : Collaborators) (df : DecimalFormat)
    (status : UErrorCode) :
    (∀ e : DecimalFormatProperties, df.fields.exportedProperties = some e →
      U_FAILURE (touch env df status).2 = true →
      (touch env df status).1.fields.properties = df.fields.properties ∧
      (touch env df status).1.fields.symbols = df.fields.symbols ∧
      (touch env df status).1.fields.formatter =
        some (env.create df.fields.properties df.fields.symbols e status).1 ∧
      (touch env df status).1.fields.exportedProperties =
        some (env.create df.fields.properties df.fields.symbols e status).2.1 ∧
      (touch env df status).1.fields.canUseFastFormat =
        (setupFastFormat env
          { df.fields with
            formatter := some (env.create df.fields.properties df.fields.symbols e status).1
            exportedProperties :=
              some (env.create df.fields.properties df.fields.symbols e status).2.1
          }).canUseFastFormat ∧
      (touch env df status).1.fields.fastData =
        (setupFastFormat env
          { df.fields with
            formatter := some (env.create df.fields.properties df.fields.symbols e status).1
            exportedProperties :=
              some (env.create df.fields.properties df.fields.symbols e status).2.1
          }).fastData ∧
      (touch env df status).1.fields.atomicParser = none ∧
      (touch env df status).1.fields.atomicCurrencyParser = none) ∧
    (df.fields.exportedProperties = none → touch env df status = (df, status)) := by
  constructor
  · intro e hex _
    refine ⟨touch_properties env df status, touch_symbols env df status,
      touch_formatter env df status e hex, touch_exportedProperties env df status e hex, ?_, ?_,
      (touch_slots env df status e hex).1, (touch_slots env df status e hex).2⟩
    · rw [touch_fields env df status e hex]
    · rw [touch_fields env df status e hex]
  · intro hex
    unfold touch
    rw [hex]

/-- C20 (amended), with a property mapper that reports a failure: `touch` on the
rebuilt sample instance with the parsers 1 and 2 cached ends with a failing status,
keeps the bag, and leaves both parser slots null. -/
theorem C20_failed_rebuild_witness :
    U_FAILURE (touch sampleFailingCollaborators sampleParsed U_ZERO_ERROR).2 = true ∧
    (touch sampleFailingCollaborators sampleParsed U_ZERO_ERROR).1.fields.properties
      = sampleParsed.fields.properties ∧
    (touch sampleFailingCollaborators sampleParsed U_ZERO_ERROR).1.fields.atomicParser = none ∧
    (touch sampleFailingCollaborators sampleParsed U_ZERO_ERROR).1.fields.atomicCurrencyParser
      = none :=
  have h := (C20_failed_rebuild_replaces_derived_state sampleFailingCollaborators sampleParsed
    U_ZERO_ERROR).1 sampleExported (by decide) (by decide)
  ⟨by decide, h.1, h.2.2.2.2.2.2.1, h.2.2.2.2.2.2.2⟩

/-- C25, as stated, fails when v is the value the bound already has: on a bag with
minimumFractionDigits = 5 and maximumFractionDigits = 2, `setMaximumFractionDigits(2)`
returns at once and leaves minimumFractionDigits = 5, neither negative nor <= 2; and
`setMinimumFractionDigits(5)` returns at once and leaves maximumFractionDigits = 2,
neither negative nor >= 5. -/
theorem C25_counterexample_same_value :
    (setMaximumFractionDigits sampleCollaborators
      (sampleFormatWith { DecimalFormatProperties.unset with
        minimumFractionDigits := 5, maximumFractionDigits := 2 }) 2).fields.properties.minimumFractionDigits
      = 5 ∧
    (setMinimumFractionDigits sampleCollaborators
      (sampleFormatWith { DecimalFormatProperties.unset with
        minimumFractionDigits := 5, maximumFractionDigits := 2 }) 5).fields.properties.maximumFractionDigits
      = 2 := by
  decide

/-- C25 (amended). The most recently set bound wins from any starting state: for every
bag whatsoever, a conflicting fraction pair (min > max) included, and every v (v >= 0 in
particular) that differs from the current maximumFractionDigits, after
`setMaximumFractionDigits(v)` the bag has maximumFractionDigits = v and
minimumFractionDigits either negative or <= v; for every v that differs from the
current minimumFractionDigits, after `setMinimumFractionDigits(v)` the bag has
minimumFractionDigits = v and maximumFractionDigits either negative or >= v; a call
with the value the bound already has changes nothing. -/
theorem C25_most_recent_fraction_bound_wins (env : Collaborators) (df : DecimalFormat) (v : Int) :
    (v ≠ df.fields.properties.maximumFractionDigits →
      (setMaximumFractionDigits env df v).fields.properties.maximumFractionDigits = v ∧
      ((setMaximumFractionDigits env df v).fields.properties.minimumFractionDigits < 0 ∨
        (setMaximumFractionDigits env df v).fields.properties.minimumFractionDigits ≤ v)) ∧
    (v ≠ df.fields.properties.minimumFractionDigits →
      (setMinimumFractionDigits env df v).fields.properties.minimumFractionDigits = v ∧
      ((setMinimumFractionDigits env df v).fields.properties.maximumFractionDigits < 0 ∨
        (setMinimumFractionDigits env df v).fields.properties.maximumFractionDigits ≥ v)) ∧
    (v = df.fields.properties.maximumFractionDigits → setMaximumFractionDigits env df v = df) ∧
    (v = df.fields.properties.minimumFractionDigits → setMinimumFractionDigits env df v = df) := by
  refine ⟨?_, ?_, ?_, ?_⟩
  · intro hne
    rw [setMaximumFractionDigits_properties, if_neg hne]
    by_cases h2 : df.fields.properties.minimumFractionDigits ≥ 0 ∧
        df.fields.properties.minimumFractionDigits > v
    · rw [if_pos h2]
      exact ⟨rfl, Or.inr (le_refl v)⟩
    · rw [if_neg h2]
      refine ⟨rfl, ?_⟩
      show df.fields.properties.minimumFractionDigits < 0 ∨
        df.fields.properties.minimumFractionDigits ≤ v
      omega
  · intro hne
    rw [setMinimumFractionDigits_properties, if_neg hne]
    by_cases h2 : df.fields.properties.maximumFractionDigits ≥ 0 ∧
        df.fields.properties.maximumFractionDigits < v
    · rw [if_pos h2]
      exact ⟨rfl, Or.inr (le_refl v)⟩
    · rw [if_neg h2]
      refine ⟨rfl, ?_⟩
      show df.fields.properties.maximumFractionDigits < 0 ∨
        df.fields.properties.maximumFractionDigits ≥ v
      omega
  · intro h
    unfold setMaximumFractionDigits
    rw [if_pos h]
  · intro h
    unfold setMinimumFractionDigits
    rw [if_pos h]

/-- C25 (amended), from a conflicting pair: on a bag with minimumFractionDigits = 5 and
maximumFractionDigits = 2, `setMaximumFractionDigits(3)` leaves the pair (3, 3). -/
theorem C25_most_recent_fraction_bound_witness :
    (setMaximumFractionDigits sampleCollaborators
      (sampleFormatWith { DecimalFormatProperties.unset with
        minimumFractionDigits := 5, maximumFractionDigits := 2 }) 3).fields.properties.minimumFractionDigits
      = 3 ∧
    (setMaximumFractionDigits sampleCollaborators
      (sampleFormatWith { DecimalFormatProperties.unset with
        minimumFractionDigits := 5, maximumFractionDigits := 2 }) 3).fields.properties.maximumFractionDigits
      = 3 :=
  ⟨by decide,
    ((C25_most_recent_fraction_bound_wins sampleCollaborators
      (sampleFormatWith { DecimalFormatProperties.unset with
        minimumFractionDigits := 5, maximumFractionDigits := 2 }) 3).1 (by decide)).1⟩

/-- C26. `setSignificantDigitsUsed` and `areSignificantDigitsUsed` agree: for every bag,
after `setSignificantDigitsUsed(true)` the bag has minimumSignificantDigits = 1 and
maximumSignificantDigits = 6 whatever the two values were before, after
`setSignificantDigitsUsed(false)` both are -1, and in both cases
`areSignificantDigitsUsed()` then returns the flag just set; in every state
`areSignificantDigitsUsed()` is true exactly when minimumSignificantDigits != -1 or
maximumSignificantDigits != -1. -/
theorem C26_significant_digits_used_agree (env : Collaborators) (df : DecimalFormat) (flag : Int) :
    (flag ≠ 0 →
      (setSignificantDigitsUsed env df flag).fields.properties.minimumSignificantDigits = 1 ∧
      (setSignificantDigitsUsed env df flag).fields.properties.maximumSignificantDigits = 6 ∧
      areSignificantDigitsUsed (setSignificantDigitsUsed env df flag) = true) ∧
    (flag = 0 →
      (setSignificantDigitsUsed env df flag).fields.properties.minimumSignificantDigits = -1 ∧
      (setSignificantDigitsUsed env df flag).fields.properties.maximumSignificantDigits = -1 ∧
      areSignificantDigitsUsed (setSignificantDigitsUsed env df flag) = false) ∧
    (areSignificantDigitsUsed df = true ↔
      (df.fields.properties.minimumSignificantDigits ≠ -1 ∨
        df.fields.properties.maximumSignificantDigits ≠ -1)) := by
  refine ⟨?_, ?_, ?_⟩
  · intro hflag
    have hbag : (setSignificantDigitsUsed env df flag).fields.properties.minimumSignificantDigits = 1 ∧
        (setSignificantDigitsUsed env df flag).fields.properties.maximumSignificantDigits = 6 := by
      unfold setSignificantDigitsUsed
      simp only [hflag, ne_eq, not_false_eq_true, if_true]
      by_cases h : df.fields.properties.minimumSignificantDigits = 1 ∧
          df.fields.properties.maximumSignificantDigits = 6
      · rw [if_pos h]
        exact h
      · rw [if_neg h]
        simp only [touchNoError_properties, withProperties, and_self]
    refine ⟨hbag.1, hbag.2, ?_⟩
    unfold areSignificantDigitsUsed
    rw [hbag.1, hbag.2]
    decide
  · intro hflag
    have hbag : (setSignificantDigitsUsed env df flag).fields.properties.minimumSignificantDigits = -1 ∧
        (setSignificantDigitsUsed env df flag).fields.properties.maximumSignificantDigits = -1 := by
      unfold setSignificantDigitsUsed
      simp only [hflag, ne_eq, not_true_eq_false, if_false]
      by_cases h : df.fields.properties.minimumSignificantDigits = -1 ∧
          df.fields.properties.maximumSignificantDigits = -1
      · rw [if_pos h]
        exact h
      · rw [if_neg h]
        simp only [touchNoError_properties, withProperties, and_self]
    refine ⟨hbag.1, hbag.2, ?_⟩
    unfold areSignificantDigitsUsed
    rw [hbag.1, hbag.2]
    decide
  · unfold areSignificantDigitsUsed
    simp only [Bool.or_eq_true, decide_eq_true_eq]

/-- C26, on a bag with minimumSignificantDigits = 3 and maximumSignificantDigits unset:
`setSignificantDigitsUsed(true)` leaves the pair (1, 6) and `areSignificantDigitsUsed()`
is true; `setSignificantDigitsUsed(false)` leaves (-1, -1) and it is false. -/
theorem C26_significant_digits_used_witness :
    ((setSignificantDigitsUsed sampleCollaborators
        (sampleFormatWith { DecimalFormatProperties.unset with minimumSignificantDigits := 3 })
        1).fields.properties.minimumSignificantDigits = 1 ∧
      (setSignificantDigitsUsed sampleCollaborators
        (sampleFormatWith { DecimalFormatProperties.unset with minimumSignificantDigits := 3 })
        1).fields.properties.maximumSignificantDigits = 6 ∧
      areSignificantDigitsUsed (setSignificantDigitsUsed sampleCollaborators
        (sampleFormatWith { DecimalFormatProperties.unset with minimumSignificantDigits := 3 })
        1) = true) ∧
    ((setSignificantDigitsUsed sampleCollaborators
        (sampleFormatWith { DecimalFormatProperties.unset with minimumSignificantDigits := 3 })
        0).fields.properties.minimumSignificantDigits = -1 ∧
      (setSignificantDigitsUsed sampleCollaborators
        (sampleFormatWith { DecimalFormatProperties.unset with minimumSignificantDigits := 3 })
        0).fields.properties.maximumSignificantDigits = -1 ∧
      areSignificantDigitsUsed (setSignificantDigitsUsed sampleCollaborators
        (sampleFormatWith { DecimalFormatProperties.unset with minimumSignificantDigits := 3 })
        0) = false) :=
  ⟨(C26_significant_digits_used_agree sampleCollaborators
      (sampleFormatWith { DecimalFormatProperties.unset with minimumSignificantDigits := 3 })
      1).1 (by decide),
    (C26_significant_digits_used_agree sampleCollaborators
      (sampleFormatWith { DecimalFormatProperties.unset with minimumSignificantDigits := 3 })
      0).2.1 rfl⟩

/-- C28. Unsetting a maximum also discards the minimum, but not the reverse: for every
bag with minimumIntegerDigits >= 0 and every negative v different from the current
maximumIntegerDigits, `setMaximumIntegerDigits(v)` sets both maximumIntegerDigits and
minimumIntegerDigits to v; for every bag and every negative v,
`setMinimumIntegerDigits(v)` leaves maximumIntegerDigits unchanged. The same holds of
the fraction pair and of the significant-digit pair. -/
theorem C28_unsetting_maximum_discards_minimum (env : Collaborators) (df : DecimalFormat)
    (v : Int) (hv : v < 0) :
    ((0 ≤ df.fields.properties.minimumIntegerDigits →
        v ≠ df.fields.properties.maximumIntegerDigits →
        (setMaximumIntegerDigits env df v).fields.properties.maximumIntegerDigits = v ∧
        (setMaximumIntegerDigits env df v).fields.properties.minimumIntegerDigits = v) ∧
      (setMinimumIntegerDigits env df v).fields.properties.maximumIntegerDigits =
        df.fields.properties.maximumIntegerDigits) ∧
    ((0 ≤ df.fields.properties.minimumFractionDigits →
        v ≠ df.fields.properties.maximumFractionDigits →
        (setMaximumFractionDigits env df v).fields.properties.maximumFractionDigits = v ∧
        (setMaximumFractionDigits env df v).fields.properties.minimumFractionDigits = v) ∧
      (setMinimumFractionDigits env df v).fields.properties.maximumFractionDigits =
        df.fields.properties.maximumFractionDigits) ∧
    ((0 ≤ df.fields.properties.minimumSignificantDigits →
        v ≠ df.fields.properties.maximumSignificantDigits →
        (setMaximumSignificantDigits env df v).fields.properties.maximumSignificantDigits = v ∧
        (setMaximumSignificantDigits env df v).fields.properties.minimumSignificantDigits = v) ∧
      (setMinimumSignificantDigits env df v).fields.properties.maximumSignificantDigits =
        df.fields.properties.maximumSignificantDigits) := by
  refine ⟨⟨?_, ?_⟩, ⟨?_, ?_⟩, ⟨?_, ?_⟩⟩
  · intro hmin hne
    have h2 : df.fields.properties.minimumIntegerDigits ≥ 0 ∧
        df.fields.properties.minimumIntegerDigits > v := ⟨hmin, by omega⟩
    rw [setMaximumIntegerDigits_properties, if_neg hne, if_pos h2]
    exact ⟨rfl, rfl⟩
  · rw [setMinimumIntegerDigits_properties]
    have h2 : ¬ (df.fields.properties.maximumIntegerDigits ≥ 0 ∧
        df.fields.properties.maximumIntegerDigits < v) := by omega
    rw [if_neg h2]
    split_ifs <;> rfl
  · intro hmin hne
    have h2 : df.fields.properties.minimumFractionDigits ≥ 0 ∧
        df.fields.properties.minimumFractionDigits > v := ⟨hmin, by omega⟩
    rw [setMaximumFractionDigits_properties, if_neg hne, if_pos h2]
    exact ⟨rfl, rfl⟩
  · rw [setMinimumFractionDigits_properties]
    have h2 : ¬ (df.fields.properties.maximumFractionDigits ≥ 0 ∧
        df.fields.properties.maximumFractionDigits < v) := by omega
    rw [if_neg h2]
    split_ifs <;> rfl
  · intro hmin hne
    have h2 : df.fields.properties.minimumSignificantDigits ≥ 0 ∧
        df.fields.properties.minimumSignificantDigits > v := ⟨hmin, by omega⟩
    rw [setMaximumSignificantDigits_properties, if_neg hne, if_pos h2]
    exact ⟨rfl, rfl⟩
  · rw [setMinimumSignificantDigits_properties]
    have h2 : ¬ (df.fields.properties.maximumSignificantDigits ≥ 0 ∧
        df.fields.properties.maximumSignificantDigits < v) := by omega
    rw [if_neg h2]
    split_ifs <;> rfl

/-- C28, on a bag with the integer pair (2, 5): `setMaximumIntegerDigits(-1)` leaves the
pair (-1, -1), while `setMinimumIntegerDigits(-1)` leaves the maximum 5. -/
theorem C28_unsetting_maximum_witness :
    ((setMaximumIntegerDigits sampleCollaborators
        (sampleFormatWith { DecimalFormatProperties.unset with
          minimumIntegerDigits := 2, maximumIntegerDigits := 5 })
        (-1)).fields.properties.maximumIntegerDigits = -1 ∧
      (setMaximumIntegerDigits sampleCollaborators
        (sampleFormatWith { DecimalFormatProperties.unset with
          minimumIntegerDigits := 2, maximumIntegerDigits := 5 })
        (-1)).fields.properties.minimumIntegerDigits = -1) ∧
    (setMinimumIntegerDigits sampleCollaborators
      (sampleFormatWith { DecimalFormatProperties.unset with
        minimumIntegerDigits := 2, maximumIntegerDigits := 5 })
      (-1)).fields.properties.maximumIntegerDigits = 5 :=
  ⟨(C28_unsetting_maximum_discards_minimum sampleCollaborators
      (sampleFormatWith { DecimalFormatProperties.unset with
        minimumIntegerDigits := 2, maximumIntegerDigits := 5 })
      (-1) (by decide)).1.1 (by decide) (by decide),
    (C28_unsetting_maximum_discards_minimum sampleCollaborators
      (sampleFormatWith { DecimalFormatProperties.unset with
        minimumIntegerDigits := 2, maximumIntegerDigits := 5 })
      (-1) (by decide)).1.2⟩

/-! ## The loop of `setMultiplier` ends within ten passes -/

/-- A pass that does not leave the loop counts `delta` up, keeps the loop variable
non-zero and makes its absolute value smaller. -/
theorem setMultiplierBody_some (delta value d v : Int) (hvalue : value ≠ 0)
    (h : setMultiplierBody delta value = some (d, v)) :
    d = delta + 1 ∧ v * 10 = value ∧ v ≠ 0 ∧ v.natAbs < value.natAbs := by
  unfold setMultiplierBody at h
  dsimp only at h
  by_cases hc : value.tdiv 10 * 10 ≠ value
  · rw [if_pos hc] at h
    cases h
  · rw [if_neg hc] at h
    have hc2 : value.tdiv 10 * 10 = value := not_not.mp hc
    cases h
    generalize value.tdiv 10 = t at hc2
    refine ⟨rfl, hc2, ?_, ?_⟩ <;> omega

/-- With enough passes allowed, the loop ends with the `delta` that `setMultiplier`
goes on with. -/
theorem setMultiplierLoopFuel_eq (n : Nat) :
    ∀ (delta value : Int) (hvalue : value ≠ 0), value.natAbs < 10 ^ n →
      setMultiplierLoopFuel n delta value = some (setMultiplierLoop delta value hvalue) := by
  induction n with
  | zero =>
    intro delta value hvalue hlt
    rw [pow_zero] at hlt
    omega
  | succ n ih =>
    intro delta value hvalue hlt
    rw [setMultiplierLoop]
    unfold setMultiplierLoopFuel
    by_cases h1 : value = 1
    · simp [h1]
    · simp only [ne_eq, h1, not_false_eq_true, if_true, dif_pos, setMultiplierBody]
      by_cases h2 : value.tdiv 10 * 10 = value
      · simp only [h2, not_true_eq_false, if_false, dif_neg, not_false_eq_true]
        apply ih
        rw [pow_succ] at hlt
        generalize value.tdiv 10 = t at h2
        omega
      · simp only [h2, not_false_eq_true, if_true, dif_pos]

/-- The bag `setMultiplier` leaves, in terms of the `delta` the loop ends with. -/
theorem setMultiplier_properties (env : Collaborators) (df : DecimalFormat) (m : Int)
    (h : (if m = 0 then (1 : Int) else m) ≠ 0) :
    (setMultiplier env df m).fields.properties =
      if setMultiplierLoop 0 (if m = 0 then 1 else m) h ≠ -1 then
        { df.fields.properties with
          magnitudeMultiplier := setMultiplierLoop 0 (if m = 0 then 1 else m) h
          multiplier := 1 }
      else
        { df.fields.properties with
          magnitudeMultiplier := 0, multiplier := if m = 0 then 1 else m } := by
  by_cases hm : m = 0
  · subst hm
    rw [setMultiplier_zero]
    have h1 := setMultiplier_pow env df 0
    rw [pow_zero] at h1
    have h2 := setMultiplierLoop_pow 0 0
    simp only [pow_zero] at h2
    rw [h1]
    simp only [if_true, h2]
    simp
  · simp only [setMultiplier, touchNoError_properties, withProperties, hm, dif_neg,
      not_false_eq_true, if_false]

/-- C30. The power-of-ten detection loop of `setMultiplier` terminates for every 32-bit
input, 0, every negative value and INT32_MIN included, after at most 10 passes through
its body: the loop variable starts non-zero (0 is replaced by 1), the loop run with 10
passes allowed ends with the `delta` from which `setMultiplier` writes the bag, and on
every pass that does not leave the loop the loop variable stays non-zero and its
absolute value strictly decreases. -/
theorem C30_multiplier_loop_terminates (m : Int) (hlo : -2147483648 ≤ m)
    (hhi : m ≤ 2147483647) :
    (if m = 0 then (1 : Int) else m) ≠ 0 ∧
    (∃ delta : Int,
      setMultiplierLoopFuel 10 0 (if m = 0 then 1 else m) = some delta ∧
      ∀ (env : Collaborators) (df : DecimalFormat),
        (setMultiplier env df m).fields.properties =
          if delta ≠ -1 then
            { df.fields.properties with magnitudeMultiplier := delta, multiplier := 1 }
          else
            { df.fields.properties with
              magnitudeMultiplier := 0, multiplier := if m = 0 then 1 else m }) ∧
    (∀ delta value d v : Int, value ≠ 0 → setMultiplierBody delta value = some (d, v) →
      v ≠ 0 ∧ v.natAbs < value.natAbs) := by
  have h0 : (if m = 0 then (1 : Int) else m) ≠ 0 := by
    split_ifs with hm
    · decide
    · exact hm
  have hlt : (if m = 0 then (1 : Int) else m).natAbs < 10 ^ 10 := by
    split_ifs with hm
    · decide
    · omega
  refine ⟨h0, ⟨setMultiplierLoop 0 (if m = 0 then 1 else m) h0,
    setMultiplierLoopFuel_eq 10 0 _ h0 hlt,
    fun env df => setMultiplier_properties env df m h0⟩, ?_⟩
  intro delta value d v hvalue hbody
  have h := setMultiplierBody_some delta value d v hvalue hbody
  exact ⟨h.2.2.1, h.2.2.2⟩

/-- C30, at four inputs: on 2000000000 the loop needs all 10 passes (9 do not suffice)
and ends with -1; on INT32_MIN it ends with -1 in one pass; on 0, replaced by 1, it
ends with 0 passes and delta 0; on 1000000000 it ends with delta 9. -/
theorem C30_multiplier_loop_witness :
    setMultiplierLoopFuel 9 0 2000000000 = none ∧
    setMultiplierLoopFuel 10 0 2000000000 = some (-1) ∧
    setMultiplierLoopFuel 1 0 (-2147483648) = some (-1) ∧
    setMultiplierLoopFuel 0 0 (if (0 : Int) = 0 then 1 else 0) = some 0 ∧
    setMultiplierLoopFuel 10 0 1000000000 = some 9 ∧
    (∃ delta : Int, setMultiplierLoopFuel 10 0 (if (2000000000 : Int) = 0 then 1 else 2000000000)
      = some delta ∧
      ∀ (env : Collaborators) (df : DecimalFormat),
        (setMultiplier env df 2000000000).fields.properties =
          if delta ≠ -1 then
            { df.fields.properties with magnitudeMultiplier := delta, multiplier := 1 }
          else
            { df.fields.properties with
              magnitudeMultiplier := 0
              multiplier := if (2000000000 : Int) = 0 then 1 else 2000000000 }) :=
  ⟨by decide, by decide, by decide, by decide, by decide,
    (C30_multiplier_loop_terminates 2000000000 (by decide) (by decide)).2.1⟩

/-! ## The local buffer of the fast path -/

/-- The loop of `doFastFormatInt32` from its initial state, on a magnitude below
`10 ^ 10`: it ends with the write pointer at `13 - length` and never leaves the buffer. -/
theorem doFastFormatInt32Loop_from_start (fd : FastFormatData) (m : Nat)
    (hmin : fd.minInt ≤ 10) (hm10 : m < 10 ^ 10) :
    doFastFormatInt32Loop fd 128 0 0 (m : Int) localCapacity [] =
      some (localCapacity - (fastBuffer fd m (fastDigitCount fd m)).length,
        fastBuffer fd m (fastDigitCount fd m)) := by
  have hc10 := fastDigitCount_le_ten fd m hmin hm10
  have hlen : (fastBuffer fd m (fastDigitCount fd m)).length ≤ localCapacity := by
    have := fastBuffer_length_le fd m (fastDigitCount fd m)
    unfold localCapacity
    omega
  have hrun := doFastFormatInt32Loop_run fd m (fastDigitCount fd m)
    (by omega) hlen (fastDigitCount_runs fd m) (fastDigitCount_stops fd m)
    (fastDigitCount fd m) 0 128 (by omega) (by omega)
  have h0 : groupAt fd 0 = 0 := by
    unfold groupAt; simp
  simpa only [fastBuffer, List.length_nil, Nat.sub_zero, pow_zero, Nat.div_one, h0,
    Nat.cast_zero] using hrun

/-- C27. Fast-path buffer bound: for every plan with 0 <= minInt <= 10, any
maxInt <= 127, any grouping separator, and every input n with |n| <= 2^31-1 (passed
with `isNegative` set only if n <= 0 and clear only if n >= 0, as both callers do),
negating a negative input does not overflow 32 bits, and the loop of
`doFastFormatInt32`, started with the write pointer at the end of the 13-slot local
buffer, ends without ever moving the pointer before the start of the buffer: it has
written the code units of at most 10 digits and at most 3 separators, at most 13 in
all, the pointer is at 13 minus their number, and these code units are what
`doFastFormatInt32` appends after the sign. -/
theorem C27_fast_path_buffer_bound (fields : DecimalFormatFields) (n : Int)
    (isNegative : Bool) (out : TextBuffer)
    (_hmin0 : 0 ≤ fields.fastData.minInt) (hmin : fields.fastData.minInt ≤ 10)
    (_hmax : fields.fastData.maxInt ≤ 127)
    (hlo : -2147483647 ≤ n) (hhi : n ≤ 2147483647)
    (hneg : isNegative = true → n ≤ 0) (hpos : isNegative = false → 0 ≤ n) :
    wrapInt32 (-n) = -n ∧
    ∃ (ptr digits : Nat) (buf : List Char16),
      doFastFormatInt32Loop fields.fastData 128 0 0
        (if isNegative = true then wrapInt32 (-n) else n) localCapacity [] = some (ptr, buf) ∧
      buf = fastBuffer fields.fastData n.natAbs digits ∧
      digits ≤ 10 ∧
      buf.length ≤ digits + 3 ∧
      buf.length ≤ 13 ∧
      ptr + buf.length = localCapacity ∧
      doFastFormatInt32 fields n isNegative out =
        some (out ++ (if isNegative = true then [fields.fastData.cpMinusSign] else []) ++ buf) := by
  have hm10 : n.natAbs < 10 ^ 10 := by omega
  have hwrap : wrapInt32 (-n) = -n := wrapInt32_small (-n) (by omega) (by omega)
  have hmag : (if isNegative = true then wrapInt32 (-n) else n) = (n.natAbs : Int) := by
    cases isNegative with
    | true =>
      have := hneg rfl
      simp only [if_true]
      rw [hwrap]
      omega
    | false =>
      have := hpos rfl
      simp only [Bool.false_eq_true, if_false]
      omega
  have hc10 := fastDigitCount_le_ten fields.fastData n.natAbs hmin hm10
  have hlen := fastBuffer_length_le fields.fastData n.natAbs
    (fastDigitCount fields.fastData n.natAbs)
  refine ⟨hwrap,
    localCapacity - (fastBuffer fields.fastData n.natAbs
      (fastDigitCount fields.fastData n.natAbs)).length,
    fastDigitCount fields.fastData n.natAbs,
    fastBuffer fields.fastData n.natAbs (fastDigitCount fields.fastData n.natAbs),
    ?_, rfl, hc10, by omega, by omega, ?_, ?_⟩
  · rw [hmag]
    exact doFastFormatInt32Loop_from_start fields.fastData n.natAbs hmin hm10
  · unfold localCapacity
    omega
  · rw [doFastFormatInt32_eq fields n isNegative out n.natAbs hmag hmin hm10]
    cases isNegative with
    | true => simp
    | false => simp

/-- C27, at the longest input: with the sample plan (grouping separator `,`, minInt 1)
`doFastFormatInt32` on -2147483647 appends the sign and the 13 code units
`2,147,483,647`, and the loop ends with the write pointer at the start of the buffer. -/
theorem C27_fast_path_buffer_bound_witness :
    doFastFormatInt32 (samplePlanFields samplePlan) (-2147483647) true [] =
      some [0x2D, 0x32, 0x2C, 0x31, 0x34, 0x37, 0x2C, 0x34, 0x38, 0x33, 0x2C, 0x36, 0x34, 0x37] ∧
    doFastFormatInt32Loop samplePlan 128 0 0 2147483647 localCapacity [] =
      some (0, [0x32, 0x2C, 0x31, 0x34, 0x37, 0x2C, 0x34, 0x38, 0x33, 0x2C, 0x36, 0x34, 0x37]) ∧
    wrapInt32 (- (-2147483647)) = - (-2147483647) :=
  ⟨by decide, by decide,
    (C27_fast_path_buffer_bound (samplePlanFields samplePlan) (-2147483647) true []
      (by decide) (by decide) (by decide) (by decide) (by decide)
      (fun _ => by decide) (fun h => absurd h (by decide))).1⟩

/-! ## Parsing -/

/-- A `getParser` call that is entered with a non-failing status and ends with a
non-failing status returns a parser, not null. -/
theorem getParser_parser_of_success (env : Collaborators) (df : DecimalFormat)
    (status : UErrorCode) (hs : U_FAILURE status = false)
    (h : U_FAILURE (getParser env df status).status = false) :
    ∃ p, (getParser env df status).parser = some p := by
  cases hslot : df.fields.atomicParser with
  | some p => exact ⟨p, by rw [getParser_of_cached env df status p hs hslot]⟩
  | none =>
    rw [getParser_of_empty env df status hs hslot] at h ⊢
    cases hb : (env.createParserFromProperties df.fields.properties df.fields.symbols false
        status).1 with
    | some p => exact ⟨p, rfl⟩
    | none =>
      simp only [hb, if_true] at h
      exact absurd h (by decide)

/-- The same for `getCurrencyParser`. -/
theorem getCurrencyParser_parser_of_success (env : Collaborators) (df : DecimalFormat)
    (status : UErrorCode) (hs : U_FAILURE status = false)
    (h : U_FAILURE (getCurrencyParser env df status).status = false) :
    ∃ p, (getCurrencyParser env df status).parser = some p := by
  cases hslot : df.fields.atomicCurrencyParser with
  | some p => exact ⟨p, by rw [getCurrencyParser_of_cached env df status p hs hslot]⟩
  | none =>
    rw [getCurrencyParser_of_empty env df status hs hslot] at h ⊢
    cases hb : (env.createParserFromProperties df.fields.properties df.fields.symbols true
        status).1 with
    | some p => exact ⟨p, rfl⟩
    | none =>
      simp only [hb, if_true] at h
      exact absurd h (by decide)

/-- C23. No-match leaves the position unchanged. For every text, start position and
parser outcome, `parse` returns, and: if the start index is negative or >= the text
length, or the parser cannot be built (`getParser` ends with a failing status), the
parse position and the output are as before the call; otherwise a parser was obtained,
and if it reports no match the output is not written, the index is as before and the
error index is startIndex + its reported charEnd, while on success the index is its
reported charEnd. `parseCurrency` returns null in exactly the three non-success cases,
with the same position behaviour. -/
theorem C23_no_match_leaves_position (env : Collaborators) (df : DecimalFormat)
    (text : UnicodeString) (output : Formattable) (pp : ParsePosition) :
    (∃ (out1 : Formattable) (pp1 : ParsePosition) (df1 : DecimalFormat),
      parse env df text output pp = some (out1, pp1, df1) ∧
      ((pp.index < 0 ∨ pp.index ≥ UnicodeString.length text) → out1 = output ∧ pp1 = pp) ∧
      (¬ (pp.index < 0 ∨ pp.index ≥ UnicodeString.length text) →
        U_FAILURE (getParser env df U_ZERO_ERROR).status = true → out1 = output ∧ pp1 = pp) ∧
      (¬ (pp.index < 0 ∨ pp.index ≥ UnicodeString.length text) →
        U_FAILURE (getParser env df U_ZERO_ERROR).status = false →
        ∃ p, (getParser env df U_ZERO_ERROR).parser = some p ∧
          ((env.parserParse p text pp.index true (getParser env df U_ZERO_ERROR).status).1.success
              = false →
            out1 = output ∧ pp1.index = pp.index ∧
            pp1.errorIndex = pp.index +
              (env.parserParse p text pp.index true
                (getParser env df U_ZERO_ERROR).status).1.charEnd) ∧
          ((env.parserParse p text pp.index true (getParser env df U_ZERO_ERROR).status).1.success
              = true →
            pp1.index =
              (env.parserParse p text pp.index true
                (getParser env df U_ZERO_ERROR).status).1.charEnd ∧
            out1 = env.populateFormattable
              (env.parserParse p text pp.index true (getParser env df U_ZERO_ERROR).status).1
              output (env.getParseFlags p)))) ∧
    (∃ (ret : Option CurrencyAmount) (pp1 : ParsePosition) (df1 : DecimalFormat),
      parseCurrency env df text pp = some (ret, pp1, df1) ∧
      ((pp.index < 0 ∨ pp.index ≥ UnicodeString.length text) → ret = none ∧ pp1 = pp) ∧
      (¬ (pp.index < 0 ∨ pp.index ≥ UnicodeString.length text) →
        U_FAILURE (getCurrencyParser env df U_ZERO_ERROR).status = true →
        ret = none ∧ pp1 = pp) ∧
      (¬ (pp.index < 0 ∨ pp.index ≥ UnicodeString.length text) →
        U_FAILURE (getCurrencyParser env df U_ZERO_ERROR).status = false →
        ∃ p, (getCurrencyParser env df U_ZERO_ERROR).parser = some p ∧
          ((env.parserParse p text pp.index true
              (getCurrencyParser env df U_ZERO_ERROR).status).1.success = false →
            ret = none ∧ pp1.index = pp.index ∧
            pp1.errorIndex = pp.index +
              (env.parserParse p text pp.index true
                (getCurrencyParser env df U_ZERO_ERROR).status).1.charEnd) ∧
          ((env.parserParse p text pp.index true
              (getCurrencyParser env df U_ZERO_ERROR).status).1.success = true →
            ret ≠ none ∧
            pp1.index =
              (env.parserParse p text pp.index true
                (getCurrencyParser env df U_ZERO_ERROR).status).1.charEnd))) := by
  constructor
  · by_cases hrange : pp.index < 0 ∨ pp.index ≥ UnicodeString.length text
    · refine ⟨output, pp, df, ?_, fun _ => ⟨rfl, rfl⟩, fun h => absurd hrange h,
        fun h => absurd hrange h⟩
      unfold parse
      rw [if_pos hrange]
    · by_cases hfail : U_FAILURE (getParser env df U_ZERO_ERROR).status = true
      · refine ⟨output, pp, (getParser env df U_ZERO_ERROR).df, ?_,
          fun h => absurd h hrange, fun _ _ => ⟨rfl, rfl⟩, fun _ h => ?_⟩
        · unfold parse
          rw [if_neg hrange]
          simp only [hfail, if_true]
        · rw [hfail] at h
          cases h
      · rw [Bool.not_eq_true] at hfail
        obtain ⟨p, hp⟩ := getParser_parser_of_success env df U_ZERO_ERROR (by decide) hfail
        by_cases hsucc : (env.parserParse p text pp.index true
            (getParser env df U_ZERO_ERROR).status).1.success = true
        · refine ⟨env.populateFormattable
              (env.parserParse p text pp.index true (getParser env df U_ZERO_ERROR).status).1
              output (env.getParseFlags p),
            { pp with index := (env.parserParse p text pp.index true
              (getParser env df U_ZERO_ERROR).status).1.charEnd },
            (getParser env df U_ZERO_ERROR).df, ?_, fun h => absurd h hrange,
            fun _ h => ?_, fun _ _ => ⟨p, hp, fun h => ?_, fun _ => ⟨rfl, rfl⟩⟩⟩
          · unfold parse
            rw [if_neg hrange]
            simp only [hfail, hp, hsucc, if_true, Bool.false_eq_true, if_false]
          · rw [hfail] at h
            cases h
          · rw [hsucc] at h
            cases h
        · rw [Bool.not_eq_true] at hsucc
          refine ⟨output, { pp with errorIndex := pp.index + (env.parserParse p text pp.index true
              (getParser env df U_ZERO_ERROR).status).1.charEnd },
            (getParser env df U_ZERO_ERROR).df, ?_, fun h => absurd h hrange,
            fun _ h => ?_, fun _ _ => ⟨p, hp, fun _ => ⟨rfl, rfl, rfl⟩, fun h => ?_⟩⟩
          · unfold parse
            rw [if_neg hrange]
            simp only [hfail, hp, hsucc, Bool.false_eq_true, if_false]
          · rw [hfail] at h
            cases h
          · rw [hsucc] at h
            cases h
  · by_cases hrange : pp.index < 0 ∨ pp.index ≥ UnicodeString.length text
    · refine ⟨none, pp, df, ?_, fun _ => ⟨rfl, rfl⟩, fun h => absurd hrange h,
        fun h => absurd hrange h⟩
      unfold parseCurrency
      rw [if_pos hrange]
    · by_cases hfail : U_FAILURE (getCurrencyParser env df U_ZERO_ERROR).status = true
      · refine ⟨none, pp, (getCurrencyParser env df U_ZERO_ERROR).df, ?_,
          fun h => absurd h hrange, fun _ _ => ⟨rfl, rfl⟩, fun _ h => ?_⟩
        · unfold parseCurrency
          rw [if_neg hrange]
          simp only [hfail, if_true]
        · rw [hfail] at h
          cases h
      · rw [Bool.not_eq_true] at hfail
        obtain ⟨p, hp⟩ :=
          getCurrencyParser_parser_of_success env df U_ZERO_ERROR (by decide) hfail
        by_cases hsucc : (env.parserParse p text pp.index true
            (getCurrencyParser env df U_ZERO_ERROR).status).1.success = true
        · refine ⟨some
              { amount := env.populateFormattable
                  (env.parserParse p text pp.index true
                    (getCurrencyParser env df U_ZERO_ERROR).status).1
                  env.newFormattable (env.getParseFlags p)
                isoCode := (env.parserParse p text pp.index true
                  (getCurrencyParser env df U_ZERO_ERROR).status).1.currencyCode
                status := (env.parserParse p text pp.index true
                  (getCurrencyParser env df U_ZERO_ERROR).status).2 },
            { pp with index := (env.parserParse p text pp.index true
              (getCurrencyParser env df U_ZERO_ERROR).status).1.charEnd },
            (getCurrencyParser env df U_ZERO_ERROR).df, ?_, fun h => absurd h hrange,
            fun _ h => ?_, fun _ _ => ⟨p, hp, fun h => ?_,
              fun _ => ⟨Option.some_ne_none _, rfl⟩⟩⟩
          · unfold parseCurrency
            rw [if_neg hrange]
            simp only [hfail, hp, hsucc, if_true, Bool.false_eq_true, if_false]
          · rw [hfail] at h
            cases h
          · rw [hsucc] at h
            cases h
        · rw [Bool.not_eq_true] at hsucc
          refine ⟨none, { pp with errorIndex := pp.index + (env.parserParse p text pp.index true
              (getCurrencyParser env df U_ZERO_ERROR).status).1.charEnd },
            (getCurrencyParser env df U_ZERO_ERROR).df, ?_, fun h => absurd h hrange,
            fun _ h => ?_, fun _ _ => ⟨p, hp, fun _ => ⟨rfl, rfl, rfl⟩, fun h => ?_⟩⟩
          · unfold parseCurrency
            rw [if_neg hrange]
            simp only [hfail, hp, hsucc, Bool.false_eq_true, if_false]
          · rw [hfail] at h
            cases h
          · rw [hsucc] at h
            cases h

/-- C23, at two texts on the rebuilt sample instance, whose parser matches one ASCII
digit: on `x` at index 0 the output is not written, the index stays 0 and the error
index is 0 + 0; on `7` at index 0 the index becomes 1 and the output is written. -/
theorem C23_no_match_leaves_position_witness :
    (∃ (out1 : Formattable) (pp1 : ParsePosition) (df1 : DecimalFormat),
      parse sampleCollaborators sampleBuilt (some [0x78]) { id := 9 }
        { index := 0, errorIndex := -1 } = some (out1, pp1, df1) ∧
      out1 = { id := 9 } ∧ pp1.index = 0 ∧ pp1.errorIndex = 0) ∧
    (parse sampleCollaborators sampleBuilt (some [0x37]) { id := 9 }
      { index := 0, errorIndex := -1 }).map (fun r => (r.1, r.2.1)) =
        some ({ id := 7 }, { index := 1, errorIndex := -1 }) ∧
    (parseCurrency sampleCollaborators sampleBuilt (some [0x78])
      { index := 0, errorIndex := -1 }).map (fun r => (r.1, r.2.1)) =
        some (none, { index := 0, errorIndex := 0 }) := by
  refine ⟨?_, by decide, by decide⟩
  obtain ⟨out1, pp1, df1, hparse, _, _, h3⟩ :=
    (C23_no_match_leaves_position sampleCollaborators sampleBuilt (some [0x78]) { id := 9 }
      { index := 0, errorIndex := -1 }).1
  obtain ⟨p, _, hno, _⟩ := h3 (by decide) (by decide)
  have h := hno rfl
  exact ⟨out1, pp1, df1, hparse, h.1, h.2.1, h.2.2⟩

/-! ## Attributes -/

/-- C21. Unsupported attribute ids are reported: for every attribute id that neither
`switch` names, `setAttribute` sets the status to `U_UNSUPPORTED_ERROR` and leaves the
instance (bag and every derived artifact) as it was, and `getAttribute` sets the status
to `U_UNSUPPORTED_ERROR` and returns -1; and when the status already holds a failure on
entry, `setAttribute` changes nothing and `getAttribute` returns -1 without altering
the status, whatever the attribute id. -/
theorem C21_unsupported_attribute_reported (env : Collaborators) (df : DecimalFormat)
    (newValue : Int) (status : UErrorCode) :
    (U_FAILURE status = false → ∀ raw : Int,
      setAttribute env df (UNumberFormatAttribute.other raw) newValue status
        = (df, U_UNSUPPORTED_ERROR) ∧
      getAttribute env df (UNumberFormatAttribute.other raw) status
        = some (-1, U_UNSUPPORTED_ERROR)) ∧
    (U_FAILURE status = true → ∀ attr : UNumberFormatAttribute,
      setAttribute env df attr newValue status = (df, status) ∧
      getAttribute env df attr status = some (-1, status)) := by
  constructor
  · intro hs raw
    constructor
    · unfold setAttribute
      simp only [hs, Bool.false_eq_true, if_false]
    · unfold getAttribute
      simp only [hs, Bool.false_eq_true, if_false]
  · intro hs attr
    constructor
    · unfold setAttribute
      rw [if_pos hs]
    · unfold getAttribute
      rw [if_pos hs]

/-- C21, on the rebuilt sample instance: the attribute id 999 is reported as
unsupported by both functions, and with `U_MEMORY_ALLOCATION_ERROR` on entry
`getAttribute(UNUM_GROUPING_SIZE)` returns -1 and leaves the status. -/
theorem C21_unsupported_attribute_witness :
    (setAttribute sampleCollaborators sampleBuilt (UNumberFormatAttribute.other 999) 1
      U_ZERO_ERROR = (sampleBuilt, U_UNSUPPORTED_ERROR) ∧
      getAttribute sampleCollaborators sampleBuilt (UNumberFormatAttribute.other 999)
        U_ZERO_ERROR = some (-1, U_UNSUPPORTED_ERROR)) ∧
    (setAttribute sampleCollaborators sampleBuilt UNumberFormatAttribute.UNUM_GROUPING_SIZE 3
      U_MEMORY_ALLOCATION_ERROR = (sampleBuilt, U_MEMORY_ALLOCATION_ERROR) ∧
      getAttribute sampleCollaborators sampleBuilt UNumberFormatAttribute.UNUM_GROUPING_SIZE
        U_MEMORY_ALLOCATION_ERROR = some (-1, U_MEMORY_ALLOCATION_ERROR)) :=
  ⟨(C21_unsupported_attribute_reported sampleCollaborators sampleBuilt 1 U_ZERO_ERROR).1
      (by decide) 999,
    (C21_unsupported_attribute_reported sampleCollaborators sampleBuilt 3
      U_MEMORY_ALLOCATION_ERROR).2 (by decide) UNumberFormatAttribute.UNUM_GROUPING_SIZE⟩

/-- C22 at its failing input. `getAttribute` has no case for `UNUM_PARSE_ALL_INPUT`: in
every state it returns -1, with `U_UNSUPPORTED_ERROR` unless the status was failing on
entry; `setAttribute` has the case when `UCONFIG_HAVE_PARSEALLINPUT` is set and then
calls `setParseAllInput`. On the rebuilt sample instance, in a build with the switch
set, `setAttribute(UNUM_PARSE_ALL_INPUT, 1)` is accepted and stores 1, and
`getAttribute(UNUM_PARSE_ALL_INPUT)` on the result reports `U_UNSUPPORTED_ERROR`. -/
theorem C22_parse_all_input_not_gettable :
    (∀ (env : Collaborators) (df : DecimalFormat) (status : UErrorCode),
      getAttribute env df UNumberFormatAttribute.UNUM_PARSE_ALL_INPUT status =
        some (-1, if U_FAILURE status then status else U_UNSUPPORTED_ERROR)) ∧
    (∀ (env : Collaborators) (df : DecimalFormat) (newValue : Int) (status : UErrorCode),
      setAttribute env df UNumberFormatAttribute.UNUM_PARSE_ALL_INPUT newValue status =
        if U_FAILURE status then (df, status)
        else if env.UCONFIG_HAVE_PARSEALLINPUT then (setParseAllInput df newValue, status)
        else (df, U_UNSUPPORTED_ERROR)) ∧
    sampleCollaborators.UCONFIG_HAVE_PARSEALLINPUT = true ∧
    (setAttribute sampleCollaborators sampleBuilt UNumberFormatAttribute.UNUM_PARSE_ALL_INPUT 1
      U_ZERO_ERROR).2 = U_ZERO_ERROR ∧
    (setAttribute sampleCollaborators sampleBuilt UNumberFormatAttribute.UNUM_PARSE_ALL_INPUT 1
      U_ZERO_ERROR).1.fields.properties.parseAllInput = 1 ∧
    getAttribute sampleCollaborators
      (setAttribute sampleCollaborators sampleBuilt UNumberFormatAttribute.UNUM_PARSE_ALL_INPUT 1
        U_ZERO_ERROR).1
      UNumberFormatAttribute.UNUM_PARSE_ALL_INPUT U_ZERO_ERROR = some (-1, U_UNSUPPORTED_ERROR) := by
  refine ⟨?_, ?_, by decide, by decide, by decide, by decide⟩
  · intro env df status
    unfold getAttribute
    split_ifs <;> rfl
  · intro env df newValue status
    unfold setAttribute
    split_ifs <;> rfl

/-! ## `setRoundingMode` and the base-class fields -/

/-- The base-class part a rebuild leaves when the exported properties are present. -/
theorem touch_base (env : Collaborators) (df : DecimalFormat) (status : UErrorCode)
    (e : DecimalFormatProperties) (hex : df.fields.exportedProperties = some e) :
    (touch env df status).1.base =
      baseAfterRebuild env df.base
        (env.create df.fields.properties df.fields.symbols e status).2.1
        (env.create df.fields.properties df.fields.symbols e status).2.2
        df.fields.properties.groupingUsed := by
  unfold touch baseAfterRebuild
  simp only [hex, setupFastFormat_properties]

/-- With base-class setters as `integerDigitsFromArguments` describes them, the
integer-digit fields a rebuild leaves do not depend on the base-class part before. -/
theorem baseAfterRebuild_integerDigits (env : Collaborators) (h : integerDigitsFromArguments env)
    (a b : NumberFormat) (exported : DecimalFormatProperties) (status : UErrorCode)
    (groupingUsed : Bool) :
    (baseAfterRebuild env a exported status groupingUsed).fMaxIntegerDigits =
      (baseAfterRebuild env b exported status groupingUsed).fMaxIntegerDigits ∧
    (baseAfterRebuild env a exported status groupingUsed).fMinIntegerDigits =
      (baseAfterRebuild env b exported status groupingUsed).fMinIntegerDigits := by
  obtain ⟨hint, hmaxf, hminf, hgroup⟩ := h
  unfold baseAfterRebuild
  constructor
  · rw [(hgroup _ _).1, (hminf _ _).1, (hmaxf _ _).1, (hgroup _ _).1, (hminf _ _).1,
      (hmaxf _ _).1]
    exact (hint _ _ _ _).1
  · rw [(hgroup _ _).2, (hminf _ _).2, (hmaxf _ _).2, (hgroup _ _).2, (hminf _ _).2,
      (hmaxf _ _).2]
    exact (hint _ _ _ _).2

/-- C29, as stated, fails on an instance without exported properties: `touch` returns
at once there, so after `setRoundingMode(4)` on such an instance, whose rounding mode
was unset and whose base-class maximum integer digits were 0, the base-class maximum
integer digits hold the rounding-mode number 4. -/
theorem C29_counterexample_write_observable :
    sampleNotReady.fields.exportedProperties = none ∧
    sampleNotReady.fields.properties.roundingMode = none ∧
    sampleNotReady.base.fMaxIntegerDigits = 0 ∧
    (setRoundingMode sampleCollaborators sampleNotReady 4).fields.exportedProperties = none ∧
    (setRoundingMode sampleCollaborators sampleNotReady 4).base.fMaxIntegerDigits = 4 := by
  decide

/-- C29 (amended). `setRoundingMode` touches only the rounding mode: for every instance
state and every mode, `setRoundingMode(mode)` changes no bag field other than
roundingMode, and when mode equals the already-set rounding mode nothing at all
changes; for every instance state whose exported properties are present and every
other mode, when it returns the base-class part is the one the rebuild derives from
the exported properties by its base-class setter calls, made after the write of the
rounding-mode number, so that with base-class setters whose integer-digit result
depends on their arguments only, the base-class maximum and minimum integer digits are
those of the same call without that write. -/
theorem C29_setRoundingMode_touches_rounding_mode (env : Collaborators) (df : DecimalFormat)
    (mode : Int) :
    (setRoundingMode env df mode).fields.properties =
      { df.fields.properties with roundingMode := some mode } ∧
    (df.fields.properties.roundingMode = some mode → setRoundingMode env df mode = df) ∧
    (∀ e : DecimalFormatProperties, df.fields.exportedProperties = some e →
      df.fields.properties.roundingMode ≠ some mode →
      (setRoundingMode env df mode).base =
        baseAfterRebuild env (env.setMaximumIntegerDigits df.base mode)
          (env.create { df.fields.properties with roundingMode := some mode }
            df.fields.symbols e U_ZERO_ERROR).2.1
          (env.create { df.fields.properties with roundingMode := some mode }
            df.fields.symbols e U_ZERO_ERROR).2.2
          df.fields.properties.groupingUsed ∧
      (integerDigitsFromArguments env →
        (setRoundingMode env df mode).base.fMaxIntegerDigits =
          (touchNoError env (withProperties df
            { df.fields.properties with roundingMode := some mode })).base.fMaxIntegerDigits ∧
        (setRoundingMode env df mode).base.fMinIntegerDigits =
          (touchNoError env (withProperties df
            { df.fields.properties with roundingMode := some mode })).base.fMinIntegerDigits)) := by
  have hsame : df.fields.properties.roundingMode = some mode → setRoundingMode env df mode = df := by
    intro h
    unfold setRoundingMode
    rw [if_pos h]
  have hbase : ∀ e : DecimalFormatProperties, df.fields.exportedProperties = some e →
      df.fields.properties.roundingMode ≠ some mode →
      (setRoundingMode env df mode).base =
        baseAfterRebuild env (env.setMaximumIntegerDigits df.base mode)
          (env.create { df.fields.properties with roundingMode := some mode }
            df.fields.symbols e U_ZERO_ERROR).2.1
          (env.create { df.fields.properties with roundingMode := some mode }
            df.fields.symbols e U_ZERO_ERROR).2.2
          df.fields.properties.groupingUsed := by
    intro e hex hne
    unfold setRoundingMode
    rw [if_neg hne]
    exact touch_base env _ U_ZERO_ERROR e hex
  refine ⟨?_, hsame, fun e hex hne => ⟨hbase e hex hne, fun henv => ?_⟩⟩
  · by_cases h : df.fields.properties.roundingMode = some mode
    · rw [hsame h, ← h]
    · unfold setRoundingMode
      rw [if_neg h]
      simp only [touchNoError_properties, withProperties]
  · rw [hbase e hex hne]
    have hplain : (touchNoError env (withProperties df
        { df.fields.properties with roundingMode := some mode })).base =
        baseAfterRebuild env df.base
          (env.create { df.fields.properties with roundingMode := some mode }
            df.fields.symbols e U_ZERO_ERROR).2.1
          (env.create { df.fields.properties with roundingMode := some mode }
            df.fields.symbols e U_ZERO_ERROR).2.2
          df.fields.properties.groupingUsed :=
      touch_base env _ U_ZERO_ERROR e hex
    rw [hplain]
    exact baseAfterRebuild_integerDigits env henv _ _ _ _ _

/-- C29 (amended), on the rebuilt sample instance, whose base-class setters store their
argument: after `setRoundingMode(4)` the bag has roundingMode 4 and is otherwise as
before, and the base-class maximum integer digits are those of a plain rebuild, not the
rounding-mode number. -/
theorem C29_setRoundingMode_witness :
    (setRoundingMode sampleCollaborators sampleBuilt 4).fields.properties =
      { sampleBuilt.fields.properties with roundingMode := some 4 } ∧
    (setRoundingMode sampleCollaborators sampleBuilt 4).base.fMaxIntegerDigits = -1 ∧
    ((setRoundingMode sampleCollaborators sampleBuilt 4).base.fMaxIntegerDigits =
        (touchNoError sampleCollaborators (withProperties sampleBuilt
          { sampleBuilt.fields.properties with roundingMode := some 4 })).base.fMaxIntegerDigits ∧
      (setRoundingMode sampleCollaborators sampleBuilt 4).base.fMinIntegerDigits =
        (touchNoError sampleCollaborators (withProperties sampleBuilt
          { sampleBuilt.fields.properties with roundingMode := some 4 })).base.fMinIntegerDigits) :=
  ⟨(C29_setRoundingMode_touches_rounding_mode sampleCollaborators sampleBuilt 4).1,
    by decide,
    ((C29_setRoundingMode_touches_rounding_mode sampleCollaborators sampleBuilt 4).2.2
      sampleExported (by decide) (by decide)).2
      ⟨fun _ _ _ _ => ⟨rfl, rfl⟩, fun _ _ => ⟨rfl, rfl⟩, fun _ _ => ⟨rfl, rfl⟩,
        fun _ _ => ⟨rfl, rfl⟩⟩⟩

end Decimfmt
